import Mathlib

/-!
# Baseweb: Popover and Toast components

A shallow embedding of `src/popover/popover.js` and `src/toast/toast.js`.

A component instance is a record of its props, its React state, its instance
fields and the part of the browser it talks to: the timer queue behind
`setTimeout`/`clearTimeout`, the registered document listeners and a trace of
the outward calls it makes (props callbacks, `console.error`, Popper calls).
Methods are functions on that record.  `setState` applies the update at once
and then runs `componentDidUpdate`, as React does for a class component.
-/

namespace Baseweb

/-! ## JavaScript values and objects -/

/-- The three refs a Popover creates with `React.createRef()`. -/
inductive RefName
  | anchorRef | popperRef | arrowRef
  deriving DecidableEq, Repr

/-- Function values that a Popover or a Toast puts into rendered props. -/
inductive Fn
  | onAnchorClick | onAnchorMouseEnter | onAnchorMouseLeave
  | onPopoverMouseEnter | onPopoverMouseLeave
  | propsOnBlur | propsOnFocus
  | toastOnBlur | toastOnFocus | toastOnMouseEnter | toastOnMouseLeave | toastDismiss
  deriving DecidableEq, Repr

/-- The JavaScript values that occur as prop values in this development. -/
inductive Val
  | undefined
  | null
  | bool (b : Bool)
  | num (n : Int)
  | str (s : String)
  | offset (left top : Int)
  | ref (r : RefName)
  | fn (f : Fn)
  deriving DecidableEq, Repr

/-- A JavaScript object literal: keys in insertion order, each at most once. -/
abbrev Obj := List (String × Val)

/-- Assignment `o[k] = v`. -/
def setKey (o : Obj) (k : String) (v : Val) : Obj :=
  match o with
  | [] => [(k, v)]
  | (k', v') :: rest =>
    if k' = k then (k, v) :: rest else (k', v') :: setKey rest k v

/-- Test `k in o`. -/
def hasKey (o : Obj) (k : String) : Bool :=
  o.any (fun kv => kv.1 == k)

/-- Read `o[k]`; a missing key reads as `undefined`. -/
def getKey (o : Obj) (k : String) : Val :=
  match o.find? (fun kv => kv.1 == k) with
  | some kv => kv.2
  | none => Val.undefined

/-- Object spread `{...o, ...extra}`. -/
def spread (o extra : Obj) : Obj :=
  extra.foldl (fun acc kv => setKey acc kv.1 kv.2) o

/-! ## React nodes -/

/-- The `type` of a React element: a tag name or a component. -/
inductive ElementType
  | dom (tag : String)
  | component (name : String)
  deriving DecidableEq, Repr

/-- Values of Flow type `React.Node`. -/
inductive Child
  | undefined
  | null
  | bool (b : Bool)
  | number (n : Int)
  | text (s : String)
  | element (type : ElementType) (props : Obj)
  | array (items : List Child)

mutual
/-- React's `React.Children.toArray`: flattens nested arrays and drops
`undefined`, `null` and booleans. -/
def Children.toArray : Child → List Child
  | .undefined => []
  | .null => []
  | .bool _ => []
  | .number n => [.number n]
  | .text s => [.text s]
  | .element t p => [.element t p]
  | .array items => Children.toArrayList items
/-- The flattening of `Children.toArray` over the items of an array. -/
def Children.toArrayList : List Child → List Child
  | [] => []
  | c :: cs => Children.toArray c ++ Children.toArrayList cs
end

/-- JavaScript truthiness of a `React.Node` value. -/
def Child.truthy : Child → Bool
  | .undefined => false
  | .null => false
  | .bool b => b
  | .number n => n != 0
  | .text s => s != ""
  | .element _ _ => true
  | .array _ => true

/-- React's `React.isValidElement`. -/
def Child.isValidElement : Child → Bool
  | .element _ _ => true
  | _ => false

/-- The test `typeof x === 'object'` on a `React.Node` value. -/
def Child.isObject : Child → Bool
  | .null => true
  | .element _ _ => true
  | .array _ => true
  | _ => false

/-- The test `typeof anchor.type === 'string'` for an object value. -/
def Child.typeIsString : Child → Bool
  | .element (.dom _) _ => true
  | _ => false

/-! ## What the Popover takes from outside its own file -/

/-- An offset object as Popper reports it. -/
structure PopperOffset where
  top : Int
  left : Int
  deriving DecidableEq, Repr

/-- An offset as the Popover keeps it in its state. -/
structure Offset where
  left : Int
  top : Int
  deriving DecidableEq, Repr

/-- The build flag, the constants of `constants.js` and the helpers of
`utils.js` and `helpers/overrides.js`.  None of them is defined in
`popover.js`, so every definition below takes them as a parameter. -/
structure Env where
  /-- The global `__BROWSER__`. -/
  BROWSER : Bool
  TRIGGER_TYPE_click : String
  TRIGGER_TYPE_hover : String
  ACCESSIBILITY_TYPE_menu : String
  ACCESSIBILITY_TYPE_tooltip : String
  PLACEMENT_top : String
  toPopperPlacement : String → String
  /-- The result `none` stands for a falsy result. -/
  fromPopperPlacement : String → Option String
  parsePopperOffset : PopperOffset → Offset
  /-- The result `none` stands for a falsy result. -/
  getOverride : Option String → Option String
  getOverrideProps : Option String → Obj
  /-- The node `document.body`. -/
  documentBody : Nat

/-! ## Popover: props, state, instance -/

/-- The `content` prop: a node, or a function returning one. -/
inductive Content
  | node (c : Child)
  | function (result : Child)

/-- The `overrides` prop; `none` is an override left undefined. -/
structure Overrides where
  Arrow : Option String
  Body : Option String
  Inner : Option String

/-- Props of the Popover (`PopoverPropsT`).  A callback prop is recorded by
whether it was passed; `id` is `none` when undefined; a delay of 0 stands for
every falsy delay. -/
structure PopoverProps where
  isOpen : Bool
  placement : String
  triggerType : String
  accessibilityType : String
  id : Option String
  onMouseEnterDelay : Nat
  onMouseLeaveDelay : Nat
  showArrow : Bool
  ignoreBoundary : Bool
  children : Child
  content : Content
  mountNode : Option Nat
  overrides : Overrides
  onBlur : Bool
  onFocus : Bool
  onClick : Bool
  onClickOutside : Bool
  onEsc : Bool
  onMouseEnter : Bool
  onMouseLeave : Bool

/-- Private state of the Popover (`PopoverPrivateStateT`). -/
structure PopoverState where
  isAnimating : Bool
  arrowOffset : Offset
  popoverOffset : Offset
  placement : String
  isMounted : Bool
  deriving DecidableEq, Repr

/-- The functions the Popover hands to `setTimeout`. -/
inductive TimerFn
  | animateIn
  | animateOut
  | animateOutComplete
  | triggerOnMouseEnter
  | triggerOnMouseLeave
  deriving DecidableEq, Repr

/-- A timer waiting in the browser: the id `setTimeout` returned, the time at
which it is due and the function to run. -/
structure Timer (κ : Type) where
  id : Nat
  due : Nat
  cb : κ
  deriving DecidableEq, Repr

/-- Where a component is in its life. -/
inductive Phase
  | constructed
  | mounted
  | unmounted
  deriving DecidableEq, Repr

/-- A click event on the document. -/
structure MouseEvent where
  target : Nat
  timeStamp : Nat
  deriving DecidableEq, Repr

/-- The data object Popper passes to a modifier. -/
structure PopperData where
  placement : String
  arrowOffset : Option PopperOffset
  popperOffset : PopperOffset
  deriving DecidableEq, Repr

/-- The arguments of `new Popper(...)` that `initializePopper` passes. -/
structure PopperInstance where
  reference : Option Nat
  popper : Option Nat
  placement : String
  arrowElement : Option Nat
  arrowEnabled : Bool
  preventOverflowEnabled : Bool
  deriving DecidableEq, Repr

/-- Outward calls of a Popover, in the order they happen. -/
inductive Call
  | propsOnClick (e : Nat)
  | propsOnClickOutside (evt : MouseEvent)
  | propsOnEsc
  | propsOnMouseEnter
  | propsOnMouseLeave
  | popperScheduleUpdate
  | popperDestroy
  /-- React drops and reports a `setState` on an unmounted component. -/
  | setStateOnUnmounted
  deriving DecidableEq, Repr

/-- A Popover instance together with the part of the browser it acts on. -/
structure Popover where
  props : PopoverProps
  state : PopoverState
  animateInTimer : Option Nat
  animateOutTimer : Option Nat
  animateOutCompleteTimer : Option Nat
  onMouseEnterTimer : Option Nat
  onMouseLeaveTimer : Option Nat
  generatedId : String
  popper : Option PopperInstance
  /-- The field `anchorRef.current`. -/
  anchorRef : Option Nat
  /-- The field `popperRef.current`. -/
  popperRef : Option Nat
  /-- The field `arrowRef.current`. -/
  arrowRef : Option Nat
  popperHeight : Nat
  phase : Phase
  /-- Timers set and neither fired nor cleared, oldest first. -/
  timers : List (Timer TimerFn)
  /-- The id the next `setTimeout` returns. -/
  nextTimerId : Nat
  /-- Milliseconds on the clock behind `setTimeout`. -/
  now : Nat
  /-- Whether `onDocumentClick` is a click listener of the document. -/
  clickListener : Bool
  /-- Whether `onKeyPress` is a keyup listener of the document. -/
  keyupListener : Bool
  /-- What `getBoundingClientRect().height` of the popper element returns. -/
  popperRectHeight : Nat
  /-- The DOM method `a.contains(b)`. -/
  contains : Nat → Nat → Bool
  trace : List Call

namespace Popover

/-- Record an outward call. -/
def emit (c : Call) (s : Popover) : Popover :=
  { s with trace := s.trace ++ [c] }

/-- The browser's `setTimeout(cb, delay)`: returns the new id. -/
def setTimeout (cb : TimerFn) (delay : Nat) (s : Popover) : Nat × Popover :=
  (s.nextTimerId,
   { s with
     timers := s.timers ++ [{ id := s.nextTimerId, due := s.now + delay, cb := cb }]
     nextTimerId := s.nextTimerId + 1 })

/-- The browser's `clearTimeout(id)`. -/
def clearTimeout (id : Nat) (s : Popover) : Popover :=
  { s with timers := s.timers.filter (fun t => t.id != id) }

/-- The statement `if (timerId) { clearTimeout(timerId); }`. -/
def clearIfSet (timerId : Option Nat) (s : Popover) : Popover :=
  match timerId with
  | some id => if id != 0 then clearTimeout id s else s
  | none => s

def getDefaultState (props : PopoverProps) : PopoverState :=
  { isAnimating := false
    arrowOffset := { left := 0, top := 0 }
    popoverOffset := { left := 0, top := 0 }
    placement := props.placement
    isMounted := false }

/-- The instance after its constructor ran: no timers, timer ids start at 1. -/
def init (props : PopoverProps) : Popover :=
  { props := props
    state := getDefaultState props
    animateInTimer := none
    animateOutTimer := none
    animateOutCompleteTimer := none
    onMouseEnterTimer := none
    onMouseLeaveTimer := none
    generatedId := ""
    popper := none
    anchorRef := none
    popperRef := none
    arrowRef := none
    popperHeight := 0
    phase := Phase.constructed
    timers := []
    nextTimerId := 1
    now := 0
    clickListener := false
    keyupListener := false
    popperRectHeight := 0
    contains := fun _ _ => false
    trace := [] }

def isClickTrigger (E : Env) (s : Popover) : Bool :=
  s.props.triggerType == E.TRIGGER_TYPE_click

def isHoverTrigger (E : Env) (s : Popover) : Bool :=
  s.props.triggerType == E.TRIGGER_TYPE_hover

def isAccessibilityTypeMenu (E : Env) (s : Popover) : Bool :=
  s.props.accessibilityType == E.ACCESSIBILITY_TYPE_menu

def isAccessibilityTypeTooltip (E : Env) (s : Popover) : Bool :=
  s.props.accessibilityType == E.ACCESSIBILITY_TYPE_tooltip

def clearTimers (s : Popover) : Popover :=
  [s.animateInTimer, s.animateOutTimer, s.animateOutCompleteTimer,
   s.onMouseEnterTimer, s.onMouseLeaveTimer].foldl
    (fun acc timerId => clearIfSet timerId acc) s

def addDomEvents (E : Env) (s : Popover) : Popover :=
  if E.BROWSER then { s with clickListener := true, keyupListener := true } else s

def removeDomEvents (E : Env) (s : Popover) : Popover :=
  if E.BROWSER then { s with clickListener := false, keyupListener := false } else s

def destroyPopover (E : Env) (s : Popover) : Popover :=
  let s1 :=
    match s.popper with
    | some _ => { emit Call.popperDestroy s with popper := none }
    | none => s
  if isClickTrigger E s1 then removeDomEvents E s1 else s1

def initializePopper (E : Env) (s : Popover) : Popover :=
  { s with
    popper := some
      { reference := s.anchorRef
        popper := s.popperRef
        placement := E.toPopperPlacement s.state.placement
        arrowElement := s.arrowRef
        arrowEnabled := s.props.showArrow
        preventOverflowEnabled := !s.props.ignoreBoundary } }

/-- The first statement of `componentDidUpdate`: when the popper element has
changed height, remember the height and ask Popper for an update. -/
def syncPopperHeight (s : Popover) : Popover :=
  match s.popperRef with
  | some _ =>
    let height := s.popperRectHeight
    if s.popperHeight != height then
      let s2 := { s with popperHeight := height }
      match s2.popper with
      | some _ => emit Call.popperScheduleUpdate s2
      | none => s2
    else s
  | none => s

def componentDidUpdate (E : Env) (prevProps : PopoverProps) (prevState : PopoverState)
    (s : Popover) : Popover :=
  let s1 := syncPopperHeight s
  if s1.props.isOpen != prevProps.isOpen || s1.state.isMounted != prevState.isMounted then
    if s1.props.isOpen then
      addDomEvents E (initializePopper E (clearTimers s1))
    else if !s1.props.isOpen && prevProps.isOpen then
      let s2 := removeDomEvents E (destroyPopover E s1)
      let r := setTimeout TimerFn.animateOut 20 s2
      { r.2 with animateOutTimer := some r.1 }
    else s1
  else s1

/-- React's `this.setState(update)`: the state changes and `componentDidUpdate`
runs with the state before; on an unmounted component nothing changes. -/
def setState (E : Env) (update : PopoverState → PopoverState) (s : Popover) : Popover :=
  if s.phase = Phase.unmounted then emit Call.setStateOnUnmounted s
  else componentDidUpdate E s.props s.state { s with state := update s.state }

def componentDidMount (E : Env) (buiId : String) (s : Popover) : Popover :=
  setState E (fun st => { st with isMounted := true }) { s with generatedId := buiId }

def componentWillUnmount (E : Env) (s : Popover) : Popover :=
  clearTimers (removeDomEvents E (destroyPopover E s))

def animateIn (E : Env) (s : Popover) : Popover :=
  if s.props.isOpen then setState E (fun st => { st with isAnimating := true }) s else s

/-- The arrow function `animateOut` hands to `setTimeout`. -/
def animateOutComplete (E : Env) (s : Popover) : Popover :=
  setState E (fun st => { st with isAnimating := false, placement := s.props.placement }) s

def animateOut (E : Env) (s : Popover) : Popover :=
  if !s.props.isOpen then
    let s1 := setState E (fun st => { st with isAnimating := true }) s
    let r := setTimeout TimerFn.animateOutComplete 500 s1
    { r.2 with animateOutCompleteTimer := some r.1 }
  else s

def onAnchorClick (e : Nat) (s : Popover) : Popover :=
  if s.props.onClick then emit (Call.propsOnClick e) s else s

def triggerOnMouseLeave (s : Popover) : Popover :=
  if s.props.onMouseLeave then emit Call.propsOnMouseLeave s else s

def triggerOnMouseLeaveWithDelay (s : Popover) : Popover :=
  if s.props.onMouseLeaveDelay != 0 then
    let r := setTimeout TimerFn.triggerOnMouseLeave s.props.onMouseLeaveDelay s
    { r.2 with onMouseLeaveTimer := some r.1 }
  else triggerOnMouseLeave s

def triggerOnMouseEnter (s : Popover) : Popover :=
  if s.props.onMouseEnter then emit Call.propsOnMouseEnter s else s

def triggerOnMouseEnterWithDelay (s : Popover) : Popover :=
  if s.props.onMouseEnterDelay != 0 then
    let r := setTimeout TimerFn.triggerOnMouseEnter s.props.onMouseEnterDelay s
    { r.2 with onMouseEnterTimer := some r.1 }
  else triggerOnMouseEnter s

def onAnchorMouseEnter (s : Popover) : Popover :=
  triggerOnMouseEnterWithDelay (clearIfSet s.onMouseLeaveTimer s)

def onAnchorMouseLeave (s : Popover) : Popover :=
  triggerOnMouseLeaveWithDelay (clearIfSet s.onMouseEnterTimer s)

def onPopoverMouseEnter (s : Popover) : Popover :=
  clearIfSet s.onMouseLeaveTimer s

def onPopoverMouseLeave (s : Popover) : Popover :=
  triggerOnMouseLeaveWithDelay s

def onKeyPress (key : String) (s : Popover) : Popover :=
  if key == "Escape" && s.props.onEsc then emit Call.propsOnEsc s else s

def onPopperUpdate (E : Env) (data : PopperData) (s : Popover) : Popover :=
  let placement :=
    match E.fromPopperPlacement data.placement with
    | some p => p
    | none => E.PLACEMENT_top
  let s1 := setState E (fun st =>
    { st with
      arrowOffset :=
        match data.arrowOffset with
        | some a => E.parsePopperOffset a
        | none => { top := 0, left := 0 }
      popoverOffset := E.parsePopperOffset data.popperOffset
      placement := placement }) s
  let r := setTimeout TimerFn.animateIn 20 s1
  { r.2 with animateInTimer := some r.1 }

def onDocumentClick (evt : MouseEvent) (s : Popover) : Popover :=
  let target := evt.target
  match s.popperRef with
  | none => s
  | some popper =>
    if popper == target || s.contains popper target then s
    else
      match s.anchorRef with
      | none => s
      | some anchor =>
        if anchor == target || s.contains anchor target then s
        else if s.props.onClickOutside then emit (Call.propsOnClickOutside evt) s
        else s

/-- The operand `x` of `x || ...` for a string that may be undefined: `none`
when `x` is falsy. -/
def truthyString (x : Option String) : Option String :=
  match x with
  | some v => if v != "" then some v else none
  | none => none

/-- A string or `null` as a prop value. -/
def stringOrNull (x : Option String) : Val :=
  match x with
  | some v => Val.str v
  | none => Val.null

/-- The result `none` stands for `null`. -/
def getPopoverIdAttr (s : Popover) : Option String :=
  match truthyString s.props.id with
  | some v => some v
  | none => truthyString (some s.generatedId)

/-- The result `none` stands for `null`. -/
def getAnchorIdAttr (s : Popover) : Option String :=
  match truthyString (getPopoverIdAttr s) with
  | some popoverId => some (popoverId ++ "__anchor")
  | none => none

/-- The parameter type of `getAnchorProps`, the Flow type with members 'ref' and '$ref'. -/
inductive RefKey
  | ref
  | dollarRef
  deriving DecidableEq, Repr

/-- The string a `RefKey` is. -/
def RefKey.name : RefKey → String
  | RefKey.ref => "ref"
  | RefKey.dollarRef => "$ref"

def getAnchorProps (E : Env) (refKey : RefKey) (s : Popover) : Obj :=
  let isOpen := s.props.isOpen
  let anchorProps : Obj :=
    [("key", Val.str "popover-anchor"), (refKey.name, Val.ref RefName.anchorRef)]
  let anchorId := getAnchorIdAttr s
  let popoverId := getPopoverIdAttr s
  let anchorProps :=
    if isAccessibilityTypeMenu E s then
      let a1 := setKey anchorProps "aria-haspopup" (Val.str "true")
      let a2 := setKey a1 "aria-expanded" (Val.str (if isOpen then "true" else "false"))
      let relationAttr := if isClickTrigger E s then "aria-controls" else "aria-owns"
      setKey a2 relationAttr (if isOpen then stringOrNull popoverId else Val.null)
    else if isAccessibilityTypeTooltip E s then
      let a1 := setKey anchorProps "id" (stringOrNull anchorId)
      setKey a1 "aria-describedby" (if isOpen then stringOrNull popoverId else Val.null)
    else anchorProps
  if isHoverTrigger E s then
    let a1 := setKey anchorProps "onMouseEnter" (Val.fn Fn.onAnchorMouseEnter)
    let a2 := setKey a1 "onMouseLeave" (Val.fn Fn.onAnchorMouseLeave)
    let a3 := setKey a2 "onBlur" (if s.props.onBlur then Val.fn Fn.propsOnBlur else Val.undefined)
    setKey a3 "onFocus" (if s.props.onFocus then Val.fn Fn.propsOnFocus else Val.undefined)
  else
    setKey anchorProps "onClick" (Val.fn Fn.onAnchorClick)

def getPopoverBodyProps (E : Env) (s : Popover) : Obj :=
  let bodyProps : Obj := []
  let popoverId := getPopoverIdAttr s
  let bodyProps :=
    if isAccessibilityTypeMenu E s then
      setKey bodyProps "id" (stringOrNull popoverId)
    else if isAccessibilityTypeTooltip E s then
      setKey (setKey bodyProps "id" (stringOrNull popoverId)) "role" (Val.str "tooltip")
    else bodyProps
  if isHoverTrigger E s then
    setKey (setKey bodyProps "onMouseEnter" (Val.fn Fn.onPopoverMouseEnter))
      "onMouseLeave" (Val.fn Fn.onPopoverMouseLeave)
  else bodyProps

def getSharedProps (s : Popover) : Obj :=
  [("$showArrow", Val.bool s.props.showArrow),
   ("$arrowOffset", Val.offset s.state.arrowOffset.left s.state.arrowOffset.top),
   ("$popoverOffset", Val.offset s.state.popoverOffset.left s.state.popoverOffset.top),
   ("$placement", Val.str s.state.placement),
   ("$isAnimating", Val.bool s.state.isAnimating),
   ("$isOpen", Val.bool s.props.isOpen)]

/-- The message `getAnchorFromChildren` reports for `n` children. -/
def childCountMessage (n : Nat) : String :=
  "[baseui] Exactly 1 child must be passed to Popover/Tooltip, found " ++ toString n ++
    " children"

/-- Returns `childArray[0]` (`none` for `undefined`) and what was passed to
`console.error`. -/
def getAnchorFromChildren (s : Popover) : Option Child × List String :=
  let childArray := Children.toArray s.props.children
  let errors := if childArray.length != 1 then [childCountMessage childArray.length] else []
  (childArray.head?, errors)

def getMountNode (E : Env) (s : Popover) : Nat :=
  match s.props.mountNode with
  | some mountNode => mountNode
  | none => E.documentBody

/-- The element the Popover renders for its body. -/
structure ArrowElement where
  component : String
  props : Obj

/-- The inner element of the body, holding the content. -/
structure InnerElement where
  component : String
  props : Obj
  child : Child

/-- The body element with its arrow (if any) and inner element. -/
structure BodyElement where
  component : String
  props : Obj
  arrow : Option ArrowElement
  inner : InnerElement

/-- One entry of the array `render` returns. -/
inductive Rendered
  | null
  | cloneElement (anchor : Child) (props : Obj)
  | span (props : Obj) (child : Child)
  | portal (body : BodyElement) (mountNode : Nat)

/-- Returns what `renderAnchor` returns and what was passed to `console.error`. -/
def renderAnchor (E : Env) (s : Popover) : Rendered × List String :=
  let r := getAnchorFromChildren s
  match r.1 with
  | none => (Rendered.null, r.2)
  | some anchor =>
    if !anchor.truthy then (Rendered.null, r.2)
    else
      let isValidElement := anchor.isValidElement
      let isDomElement := anchor.isObject && anchor.typeIsString
      let refKey := if isValidElement && !isDomElement then RefKey.dollarRef else RefKey.ref
      let anchorProps := getAnchorProps E refKey s
      if anchor.isObject && isValidElement then
        (Rendered.cloneElement anchor anchorProps, r.2)
      else (Rendered.span anchorProps anchor, r.2)

def renderPopover (E : Env) (s : Popover) : BodyElement :=
  let ArrowOverride := s.props.overrides.Arrow
  let BodyOverride := s.props.overrides.Body
  let InnerOverride := s.props.overrides.Inner
  let Arrow := (E.getOverride ArrowOverride).getD "StyledArrow"
  let Body := (E.getOverride BodyOverride).getD "StyledBody"
  let Inner := (E.getOverride InnerOverride).getD "StyledInner"
  let sharedProps := getSharedProps s
  let bodyProps := getPopoverBodyProps E s
  { component := Body
    props := spread (spread (spread
      [("key", Val.str "popover-body"), ("$ref", Val.ref RefName.popperRef)] bodyProps)
      sharedProps) (E.getOverrideProps BodyOverride)
    arrow :=
      if s.props.showArrow then
        some
          { component := Arrow
            props := spread (spread
              [("key", Val.str "popover-arrow"), ("$ref", Val.ref RefName.arrowRef)]
              sharedProps) (E.getOverrideProps ArrowOverride) }
      else none
    inner :=
      { component := Inner
        props := spread (spread [("key", Val.str "popover-inner")] sharedProps)
          (E.getOverrideProps InnerOverride)
        child :=
          match s.props.content with
          | Content.function result => result
          | Content.node c => c } }

/-- Returns the array `render` returns and what was passed to `console.error`. -/
def render (E : Env) (s : Popover) : List Rendered × List String :=
  let a := renderAnchor E s
  let rendered := [a.1]
  let rendered :=
    if E.BROWSER then
      if s.state.isMounted && (s.props.isOpen || s.state.isAnimating) then
        let mountNode := getMountNode E s
        rendered ++ [Rendered.portal (renderPopover E s) mountNode]
      else rendered
    else rendered
  (rendered, a.2)

/-! ### The Popover as a state machine -/

/-- What can happen to a Popover: React's lifecycle calls, React attaching refs
and the browser laying out, a Popper update, the DOM events its handlers are
bound to, and a millisecond passing. -/
inductive Event
  | mount (buiId : String)
  | update (props : PopoverProps)
  | unmount
  | commit (anchor popper arrow : Option Nat) (height : Nat) (contains : Nat → Nat → Bool)
  | popperUpdate (data : PopperData)
  | anchorClick (e : Nat)
  | anchorMouseEnter
  | anchorMouseLeave
  | popoverMouseEnter
  | popoverMouseLeave
  | documentClick (evt : MouseEvent)
  | documentKeyup (key : String)
  | tick

/-- The function a timer holds. -/
def runTimerFn (E : Env) (f : TimerFn) (s : Popover) : Popover :=
  match f with
  | TimerFn.animateIn => animateIn E s
  | TimerFn.animateOut => animateOut E s
  | TimerFn.animateOutComplete => animateOutComplete E s
  | TimerFn.triggerOnMouseEnter => triggerOnMouseEnter s
  | TimerFn.triggerOnMouseLeave => triggerOnMouseLeave s

/-- The browser runs the timer `id`: it leaves the queue and its function is
called.  Nothing happens when no such timer is waiting. -/
def runTimer (E : Env) (id : Nat) (s : Popover) : Popover :=
  match s.timers.find? (fun t => t.id == id) with
  | some t => runTimerFn E t.cb { s with timers := s.timers.filter (fun t => t.id != id) }
  | none => s

/-- Time passes until the timer `id` is due, if it is not yet, and the browser
runs it.  Nothing happens when no such timer is waiting. -/
def fireTimer (E : Env) (id : Nat) (s : Popover) : Popover :=
  match s.timers.find? (fun t => t.id == id) with
  | some t => runTimer E id { s with now := max s.now t.due }
  | none => s

/-- One millisecond passes: every timer due by then runs, oldest first, unless
it was cleared in the meantime. -/
def tick (E : Env) (s : Popover) : Popover :=
  let s1 := { s with now := s.now + 1 }
  ((s1.timers.filter (fun t => t.due ≤ s1.now)).map (fun t => t.id)).foldl
    (fun acc id => runTimer E id acc) s1

/-- The effect of one event.  Lifecycle calls come in React's order, handlers
run only while the component is mounted, document listeners only while
registered, and Popper calls back only while its instance exists. -/
def step (E : Env) (e : Event) (s : Popover) : Popover :=
  match e with
  | Event.mount buiId =>
    if s.phase = Phase.constructed then
      componentDidMount E buiId { s with phase := Phase.mounted }
    else s
  | Event.update props =>
    if s.phase = Phase.mounted then
      componentDidUpdate E s.props s.state { s with props := props }
    else s
  | Event.unmount =>
    if s.phase = Phase.mounted then
      { componentWillUnmount E s with phase := Phase.unmounted }
    else s
  | Event.commit anchor popper arrow height contains =>
    if s.phase = Phase.unmounted then s
    else
      { s with
        anchorRef := anchor, popperRef := popper, arrowRef := arrow
        popperRectHeight := height, contains := contains }
  | Event.popperUpdate data =>
    if s.phase = Phase.mounted && s.popper.isSome then onPopperUpdate E data s else s
  | Event.anchorClick e => if s.phase = Phase.mounted then onAnchorClick e s else s
  | Event.anchorMouseEnter => if s.phase = Phase.mounted then onAnchorMouseEnter s else s
  | Event.anchorMouseLeave => if s.phase = Phase.mounted then onAnchorMouseLeave s else s
  | Event.popoverMouseEnter => if s.phase = Phase.mounted then onPopoverMouseEnter s else s
  | Event.popoverMouseLeave => if s.phase = Phase.mounted then onPopoverMouseLeave s else s
  | Event.documentClick evt => if s.clickListener then onDocumentClick evt s else s
  | Event.documentKeyup key => if s.keyupListener then onKeyPress key s else s
  | Event.tick => tick E s

/-- The effect of a sequence of events, first to last. -/
def run (E : Env) (es : List Event) (s : Popover) : Popover :=
  es.foldl (fun acc e => step E e acc) s

/-- A state some sequence of events leads to from a freshly constructed
instance. -/
def Reachable (E : Env) (s : Popover) : Prop :=
  ∃ (props : PopoverProps) (es : List Event), s = run E es (init props)

/-- Whether the array `render` returns holds a portal. -/
def rendersBody (E : Env) (s : Popover) : Bool :=
  (render E s).1.any (fun r => match r with
    | Rendered.portal _ _ => true
    | _ => false)

end Popover

/-! ## Toast -/

/-- What the Toast takes from `helpers/overrides`: `getOverrides` gives the
component to use and its extra props, `mergeOverrides` the overrides handed to
the close icon. -/
structure ToastEnv where
  getOverrides : Option String → String → String × Obj
  mergeOverrides : String → Option String → String

/-- The `children` prop of a Toast: a node, or a function of `{dismiss}`. -/
inductive ToastChildren
  | node (c : Child)
  | function (result : Child)

/-- Props of the Toast (`ToastPropsT`) after `defaultProps` were applied.
`onClose` is a function by its type and its default.  For the other four
callbacks the field records whether the prop is a function.  A duration of 0
stands for every falsy duration. -/
structure ToastProps where
  autoHideDuration : Nat
  closeable : Bool
  kind : String
  children : ToastChildren
  overridesBody : Option String
  overridesCloseIcon : Option String
  onBlur : Bool
  onFocus : Bool
  onMouseEnter : Bool
  onMouseLeave : Bool

/-- Private state of the Toast (`ToastPrivateStateT`). -/
structure ToastState where
  isAnimating : Bool
  isHidden : Bool
  deriving DecidableEq, Repr

/-- The argument `callback` of `animateOut`. -/
inductive ToastCallback
  | propsOnClose
  | noop
  deriving DecidableEq, Repr

/-- The functions the Toast hands to `setTimeout`. -/
inductive ToastTimerFn
  | dismiss
  | animateOutComplete (callback : ToastCallback)
  deriving DecidableEq, Repr

/-- Calls observed on a Toast, in order: each entry into `dismiss`, each call
of a props callback, each `setState` React dropped after unmount. -/
inductive ToastCall
  | dismiss
  | propsOnClose
  | propsOnBlur (e : Nat)
  | propsOnFocus (e : Nat)
  | propsOnMouseEnter (e : Nat)
  | propsOnMouseLeave (e : Nat)
  | setStateOnUnmounted
  deriving DecidableEq, Repr

/-- A Toast instance together with the timer queue of the browser. -/
structure Toast where
  props : ToastProps
  state : ToastState
  autoHideTimeout : Option Nat
  animateOutCompleteTimer : Option Nat
  phase : Phase
  timers : List (Timer ToastTimerFn)
  nextTimerId : Nat
  now : Nat
  trace : List ToastCall

namespace Toast

def emit (c : ToastCall) (s : Toast) : Toast :=
  { s with trace := s.trace ++ [c] }

/-- The browser's `setTimeout(cb, delay)`: returns the new id. -/
def setTimeout (cb : ToastTimerFn) (delay : Nat) (s : Toast) : Nat × Toast :=
  (s.nextTimerId,
   { s with
     timers := s.timers ++ [{ id := s.nextTimerId, due := s.now + delay, cb := cb }]
     nextTimerId := s.nextTimerId + 1 })

/-- The browser's `clearTimeout(id)`. -/
def browserClearTimeout (id : Nat) (s : Toast) : Toast :=
  { s with timers := s.timers.filter (fun t => t.id != id) }

/-- React's `this.setState(update)`; the Toast has no `componentDidUpdate`. -/
def setState (update : ToastState → ToastState) (s : Toast) : Toast :=
  if s.phase = Phase.unmounted then emit ToastCall.setStateOnUnmounted s
  else { s with state := update s.state }

/-- The static `defaultProps`, completed by the children given; `KIND.info` is
defined in `constants.js` and taken as a parameter. -/
def defaultProps (KIND_info : String) (children : ToastChildren) : ToastProps :=
  { autoHideDuration := 0
    closeable := true
    kind := KIND_info
    children := children
    overridesBody := none
    overridesCloseIcon := none
    onBlur := true
    onFocus := true
    onMouseEnter := true
    onMouseLeave := true }

/-- The instance after its constructor ran. -/
def init (props : ToastProps) : Toast :=
  { props := props
    state := { isAnimating := false, isHidden := true }
    autoHideTimeout := none
    animateOutCompleteTimer := none
    phase := Phase.constructed
    timers := []
    nextTimerId := 1
    now := 0
    trace := [] }

def startTimeout (s : Toast) : Toast :=
  if s.props.autoHideDuration != 0 then
    let r := setTimeout ToastTimerFn.dismiss s.props.autoHideDuration s
    { r.2 with autoHideTimeout := some r.1 }
  else s

/-- The method `clearTimeout` of the Toast. -/
def clearTimeout (s : Toast) : Toast :=
  [s.autoHideTimeout, s.animateOutCompleteTimer].foldl
    (fun acc timerId =>
      match timerId with
      | some id => if id != 0 then browserClearTimeout id acc else acc
      | none => acc) s

def animateIn (s : Toast) : Toast :=
  setState (fun st => { st with isHidden := false, isAnimating := true }) s

def componentDidMount (s : Toast) : Toast :=
  startTimeout (animateIn s)

def componentWillUnmount (s : Toast) : Toast :=
  clearTimeout s

/-- Calling the function passed as `callback`. -/
def runCallback (callback : ToastCallback) (s : Toast) : Toast :=
  match callback with
  | ToastCallback.propsOnClose => emit ToastCall.propsOnClose s
  | ToastCallback.noop => s

/-- The arrow function `animateOut` hands to `setTimeout`. -/
def animateOutComplete (callback : ToastCallback) (s : Toast) : Toast :=
  runCallback callback (setState (fun st => { st with isAnimating := false }) s)

def animateOut (callback : ToastCallback) (s : Toast) : Toast :=
  let s1 := setState (fun st => { st with isAnimating := true }) s
  let r := setTimeout (ToastTimerFn.animateOutComplete callback) 600 s1
  { r.2 with animateOutCompleteTimer := some r.1 }

def dismiss (s : Toast) : Toast :=
  let s1 := animateOut ToastCallback.propsOnClose (emit ToastCall.dismiss s)
  setState (fun st => { st with isHidden := true }) s1

def onFocus (e : Nat) (s : Toast) : Toast :=
  let s1 := clearTimeout s
  if s1.props.onFocus then emit (ToastCall.propsOnFocus e) s1 else s1

def onMouseEnter (e : Nat) (s : Toast) : Toast :=
  let s1 := clearTimeout s
  if s1.props.onMouseEnter then emit (ToastCall.propsOnMouseEnter e) s1 else s1

def onBlur (e : Nat) (s : Toast) : Toast :=
  let s1 := startTimeout s
  if s1.props.onBlur then emit (ToastCall.propsOnBlur e) s1 else s1

def onMouseLeave (e : Nat) (s : Toast) : Toast :=
  let s1 := startTimeout s
  if s1.props.onMouseLeave then emit (ToastCall.propsOnMouseLeave e) s1 else s1

def getSharedProps (s : Toast) : Obj :=
  [("$kind", Val.str s.props.kind),
   ("$closeable", Val.bool s.props.closeable),
   ("$isHidden", Val.bool s.state.isHidden),
   ("$isAnimating", Val.bool s.state.isAnimating)]

/-- The close icon of a rendered Toast. -/
structure CloseIconElement where
  props : Obj
  overrides : String

/-- The element a Toast renders. -/
structure BodyElement where
  component : String
  props : Obj
  closeIcon : Option CloseIconElement
  child : Child

/-- The result `none` stands for `null`. -/
def render (E : ToastEnv) (s : Toast) : Option BodyElement :=
  let body := E.getOverrides s.props.overridesBody "StyledBody"
  let closeIcon := E.getOverrides s.props.overridesCloseIcon "StyledCloseIcon"
  let closeIconOverrides := E.mergeOverrides closeIcon.1 s.props.overridesCloseIcon
  let sharedProps := getSharedProps s
  if s.state.isHidden && !s.state.isAnimating then none
  else
    some
      { component := body.1
        props := spread (spread (spread
          [("tabIndex", Val.num 0), ("role", Val.str "alert")] sharedProps) body.2)
          [("onBlur", Val.fn Fn.toastOnBlur), ("onFocus", Val.fn Fn.toastOnFocus),
           ("onMouseEnter", Val.fn Fn.toastOnMouseEnter),
           ("onMouseLeave", Val.fn Fn.toastOnMouseLeave)]
        closeIcon :=
          if s.props.closeable then
            some
              { props := spread (spread [("onClick", Val.fn Fn.toastDismiss)] sharedProps)
                  closeIcon.2
                overrides := closeIconOverrides }
          else none
        child :=
          match s.props.children with
          | ToastChildren.function result => result
          | ToastChildren.node c => c }

/-! ### The Toast as a state machine -/

/-- What can happen to a Toast: mounting, new props, unmounting, a call of `dismiss`
(from the close icon or from the children), the four DOM events its body
listens to, and a millisecond passing. -/
inductive Event
  | mount
  | update (props : ToastProps)
  | unmount
  | dismiss
  | focus (e : Nat)
  | blur (e : Nat)
  | mouseEnter (e : Nat)
  | mouseLeave (e : Nat)
  | tick

/-- The function a timer holds. -/
def runTimerFn (f : ToastTimerFn) (s : Toast) : Toast :=
  match f with
  | ToastTimerFn.dismiss => dismiss s
  | ToastTimerFn.animateOutComplete callback => animateOutComplete callback s

/-- The browser runs the timer `id`: it leaves the queue and its function is
called.  Nothing happens when no such timer is waiting. -/
def runTimer (id : Nat) (s : Toast) : Toast :=
  match s.timers.find? (fun t => t.id == id) with
  | some t => runTimerFn t.cb { s with timers := s.timers.filter (fun t => t.id != id) }
  | none => s

/-- One millisecond passes: every timer due by then runs, oldest first, unless
it was cleared in the meantime. -/
def tick (s : Toast) : Toast :=
  let s1 := { s with now := s.now + 1 }
  ((s1.timers.filter (fun t => t.due ≤ s1.now)).map (fun t => t.id)).foldl
    (fun acc id => runTimer id acc) s1

/-- The effect of one event; handlers run only while the Toast is mounted. -/
def step (e : Event) (s : Toast) : Toast :=
  match e with
  | Event.mount =>
    if s.phase = Phase.constructed then componentDidMount { s with phase := Phase.mounted }
    else s
  | Event.update props => if s.phase = Phase.mounted then { s with props := props } else s
  | Event.unmount =>
    if s.phase = Phase.mounted then { componentWillUnmount s with phase := Phase.unmounted }
    else s
  | Event.dismiss => if s.phase = Phase.mounted then dismiss s else s
  | Event.focus e => if s.phase = Phase.mounted then onFocus e s else s
  | Event.blur e => if s.phase = Phase.mounted then onBlur e s else s
  | Event.mouseEnter e => if s.phase = Phase.mounted then onMouseEnter e s else s
  | Event.mouseLeave e => if s.phase = Phase.mounted then onMouseLeave e s else s
  | Event.tick => tick s

/-- The effect of a sequence of events, first to last. -/
def run (es : List Event) (s : Toast) : Toast :=
  es.foldl (fun acc e => step e acc) s

/-- A state some sequence of events leads to from a freshly constructed
instance. -/
def Reachable (s : Toast) : Prop :=
  ∃ (props : ToastProps) (es : List Event), s = run es (init props)

/-- How often `dismiss` was entered. -/
def dismissCount (s : Toast) : Nat :=
  s.trace.count ToastCall.dismiss

/-- How often `props.onClose` was called. -/
def onCloseCount (s : Toast) : Nat :=
  s.trace.count ToastCall.propsOnClose

end Toast

/-! ## Predicates used in the statements and proofs -/

/-- Every waiting timer of a Toast has an id that `setTimeout` already gave out,
and the queue is in the order the ids were given out. -/
def Toast.Fresh (s : Toast) : Prop :=
  (∀ t ∈ s.timers, t.id < s.nextTimerId) ∧ s.timers.Pairwise (fun a b => a.id < b.id)

/-- The state of a Toast with props `q`, `k` ms after it was mounted with
`autoHideDuration` `N`, when nothing but time and new props acted on it, in
closed form: before the auto-hide timer, between that timer and the end of the
animation, and after. -/
def Toast.undisturbed (N : Nat) (q : ToastProps) (k : Nat) : Toast :=
  if N = 0 then
    { props := q, state := { isAnimating := true, isHidden := false }
      autoHideTimeout := none, animateOutCompleteTimer := none, phase := Phase.mounted
      timers := [], nextTimerId := 1, now := k, trace := [] }
  else if k < N then
    { props := q, state := { isAnimating := true, isHidden := false }
      autoHideTimeout := some 1, animateOutCompleteTimer := none, phase := Phase.mounted
      timers := [{ id := 1, due := N, cb := ToastTimerFn.dismiss }]
      nextTimerId := 2, now := k, trace := [] }
  else if k < N + 600 then
    { props := q, state := { isAnimating := true, isHidden := true }
      autoHideTimeout := some 1, animateOutCompleteTimer := some 2, phase := Phase.mounted
      timers := [{ id := 2, due := N + 600,
                   cb := ToastTimerFn.animateOutComplete ToastCallback.propsOnClose }]
      nextTimerId := 3, now := k, trace := [ToastCall.dismiss] }
  else
    { props := q, state := { isAnimating := false, isHidden := true }
      autoHideTimeout := some 1, animateOutCompleteTimer := some 2, phase := Phase.mounted
      timers := [], nextTimerId := 3, now := k
      trace := [ToastCall.dismiss, ToastCall.propsOnClose] }

/-- An event that is time passing or the parent passing new props: no DOM event,
no call of `dismiss`, no mounting or unmounting. -/
def Toast.Event.isPassive : Toast.Event → Bool
  | Toast.Event.tick => true
  | Toast.Event.update _ => true
  | _ => false

/-- The milliseconds that pass during a sequence of events. -/
def Toast.elapsed : List Toast.Event → Nat
  | [] => 0
  | Toast.Event.tick :: rest => Toast.elapsed rest + 1
  | _ :: rest => Toast.elapsed rest

/-- Props of a Toast used as a concrete instance: auto-hide after 3000 ms. -/
def Toast.sampleProps : ToastProps :=
  { autoHideDuration := 3000, closeable := true, kind := "info"
    children := ToastChildren.node (Child.text "Saved"), overridesBody := none
    overridesCloseIcon := none, onBlur := true, onFocus := true, onMouseEnter := true
    onMouseLeave := true }

/-- Override helpers used as a concrete instance: no override is given, so the
default component comes back with no extra props. -/
def Toast.sampleEnv : ToastEnv :=
  { getOverrides := fun _ d => (d, []), mergeOverrides := fun c _ => c }

/-- A property of a timer queue and the next timer id that survives both things
a component does to the queue: `setTimeout` and `clearTimeout`. -/
structure QueueInvariant (P : List (Timer TimerFn) → Nat → Prop) : Prop where
  push : ∀ ts n d cb, P ts n → P (ts ++ [{ id := n, due := d, cb := cb }]) (n + 1)
  filter : ∀ ts n (f : Timer TimerFn → Bool), P ts n → P (ts.filter f) n

/-- The property `P` holds of the queue of `s`. -/
def Popover.Holds (P : List (Timer TimerFn) → Nat → Prop) (s : Popover) : Prop :=
  P s.timers s.nextTimerId

/-- Timer ids start at 1, every waiting timer has an id already given out, and
the queue is in the order the ids were given out. -/
def Popover.QueueOk (ts : List (Timer TimerFn)) (n : Nat) : Prop :=
  1 ≤ n ∧ (∀ t ∈ ts, t.id < n) ∧ ts.Pairwise (fun a b => a.id < b.id)

/-- The id `L` was given out and no waiting timer carries it. -/
def Popover.Retired (L : Nat) (ts : List (Timer TimerFn)) (n : Nat) : Prop :=
  L < n ∧ ∀ t ∈ ts, t.id ≠ L

/-- Constants and helpers used as a concrete instance. -/
def Popover.sampleEnv : Env :=
  { BROWSER := true
    TRIGGER_TYPE_click := "click"
    TRIGGER_TYPE_hover := "hover"
    ACCESSIBILITY_TYPE_menu := "menu"
    ACCESSIBILITY_TYPE_tooltip := "tooltip"
    PLACEMENT_top := "top"
    toPopperPlacement := fun p => p
    fromPopperPlacement := fun p => some p
    parsePopperOffset := fun o => { left := o.left, top := o.top }
    getOverride := fun o => o
    getOverrideProps := fun _ => []
    documentBody := 0 }

/-- Props of an open hover Popover around a button, used as a concrete instance. -/
def Popover.sampleProps : PopoverProps :=
  { isOpen := true
    placement := "auto"
    triggerType := "hover"
    accessibilityType := "tooltip"
    id := none
    onMouseEnterDelay := 200
    onMouseLeaveDelay := 200
    showArrow := false
    ignoreBoundary := false
    children := Child.element (ElementType.dom "button") []
    content := Content.node (Child.text "Hello")
    mountNode := none
    overrides := { Arrow := none, Body := none, Inner := none }
    onBlur := false
    onFocus := false
    onClick := false
    onClickOutside := true
    onEsc := true
    onMouseEnter := true
    onMouseLeave := true }

/-- A Popper update used as a concrete instance. -/
def Popover.sampleData : PopperData :=
  { placement := "bottom", arrowOffset := none, popperOffset := { top := 10, left := 4 } }

/-- The fields of a Popover that neither a timer nor the choice of what to
render reads: the Popper instance, the remembered height, the document
listeners and the trace. -/
structure Popover.Aux where
  popper : Option PopperInstance
  popperHeight : Nat
  clickListener : Bool
  keyupListener : Bool
  trace : List Call

/-- The Popover `s` with the fields of `Aux` replaced. -/
def Popover.withAux (s : Popover) (a : Popover.Aux) : Popover :=
  { s with
    popper := a.popper, popperHeight := a.popperHeight, clickListener := a.clickListener
    keyupListener := a.keyupListener, trace := a.trace }

/-- A Popover `s` after `isOpen` went from true to false with the new props `p`,
in closed form: the animate-out timer waits. -/
def Popover.closing (s : Popover) (p : PopoverProps) (a : Popover.Aux) : Popover :=
  { Popover.withAux { s with props := p } a with
    timers := s.timers ++ [{ id := s.nextTimerId, due := s.now + 20, cb := TimerFn.animateOut }]
    nextTimerId := s.nextTimerId + 1
    animateOutTimer := some s.nextTimerId }

/-- The Popover `closing s p a` after its animate-out timer ran, in closed form:
it is animating and the completion timer waits. -/
def Popover.animatingOut (s : Popover) (p : PopoverProps) (a : Popover.Aux) : Popover :=
  { Popover.withAux { s with props := p } a with
    state := { s.state with isAnimating := true }
    timers := s.timers ++
      [{ id := s.nextTimerId + 1, due := s.now + 520, cb := TimerFn.animateOutComplete }]
    nextTimerId := s.nextTimerId + 2
    animateOutTimer := some s.nextTimerId
    animateOutCompleteTimer := some (s.nextTimerId + 1)
    now := s.now + 20 }

/-- The Popover `animatingOut s p a` after its completion timer ran, in closed
form. -/
def Popover.closed (s : Popover) (p : PopoverProps) (a : Popover.Aux) : Popover :=
  { Popover.withAux { s with props := p } a with
    state := { s.state with isAnimating := false, placement := p.placement }
    nextTimerId := s.nextTimerId + 2
    animateOutTimer := some s.nextTimerId
    animateOutCompleteTimer := some (s.nextTimerId + 1)
    now := s.now + 520 }

/-- The step from `s` to `s'` kept the props, the phase, the clock and both mouse
timer fields, and took no timer out of the queue. -/
def Popover.Quiet (s s' : Popover) : Prop :=
  s'.props = s.props ∧ s'.phase = s.phase ∧ s'.now = s.now ∧
    s'.onMouseEnterTimer = s.onMouseEnterTimer ∧
    s'.onMouseLeaveTimer = s.onMouseLeaveTimer ∧
    ∀ t ∈ s.timers, t ∈ s'.timers

/-- The invariant of a Popover behind claim C9.  The queue is in order; the two
mouse timer fields hold ids already given out, and a waiting timer with such an
id is a mouse timer; a closed Popover that is animating has an animate-out
timer or a completion timer waiting, unless it is unmounted; and a mounted
Popover has `state.isMounted` set. -/
structure Popover.Inv (s : Popover) : Prop where
  queue : Popover.QueueOk s.timers s.nextTimerId
  enterField : ∀ i, s.onMouseEnterTimer = some i → i < s.nextTimerId
  leaveField : ∀ i, s.onMouseLeaveTimer = some i → i < s.nextTimerId
  enterKind : ∀ t ∈ s.timers, s.onMouseEnterTimer = some t.id →
    t.cb = TimerFn.triggerOnMouseEnter
  leaveKind : ∀ t ∈ s.timers, s.onMouseLeaveTimer = some t.id →
    t.cb = TimerFn.triggerOnMouseLeave
  anim : s.phase ≠ Phase.unmounted → s.props.isOpen = false → s.state.isAnimating = true →
    ∃ t ∈ s.timers, t.cb = TimerFn.animateOut ∨ t.cb = TimerFn.animateOutComplete
  mounted : s.phase = Phase.mounted → s.state.isMounted = true

/-- The timer `t` is an animate-out timer or a completion timer. -/
def Popover.isOutTimer (t : Timer TimerFn) : Prop :=
  t.cb = TimerFn.animateOut ∨ t.cb = TimerFn.animateOutComplete

/-- The Popover `s'` needs an animate-out or completion timer in its queue. -/
def Popover.NeedsOutTimer (s : Popover) : Prop :=
  s.phase ≠ Phase.unmounted ∧ s.props.isOpen = false ∧ s.state.isAnimating = true

/-- The id of the popover body in the words of claim C11: `props.id` if it is
non-empty, else the generated id if it is non-empty, else `null`. -/
def Popover.expectedBodyId (s : Popover) : Val :=
  match s.props.id with
  | some v =>
    if v ≠ "" then Val.str v
    else if s.generatedId ≠ "" then Val.str s.generatedId
    else Val.null
  | none => if s.generatedId ≠ "" then Val.str s.generatedId else Val.null

/-- The timer `dismiss` sets when `L` is the next timer id and the animation is
to end at `D`. -/
def Toast.closeTimer (L D : Nat) : Timer ToastTimerFn :=
  { id := L, due := D, cb := ToastTimerFn.animateOutComplete ToastCallback.propsOnClose }

/-- A mounted Toast that is hidden and animating, whose animate-out timer `L`,
due at `D`, is waiting and on which `props.onClose` was called `c` times.  Every
other waiting timer is an auto-hide timer older than `L`, or is younger than `L`
and due after `D`. -/
structure Toast.Closing (L D c : Nat) (s : Toast) : Prop where
  phase : s.phase = Phase.mounted
  hidden : s.state.isHidden = true
  animating : s.state.isAnimating = true
  count : Toast.onCloseCount s = c
  fresh : Toast.Fresh s
  timer : Toast.closeTimer L D ∈ s.timers
  others : ∀ u ∈ s.timers, u.id ≠ L →
    (u.cb = ToastTimerFn.dismiss ∧ u.id < L) ∨ (D < u.due ∧ L < u.id)

/-- A focus or mouse-enter event: the two events that clear the timers of a
Toast. -/
def Toast.Event.pausesTimer : Toast.Event → Bool
  | Toast.Event.focus _ => true
  | Toast.Event.mouseEnter _ => true
  | _ => false

/-- Props of a Toast used as a concrete instance: the defaults, so no auto-hide. -/
def Toast.plainProps : ToastProps :=
  Toast.defaultProps "info" (ToastChildren.node (Child.text "Saved"))

/-- Props of a Toast used as a concrete instance: auto-hide after 2 ms. -/
def Toast.quickProps : ToastProps :=
  { Toast.sampleProps with autoHideDuration := 2 }

/-- A Toast with the default props that was mounted, then dismissed, 1 ms ago. -/
def Toast.dismissedOnce : Toast :=
  Toast.run [Toast.Event.mount, Toast.Event.dismiss, Toast.Event.tick]
    (Toast.init Toast.plainProps)

/-- The Toast `dismissedOnce` after a second call of `dismiss`, at time `n` and
with both animate-out timers waiting, in closed form. -/
def Toast.dismissedTwice (n : Nat) : Toast :=
  { props := Toast.plainProps, state := { isAnimating := true, isHidden := true }
    autoHideTimeout := none, animateOutCompleteTimer := some 2, phase := Phase.mounted
    timers := [Toast.closeTimer 1 600, Toast.closeTimer 2 601]
    nextTimerId := 3, now := n, trace := [ToastCall.dismiss, ToastCall.dismiss] }

/-- The two delayed mouse callbacks of a Popover. -/
inductive Popover.Side
  | enter
  | leave

/-- The outward call of a side: `props.onMouseEnter` or `props.onMouseLeave`. -/
def Popover.Side.call : Popover.Side → Call
  | Popover.Side.enter => Call.propsOnMouseEnter
  | Popover.Side.leave => Call.propsOnMouseLeave

/-- The timer function that makes the call of a side. -/
def Popover.Side.fn : Popover.Side → TimerFn
  | Popover.Side.enter => TimerFn.triggerOnMouseEnter
  | Popover.Side.leave => TimerFn.triggerOnMouseLeave

/-- How often the callback of a side has been called. -/
def Popover.calls (d : Popover.Side) (s : Popover) : Nat :=
  s.trace.count d.call

/-- How many timers wait to call the callback of a side. -/
def Popover.waiting (d : Popover.Side) (s : Popover) : Nat :=
  s.timers.countP (fun t => t.cb == d.fn)

/-- Calls of the callback of a side made so far or waiting as a timer. -/
def Popover.owed (d : Popover.Side) (s : Popover) : Nat :=
  Popover.calls d s + Popover.waiting d s

/-- Whether the handler of an event calls the callback of a side or sets a timer
that will: the pointer entering the anchor for `props.onMouseEnter`, the pointer
leaving the anchor or the popover body for `props.onMouseLeave`. -/
def Popover.Event.starts (d : Popover.Side) (e : Popover.Event) : Bool :=
  match d, e with
  | Popover.Side.enter, Popover.Event.anchorMouseEnter => true
  | Popover.Side.leave, Popover.Event.anchorMouseLeave => true
  | Popover.Side.leave, Popover.Event.popoverMouseLeave => true
  | _, _ => false

/-- Props of an open hover Popover whose two mouse delays are 5 ms, used as a
concrete instance. -/
def Popover.hoverProps : PopoverProps :=
  { Popover.sampleProps with onMouseEnterDelay := 5, onMouseLeaveDelay := 5 }

/-! ## Lemmas on objects -/

theorem hasKey_setKey (o : Obj) (k : String) (v : Val) (k' : String) :
    hasKey (setKey o k v) k' = (hasKey o k' || k == k') := by
  induction o with
  | nil => simp [setKey, hasKey]
  | cons kv rest ih =>
    obtain ⟨a, b⟩ := kv
    unfold setKey
    by_cases h : a = k
    · subst h
      simp only [if_true]
      simp only [hasKey, List.any_cons] at ih ⊢
      cases h1 : (a == k') <;> simp
    · simp only [h, if_false]
      simp only [hasKey, List.any_cons] at ih ⊢
      rw [ih, Bool.or_assoc]

theorem hasKey_nil (k : String) : hasKey [] k = false := rfl

theorem hasKey_cons (a : String) (b : Val) (o : Obj) (k : String) :
    hasKey ((a, b) :: o) k = (a == k || hasKey o k) := by
  simp [hasKey]

/-! ## Rendering -/

/-- C1: for every props and state, `render` returns the anchor first, followed
by a portal holding the popover body exactly when `__BROWSER__` is true,
`state.isMounted` is true and `props.isOpen` or `state.isAnimating` is true; in
every other case it returns the anchor alone, and so it does whenever
`__BROWSER__` is false. -/
theorem render_anchor_then_portal (E : Env) (s : Popover) :
    (Popover.render E s).1 =
        (if E.BROWSER = true ∧ s.state.isMounted = true ∧
            (s.props.isOpen = true ∨ s.state.isAnimating = true) then
          [(Popover.renderAnchor E s).1,
            Popover.Rendered.portal (Popover.renderPopover E s) (Popover.getMountNode E s)]
        else [(Popover.renderAnchor E s).1]) ∧
      (Popover.render { E with BROWSER := false } s).1 =
        [(Popover.renderAnchor { E with BROWSER := false } s).1] := by
  constructor
  · unfold Popover.render
    cases hB : E.BROWSER <;> cases hM : s.state.isMounted <;> cases hO : s.props.isOpen <;>
      cases hA : s.state.isAnimating <;> simp
  · simp [Popover.render]

/-- C2: for every document click event, `onDocumentClick` calls
`props.onClickOutside` (once, with that event, and does nothing else) if and
only if `onClickOutside` is provided, the popover element and the anchor element
both exist, and the click target is neither the popover element or one of its
descendants nor the anchor element or one of its descendants; otherwise the
click is ignored. -/
theorem onDocumentClick_calls_onClickOutside_iff (evt : MouseEvent) (s : Popover) :
    ((Popover.onDocumentClick evt s).trace = s.trace ++ [Call.propsOnClickOutside evt] ↔
        (s.props.onClickOutside = true ∧
          ∃ popper anchor, s.popperRef = some popper ∧ s.anchorRef = some anchor ∧
            ¬ (popper = evt.target ∨ s.contains popper evt.target = true) ∧
            ¬ (anchor = evt.target ∨ s.contains anchor evt.target = true))) ∧
      (Popover.onDocumentClick evt s = Popover.emit (Call.propsOnClickOutside evt) s ∨
        Popover.onDocumentClick evt s = s) := by
  unfold Popover.onDocumentClick
  cases hp : s.popperRef with
  | none => simp
  | some popper =>
    cases ha : s.anchorRef with
    | none =>
      by_cases h1 : popper = evt.target <;> cases h2 : s.contains popper evt.target <;>
        simp [h1, h2]
    | some anchor =>
      by_cases h1 : popper = evt.target <;> cases h2 : s.contains popper evt.target <;>
        by_cases h3 : anchor = evt.target <;> cases h4 : s.contains anchor evt.target <;>
        cases ho : s.props.onClickOutside <;> simp [h1, h2, h3, h4, Popover.emit]

/-- C4: for every children value, `getAnchorFromChildren` reports the console
error "[baseui] Exactly 1 child must be passed to Popover/Tooltip, found N
children" if and only if the number N of children is not 1 (and reports nothing
when N is 1); as a total function it never throws; it returns the first child,
which is `undefined` when there are no children, and then `renderAnchor`
returns `null`. -/
theorem getAnchorFromChildren_reports_iff (E : Env) (s : Popover) :
    ((Popover.getAnchorFromChildren s).2 =
          [Popover.childCountMessage (Children.toArray s.props.children).length] ↔
        (Children.toArray s.props.children).length ≠ 1) ∧
      ((Popover.getAnchorFromChildren s).2 = [] ↔
        (Children.toArray s.props.children).length = 1) ∧
      Popover.childCountMessage (Children.toArray s.props.children).length =
        "[baseui] " ++ ("Exactly 1 child must be passed to Popover/Tooltip, found " ++
          toString (Children.toArray s.props.children).length ++ " children") ∧
      (Popover.getAnchorFromChildren s).1 = (Children.toArray s.props.children).head? ∧
      (((Children.toArray s.props.children).length = 0 ∧
          (Popover.getAnchorFromChildren s).1 = none ∧
          (Popover.renderAnchor E s).1 = Popover.Rendered.null) ∨
        ∃ c rest, Children.toArray s.props.children = c :: rest ∧
          (Popover.getAnchorFromChildren s).1 = some c) := by
  refine ⟨?_, ?_, ?_, rfl, ?_⟩
  · unfold Popover.getAnchorFromChildren
    by_cases h : (Children.toArray s.props.children).length = 1 <;> simp [h]
  · unfold Popover.getAnchorFromChildren
    by_cases h : (Children.toArray s.props.children).length = 1 <;> simp [h]
  · unfold Popover.childCountMessage
    simp only [← String.append_assoc]
    rfl
  · unfold Popover.renderAnchor Popover.getAnchorFromChildren
    cases h : Children.toArray s.props.children with
    | nil => left; simp
    | cons c rest => right; exact ⟨c, rest, rfl, by simp⟩

/-- C10: for every props, the anchor props built by `getAnchorProps` carry
`onMouseEnter`, `onMouseLeave`, `onBlur` and `onFocus` and no `onClick` when
`triggerType` is hover, and carry `onClick` and none of those four for every
other `triggerType`; the body props built by `getPopoverBodyProps` carry
`onMouseEnter` and `onMouseLeave` if and only if `triggerType` is hover. -/
theorem handlers_follow_triggerType (E : Env) (refKey : Popover.RefKey) (s : Popover) :
    hasKey (Popover.getAnchorProps E refKey s) "onMouseEnter" =
        (s.props.triggerType == E.TRIGGER_TYPE_hover) ∧
      hasKey (Popover.getAnchorProps E refKey s) "onMouseLeave" =
        (s.props.triggerType == E.TRIGGER_TYPE_hover) ∧
      hasKey (Popover.getAnchorProps E refKey s) "onBlur" =
        (s.props.triggerType == E.TRIGGER_TYPE_hover) ∧
      hasKey (Popover.getAnchorProps E refKey s) "onFocus" =
        (s.props.triggerType == E.TRIGGER_TYPE_hover) ∧
      hasKey (Popover.getAnchorProps E refKey s) "onClick" =
        !(s.props.triggerType == E.TRIGGER_TYPE_hover) ∧
      hasKey (Popover.getPopoverBodyProps E s) "onMouseEnter" =
        (s.props.triggerType == E.TRIGGER_TYPE_hover) ∧
      hasKey (Popover.getPopoverBodyProps E s) "onMouseLeave" =
        (s.props.triggerType == E.TRIGGER_TYPE_hover) := by
  unfold Popover.getAnchorProps Popover.getPopoverBodyProps Popover.isHoverTrigger
  cases refKey <;> cases hh : (s.props.triggerType == E.TRIGGER_TYPE_hover) <;>
    cases hm : Popover.isAccessibilityTypeMenu E s <;>
    cases ht : Popover.isAccessibilityTypeTooltip E s <;>
    cases hc : Popover.isClickTrigger E s <;>
    simp [hasKey_setKey, hasKey_cons, hasKey_nil, Popover.RefKey.name]

/-! ## Lemmas on timer queues -/

theorem find_new_timer {κ : Type} (ts : List (Timer κ)) (n : Nat) (t : Timer κ)
    (h : ∀ u ∈ ts, u.id < n) (ht : t.id = n) :
    (ts ++ [t]).find? (fun u => u.id == n) = some t := by
  induction ts with
  | nil => simp [ht]
  | cons a rest ih =>
    have ha : a.id < n := h a (List.mem_cons_self _ _)
    have hne : (a.id == n) = false := by simp; omega
    rw [List.cons_append, List.find?_cons, hne]
    exact ih (fun u hu => h u (List.mem_cons_of_mem _ hu))

theorem filter_new_timer {κ : Type} (ts : List (Timer κ)) (n : Nat) (t : Timer κ)
    (h : ∀ u ∈ ts, u.id < n) (ht : t.id = n) :
    (ts ++ [t]).filter (fun u => u.id != n) = ts := by
  rw [List.filter_append]
  have h1 : ts.filter (fun u => u.id != n) = ts := by
    apply List.filter_eq_self.mpr
    intro u hu
    have := h u hu
    simp; omega
  simp [h1, ht]

/-! ## Toast: waiting timers carry ids already given out -/

theorem Toast.fresh_init (p : ToastProps) : Toast.Fresh (Toast.init p) := by
  constructor
  · intro t ht
    simp [Toast.init] at ht
  · simp [Toast.init]

theorem Toast.fresh_setTimeout (cb : ToastTimerFn) (d : Nat) (s : Toast) (h : Toast.Fresh s) :
    Toast.Fresh (Toast.setTimeout cb d s).2 := by
  constructor
  · intro t ht
    simp only [Toast.setTimeout, List.mem_append, List.mem_singleton] at ht ⊢
    rcases ht with ht | ht
    · have := h.1 t ht; omega
    · subst ht; simp
  · simp only [Toast.setTimeout]
    rw [List.pairwise_append]
    refine ⟨h.2, List.pairwise_singleton _ _, ?_⟩
    intro a ha b hb
    rw [List.mem_singleton] at hb
    subst hb
    exact h.1 a ha

theorem Toast.fresh_browserClearTimeout (id : Nat) (s : Toast) (h : Toast.Fresh s) :
    Toast.Fresh (Toast.browserClearTimeout id s) := by
  constructor
  · intro t ht
    simp only [Toast.browserClearTimeout, List.mem_filter] at ht ⊢
    exact h.1 t ht.1
  · exact List.Pairwise.filter _ h.2

theorem Toast.fresh_of_eq (s s' : Toast) (h : Toast.Fresh s) (ht : s'.timers = s.timers)
    (hn : s'.nextTimerId = s.nextTimerId) : Toast.Fresh s' := by
  unfold Toast.Fresh
  rw [ht, hn]
  exact h

theorem Toast.fresh_setState (f : ToastState → ToastState) (s : Toast) (h : Toast.Fresh s) :
    Toast.Fresh (Toast.setState f s) := by
  apply Toast.fresh_of_eq s _ h <;> unfold Toast.setState Toast.emit <;> split <;> rfl

theorem Toast.fresh_emit (c : ToastCall) (s : Toast) (h : Toast.Fresh s) :
    Toast.Fresh (Toast.emit c s) :=
  Toast.fresh_of_eq s _ h rfl rfl

theorem Toast.fresh_startTimeout (s : Toast) (h : Toast.Fresh s) :
    Toast.Fresh (Toast.startTimeout s) := by
  unfold Toast.startTimeout
  split
  · exact Toast.fresh_of_eq _ _ (Toast.fresh_setTimeout _ _ s h) rfl rfl
  · exact h

theorem Toast.fresh_clearTimeout (s : Toast) (h : Toast.Fresh s) :
    Toast.Fresh (Toast.clearTimeout s) := by
  unfold Toast.clearTimeout
  simp only [List.foldl_cons, List.foldl_nil]
  have step : ∀ (o : Option Nat) (u : Toast), Toast.Fresh u →
      Toast.Fresh (match o with
        | some id => if (id != 0) = true then Toast.browserClearTimeout id u else u
        | none => u) := by
    intro o u hu
    cases o with
    | none => exact hu
    | some id =>
      simp only
      split
      · exact Toast.fresh_browserClearTimeout id u hu
      · exact hu
  exact step _ _ (step _ _ h)

theorem Toast.fresh_dismiss (s : Toast) (h : Toast.Fresh s) : Toast.Fresh (Toast.dismiss s) := by
  unfold Toast.dismiss Toast.animateOut
  apply Toast.fresh_setState
  apply Toast.fresh_of_eq _ _ (Toast.fresh_setTimeout _ _ _
    (Toast.fresh_setState _ _ (Toast.fresh_emit _ s h))) rfl rfl

theorem Toast.fresh_runTimerFn (f : ToastTimerFn) (s : Toast) (h : Toast.Fresh s) :
    Toast.Fresh (Toast.runTimerFn f s) := by
  cases f with
  | dismiss => exact Toast.fresh_dismiss s h
  | animateOutComplete cb =>
    unfold Toast.runTimerFn Toast.animateOutComplete Toast.runCallback
    cases cb
    · exact Toast.fresh_emit _ _ (Toast.fresh_setState _ _ h)
    · exact Toast.fresh_setState _ _ h

theorem Toast.fresh_runTimer (id : Nat) (s : Toast) (h : Toast.Fresh s) :
    Toast.Fresh (Toast.runTimer id s) := by
  unfold Toast.runTimer
  split
  · apply Toast.fresh_runTimerFn
    exact Toast.fresh_browserClearTimeout id s h
  · exact h

theorem Toast.fresh_foldl_runTimer (ids : List Nat) (s : Toast) (h : Toast.Fresh s) :
    Toast.Fresh (ids.foldl (fun acc id => Toast.runTimer id acc) s) := by
  induction ids generalizing s with
  | nil => exact h
  | cons id rest ih => exact ih _ (Toast.fresh_runTimer id s h)

theorem Toast.fresh_tick (s : Toast) (h : Toast.Fresh s) : Toast.Fresh (Toast.tick s) := by
  unfold Toast.tick
  exact Toast.fresh_foldl_runTimer _ _ (Toast.fresh_of_eq s _ h rfl rfl)

theorem Toast.fresh_step (e : Toast.Event) (s : Toast) (h : Toast.Fresh s) :
    Toast.Fresh (Toast.step e s) := by
  cases e with
  | mount =>
    simp only [Toast.step]; split
    · unfold Toast.componentDidMount Toast.animateIn
      exact Toast.fresh_startTimeout _ (Toast.fresh_setState _ _ (Toast.fresh_of_eq s _ h rfl rfl))
    · exact h
  | update props =>
    simp only [Toast.step]; split
    · exact Toast.fresh_of_eq s _ h rfl rfl
    · exact h
  | unmount =>
    simp only [Toast.step]; split
    · exact Toast.fresh_of_eq _ _ (Toast.fresh_clearTimeout s h) rfl rfl
    · exact h
  | dismiss =>
    simp only [Toast.step]; split
    · exact Toast.fresh_dismiss s h
    · exact h
  | focus e =>
    simp only [Toast.step, Toast.onFocus]; split
    · split
      · exact Toast.fresh_emit _ _ (Toast.fresh_clearTimeout s h)
      · exact Toast.fresh_clearTimeout s h
    · exact h
  | blur e =>
    simp only [Toast.step, Toast.onBlur]; split
    · split
      · exact Toast.fresh_emit _ _ (Toast.fresh_startTimeout s h)
      · exact Toast.fresh_startTimeout s h
    · exact h
  | mouseEnter e =>
    simp only [Toast.step, Toast.onMouseEnter]; split
    · split
      · exact Toast.fresh_emit _ _ (Toast.fresh_clearTimeout s h)
      · exact Toast.fresh_clearTimeout s h
    · exact h
  | mouseLeave e =>
    simp only [Toast.step, Toast.onMouseLeave]; split
    · split
      · exact Toast.fresh_emit _ _ (Toast.fresh_startTimeout s h)
      · exact Toast.fresh_startTimeout s h
    · exact h
  | tick => exact Toast.fresh_tick s h

theorem Toast.fresh_run (es : List Toast.Event) (s : Toast) (h : Toast.Fresh s) :
    Toast.Fresh (Toast.run es s) := by
  unfold Toast.run
  induction es generalizing s with
  | nil => exact h
  | cons e rest ih => exact ih _ (Toast.fresh_step e s h)

theorem Toast.fresh_of_reachable (s : Toast) (h : Toast.Reachable s) : Toast.Fresh s := by
  obtain ⟨p, es, rfl⟩ := h
  exact Toast.fresh_run es _ (Toast.fresh_init p)

theorem timer_id_unique {κ : Type} (ts : List (Timer κ))
    (h : ts.Pairwise (fun a b => a.id < b.id)) (a b : Timer κ) (ha : a ∈ ts)
    (hb : b ∈ ts) (hid : a.id = b.id) : a = b := by
  by_contra hne
  have h' : ts.Pairwise (fun a b => a.id ≠ b.id) := h.imp (fun hlt => Nat.ne_of_lt hlt)
  have hs : Symmetric (fun a b : Timer κ => a.id ≠ b.id) := fun _ _ hxy => Ne.symm hxy
  exact (h'.forall hs ha hb hne) hid

/-- An increasing list of numbers none of which exceeds its member `L` ends in
`L`. -/
theorem ends_in_max (L : Nat) (l : List Nat) (h : l.Pairwise (fun a b => a < b))
    (hle : ∀ x ∈ l, x ≤ L) (hL : L ∈ l) : ∃ pre, l = pre ++ [L] ∧ ∀ x ∈ pre, x < L := by
  induction l with
  | nil => simp at hL
  | cons a rest ih =>
    rw [List.pairwise_cons] at h
    by_cases ha : a = L
    · subst ha
      have hrest : rest = [] := by
        cases rest with
        | nil => rfl
        | cons b r =>
          have h1 := h.1 b (List.mem_cons_self _ _)
          have h2 := hle b (List.mem_cons_of_mem _ (List.mem_cons_self _ _))
          omega
      subst hrest
      exact ⟨[], rfl, by simp⟩
    · have hL' : L ∈ rest := by
        rcases List.mem_cons.mp hL with h1 | h1
        · exact absurd h1.symm ha
        · exact h1
      obtain ⟨pre, hpre, hlt⟩ := ih h.2 (fun x hx => hle x (List.mem_cons_of_mem _ hx)) hL'
      refine ⟨a :: pre, by rw [hpre]; rfl, ?_⟩
      intro x hx
      rcases List.mem_cons.mp hx with h1 | h1
      · subst h1
        have := hle x (List.mem_cons_self _ _)
        omega
      · exact hlt x h1

/-! ## Toast: dismissal -/

theorem Toast.dismiss_eq (s : Toast) (hm : s.phase = Phase.mounted) :
    Toast.dismiss s =
      { s with
        state := { isAnimating := true, isHidden := true }
        animateOutCompleteTimer := some s.nextTimerId
        timers := s.timers ++
          [{ id := s.nextTimerId, due := s.now + 600,
             cb := ToastTimerFn.animateOutComplete ToastCallback.propsOnClose }]
        nextTimerId := s.nextTimerId + 1
        trace := s.trace ++ [ToastCall.dismiss] } := by
  simp [Toast.dismiss, Toast.animateOut, Toast.setState, Toast.emit, Toast.setTimeout, hm]

/-- The id of the animate-out timer of a closing Toast was given out. -/
theorem Toast.closing_lt (L D c : Nat) (s : Toast) (h : Toast.Closing L D c s) :
    L < s.nextTimerId :=
  h.fresh.1 _ h.timer

/-- Clearing another timer keeps a closing Toast closing. -/
theorem Toast.closing_filter (L D c i : Nat) (s : Toast) (h : Toast.Closing L D c s)
    (hi : i ≠ L) :
    Toast.Closing L D c { s with timers := s.timers.filter (fun t => t.id != i) } := by
  obtain ⟨h1, h2, h2a, h3, h4, h5, h6⟩ := h
  refine ⟨h1, h2, h2a, h3, Toast.fresh_browserClearTimeout i s h4, ?_, ?_⟩
  · apply List.mem_filter.mpr
    refine ⟨h5, ?_⟩
    simp [Toast.closeTimer]
    omega
  · intro u hu
    exact h6 u (List.mem_filter.mp hu).1

/-- A further `dismiss` during the animation keeps a closing Toast closing: its
own timer ends after `D`. -/
theorem Toast.closing_dismiss (L D c : Nat) (s : Toast) (h : Toast.Closing L D c s)
    (hD : D < s.now + 600) :
    Toast.Closing L D c (Toast.dismiss s) ∧ (Toast.dismiss s).now = s.now := by
  have hlt := Toast.closing_lt L D c s h
  have hf := Toast.fresh_dismiss s h.fresh
  obtain ⟨h1, h2, h2a, h3, h4, h5, h6⟩ := h
  rw [Toast.dismiss_eq s h1] at hf ⊢
  refine ⟨⟨h1, rfl, rfl, ?_, hf, ?_, ?_⟩, rfl⟩
  · rw [← h3]
    simp [Toast.onCloseCount, List.count_append]
  · exact List.mem_append_left _ h5
  · intro u hu hne
    rcases List.mem_append.mp hu with hu | hu
    · exact h6 u hu hne
    · rw [List.mem_singleton] at hu
      subst hu
      right
      exact ⟨hD, hlt⟩

/-- Running an older timer keeps a closing Toast closing. -/
theorem Toast.closing_runTimer (L D c i : Nat) (s : Toast) (h : Toast.Closing L D c s)
    (hi : i < L) (hD : D < s.now + 600) :
    Toast.Closing L D c (Toast.runTimer i s) ∧ (Toast.runTimer i s).now = s.now := by
  unfold Toast.runTimer
  cases hfind : s.timers.find? (fun t => t.id == i) with
  | none => exact ⟨h, rfl⟩
  | some u =>
    have hu : u ∈ s.timers := List.mem_of_find?_eq_some hfind
    have hid : u.id = i := by
      have := List.find?_some hfind
      simpa using this
    have hcb : u.cb = ToastTimerFn.dismiss := by
      rcases h.others u hu (by omega) with h1 | h1
      · exact h1.1
      · omega
    simp only [hcb, Toast.runTimerFn]
    exact Toast.closing_dismiss L D c _ (Toast.closing_filter L D c i s h (by omega)) hD

theorem Toast.closing_foldl (L D c : Nat) (ids : List Nat) (s : Toast)
    (h : Toast.Closing L D c s) (hi : ∀ i ∈ ids, i < L) (hD : D < s.now + 600) :
    Toast.Closing L D c (ids.foldl (fun acc id => Toast.runTimer id acc) s) ∧
      (ids.foldl (fun acc id => Toast.runTimer id acc) s).now = s.now := by
  induction ids generalizing s with
  | nil => exact ⟨h, rfl⟩
  | cons i rest ih =>
    obtain ⟨a1, a2⟩ := Toast.closing_runTimer L D c i s h (hi i (List.mem_cons_self _ _)) hD
    obtain ⟨b1, b2⟩ := ih (Toast.runTimer i s) a1
      (fun j hj => hi j (List.mem_cons_of_mem _ hj)) (by omega)
    exact ⟨b1, b2.trans a2⟩

/-- Moving the clock keeps a closing Toast closing. -/
theorem Toast.closing_now (L D c n : Nat) (s : Toast) (h : Toast.Closing L D c s) :
    Toast.Closing L D c { s with now := n } :=
  ⟨h.phase, h.hidden, h.animating, h.count, h.fresh, h.timer, h.others⟩

/-- The ids of the timers due by `n` in a closing Toast: before `D` they are all
older than `L`. -/
theorem Toast.closing_due_before (L D c n : Nat) (s : Toast) (h : Toast.Closing L D c s)
    (hn : n < D) :
    ∀ i ∈ (s.timers.filter (fun t => t.due ≤ n)).map (fun t => t.id), i < L := by
  intro i hi
  obtain ⟨u, hu, hid⟩ := List.mem_map.mp hi
  obtain ⟨hu1, hu2⟩ := List.mem_filter.mp hu
  have hdue : u.due ≤ n := by simpa using hu2
  by_cases hL : u.id = L
  · have := timer_id_unique s.timers h.fresh.2 u (Toast.closeTimer L D) hu1 h.timer hL
    subst this
    simp [Toast.closeTimer] at hdue
    omega
  · rcases h.others u hu1 hL with h1 | h1
    · omega
    · omega

/-- A millisecond that ends before `D` keeps a closing Toast closing. -/
theorem Toast.closing_tick (L D c : Nat) (s : Toast) (h : Toast.Closing L D c s)
    (hn : s.now + 1 < D) (hD : D ≤ s.now + 600) :
    Toast.Closing L D c (Toast.tick s) ∧ (Toast.tick s).now = s.now + 1 := by
  unfold Toast.tick
  exact Toast.closing_foldl L D c _ { s with now := s.now + 1 }
    (Toast.closing_now L D c (s.now + 1) s h)
    (Toast.closing_due_before L D c (s.now + 1) s h hn) (by show D < s.now + 1 + 600; omega)

theorem Toast.run_cons (e : Toast.Event) (es : List Toast.Event) (s : Toast) :
    Toast.run (e :: es) s = Toast.run es (Toast.step e s) := rfl

theorem Toast.run_single (e : Toast.Event) (s : Toast) :
    Toast.run [e] s = Toast.step e s := rfl

theorem Toast.step_tick (s : Toast) : Toast.step Toast.Event.tick s = Toast.tick s := rfl

theorem Toast.render_none (E : ToastEnv) (s : Toast) (h1 : s.state.isHidden = true)
    (h2 : s.state.isAnimating = false) : Toast.render E s = none := by
  simp [Toast.render, h1, h2]

theorem Toast.render_some (E : ToastEnv) (s : Toast) (h : s.state.isAnimating = true) :
    (Toast.render E s).isSome = true := by
  simp [Toast.render, h]

theorem Toast.run_append (es es' : List Toast.Event) (s : Toast) :
    Toast.run (es ++ es') s = Toast.run es' (Toast.run es s) := by
  unfold Toast.run
  exact List.foldl_append _ _ _ _

/-- While fewer than the remaining milliseconds pass, a closing Toast stays
closing. -/
theorem Toast.closing_ticks (L D c k : Nat) (s : Toast) (h : Toast.Closing L D c s)
    (hn : s.now + k < D) (hD : D ≤ s.now + 600) :
    Toast.Closing L D c (Toast.run (List.replicate k Toast.Event.tick) s) ∧
      (Toast.run (List.replicate k Toast.Event.tick) s).now = s.now + k := by
  induction k generalizing s with
  | zero => exact ⟨h, rfl⟩
  | succ k ih =>
    rw [List.replicate_succ, Toast.run_cons]
    obtain ⟨a1, a2⟩ := Toast.closing_tick L D c s h (by omega) hD
    have hstep : Toast.step Toast.Event.tick s = Toast.tick s := rfl
    rw [hstep]
    obtain ⟨b1, b2⟩ := ih (Toast.tick s) a1 (by omega) (by omega)
    exact ⟨b1, by omega⟩

/-- Running the animate-out timer of a closing Toast: the animation is over,
`props.onClose` was called once more, the timer is gone. -/
theorem Toast.closing_runTimer_self (L D c : Nat) (s : Toast) (h : Toast.Closing L D c s) :
    (Toast.runTimer L s).state.isHidden = true ∧
      (Toast.runTimer L s).state.isAnimating = false ∧
      Toast.onCloseCount (Toast.runTimer L s) = c + 1 ∧
      (∀ u ∈ (Toast.runTimer L s).timers, u.id ≠ L) ∧
      (Toast.runTimer L s).now = s.now := by
  obtain ⟨h1, h2, _, h3, h4, h5, h6⟩ := h
  unfold Toast.runTimer
  cases hfind : s.timers.find? (fun t => t.id == L) with
  | none =>
    have := List.find?_eq_none.mp hfind _ h5
    simp [Toast.closeTimer] at this
  | some u =>
    have hu : u ∈ s.timers := List.mem_of_find?_eq_some hfind
    have hid : u.id = L := by
      have := List.find?_some hfind
      simpa using this
    have heq := timer_id_unique s.timers h4.2 u (Toast.closeTimer L D) hu h5 hid
    subst heq
    simp only [Toast.closeTimer, Toast.runTimerFn, Toast.animateOutComplete, Toast.runCallback,
      Toast.setState, Toast.emit, h1]
    refine ⟨h2, rfl, ?_, ?_, rfl⟩
    · rw [← h3]
      simp [Toast.onCloseCount, List.count_append]
    · intro u hu
      have := (List.mem_filter.mp hu).2
      simpa using this

/-- The millisecond that ends at `D` ends the animation of a closing Toast. -/
theorem Toast.closing_last_tick (L D c : Nat) (s : Toast) (h : Toast.Closing L D c s)
    (hn : s.now + 1 = D) :
    (Toast.tick s).state.isHidden = true ∧ (Toast.tick s).state.isAnimating = false ∧
      Toast.onCloseCount (Toast.tick s) = c + 1 ∧
      (∀ u ∈ (Toast.tick s).timers, u.id ≠ L) := by
  have hsorted : ((s.timers.filter (fun t => t.due ≤ s.now + 1)).map (fun t => t.id)).Pairwise
      (fun a b => a < b) := by
    rw [List.pairwise_map]
    exact List.Pairwise.filter _ h.fresh.2
  have hle : ∀ i ∈ (s.timers.filter (fun t => t.due ≤ s.now + 1)).map (fun t => t.id),
      i ≤ L := by
    intro i hi
    obtain ⟨u, hu, hid⟩ := List.mem_map.mp hi
    obtain ⟨hu1, hu2⟩ := List.mem_filter.mp hu
    have hdue : u.due ≤ s.now + 1 := by simpa using hu2
    by_cases hL : u.id = L
    · omega
    · rcases h.others u hu1 hL with h1 | h1
      · omega
      · omega
  have hmem : L ∈ (s.timers.filter (fun t => t.due ≤ s.now + 1)).map (fun t => t.id) := by
    apply List.mem_map.mpr
    refine ⟨Toast.closeTimer L D, List.mem_filter.mpr ⟨h.timer, ?_⟩, rfl⟩
    simp [Toast.closeTimer]
    omega
  obtain ⟨pre, hpre, hlt⟩ := ends_in_max L _ hsorted hle hmem
  have htick : Toast.tick s =
      Toast.runTimer L (pre.foldl (fun acc id => Toast.runTimer id acc)
        { s with now := s.now + 1 }) := by
    unfold Toast.tick
    show List.foldl (fun acc id => Toast.runTimer id acc) { s with now := s.now + 1 }
      ((s.timers.filter (fun t => t.due ≤ s.now + 1)).map (fun t => t.id)) = _
    rw [hpre, List.foldl_append]
    rfl
  rw [htick]
  obtain ⟨a1, _⟩ := Toast.closing_foldl L D c pre { s with now := s.now + 1 }
    (Toast.closing_now L D c (s.now + 1) s h) hlt (by show D < s.now + 1 + 600; omega)
  obtain ⟨b1, b2, b3, b4, _⟩ := Toast.closing_runTimer_self L D c _ a1
  exact ⟨b1, b2, b3, b4⟩

/-- Right after `dismiss` a mounted Toast with no animate-out timer waiting is
closing. -/
theorem Toast.closing_of_dismiss (s : Toast) (hf : Toast.Fresh s)
    (hm : s.phase = Phase.mounted) (hno : ∀ u ∈ s.timers, u.cb = ToastTimerFn.dismiss) :
    Toast.Closing s.nextTimerId (s.now + 600) (Toast.onCloseCount s) (Toast.dismiss s) ∧
      (Toast.dismiss s).now = s.now := by
  have hfd := Toast.fresh_dismiss s hf
  rw [Toast.dismiss_eq s hm] at hfd ⊢
  refine ⟨⟨hm, rfl, rfl, ?_, hfd, ?_, ?_⟩, rfl⟩
  · simp [Toast.onCloseCount, List.count_append]
  · exact List.mem_append_right _ (List.mem_singleton.mpr rfl)
  · intro u hu hne
    rcases List.mem_append.mp hu with hu | hu
    · left
      exact ⟨hno u hu, hf.1 u hu⟩
    · rw [List.mem_singleton] at hu
      subst hu
      exact absurd rfl hne

/-- For a mounted Toast with no timer due soon, time only moves the clock. -/
theorem Toast.tick_idle (s : Toast) (h : ∀ u ∈ s.timers, s.now + 1 < u.due) :
    Toast.tick s = { s with now := s.now + 1 } := by
  unfold Toast.tick
  have hnil : (s.timers.filter (fun t => t.due ≤ s.now + 1)) = [] := by
    apply List.filter_eq_nil_iff.mpr
    intro u hu
    have := h u hu
    simp
    omega
  show List.foldl (fun acc id => Toast.runTimer id acc) { s with now := s.now + 1 }
    ((s.timers.filter (fun t => t.due ≤ s.now + 1)).map (fun t => t.id)) = _
  rw [hnil]
  rfl

theorem Toast.ticks_idle (k : Nat) (s : Toast) (h : ∀ u ∈ s.timers, s.now + k < u.due) :
    Toast.run (List.replicate k Toast.Event.tick) s = { s with now := s.now + k } := by
  induction k generalizing s with
  | zero => rfl
  | succ k ih =>
    rw [List.replicate_succ, Toast.run_cons]
    have hstep : Toast.step Toast.Event.tick s = Toast.tick s := rfl
    rw [hstep, Toast.tick_idle s (fun u hu => by have := h u hu; omega)]
    rw [ih _ (fun u hu => by have := h u hu; show s.now + 1 + k < u.due; omega)]
    show _ = ({ s with now := s.now + (k + 1) } : Toast)
    have : s.now + 1 + k = s.now + (k + 1) := by omega
    simp only [this]

/-- C5: for every mounted Toast on which no animate-out timer is waiting, `dismiss`
sets its animate-out timer 600 ms ahead; while fewer than 600 ms pass and
nothing else happens to the Toast, that timer waits, `render` still returns the
body and `props.onClose` is not called; once 600 ms have passed the timer has
fired, the state is `isHidden = true` and `isAnimating = false`, so `render`
returns `null`, and `props.onClose` has been called exactly once since the call
of `dismiss`. -/
theorem toast_dismiss_then_600ms (E : ToastEnv) (s : Toast) (hr : Toast.Reachable s)
    (hm : s.phase = Phase.mounted) (hno : ∀ u ∈ s.timers, u.cb = ToastTimerFn.dismiss) :
    (Toast.step Toast.Event.dismiss s).animateOutCompleteTimer = some s.nextTimerId ∧
      (∀ k, k < 600 →
        Toast.closeTimer s.nextTimerId (s.now + 600) ∈
          (Toast.run (Toast.Event.dismiss :: List.replicate k Toast.Event.tick) s).timers ∧
        (Toast.render E
          (Toast.run (Toast.Event.dismiss :: List.replicate k Toast.Event.tick) s)).isSome
            = true ∧
        Toast.onCloseCount
          (Toast.run (Toast.Event.dismiss :: List.replicate k Toast.Event.tick) s) =
            Toast.onCloseCount s) ∧
      (∀ u ∈ (Toast.run (Toast.Event.dismiss :: List.replicate 600 Toast.Event.tick) s).timers,
        u.id ≠ s.nextTimerId) ∧
      (Toast.run (Toast.Event.dismiss :: List.replicate 600 Toast.Event.tick) s).state.isHidden
        = true ∧
      (Toast.run (Toast.Event.dismiss :: List.replicate 600 Toast.Event.tick) s).state.isAnimating
        = false ∧
      Toast.render E (Toast.run (Toast.Event.dismiss :: List.replicate 600 Toast.Event.tick) s)
        = none ∧
      Toast.onCloseCount
        (Toast.run (Toast.Event.dismiss :: List.replicate 600 Toast.Event.tick) s) =
          Toast.onCloseCount s + 1 := by
  have hf := Toast.fresh_of_reachable s hr
  have hstep : Toast.step Toast.Event.dismiss s = Toast.dismiss s := by
    simp only [Toast.step, hm, if_true]
  obtain ⟨hc, hnow⟩ := Toast.closing_of_dismiss s hf hm hno
  have hlast : (Toast.run (Toast.Event.dismiss :: List.replicate 600 Toast.Event.tick) s) =
      Toast.tick (Toast.run (List.replicate 599 Toast.Event.tick) (Toast.dismiss s)) := by
    rw [Toast.run_cons, hstep]
    have h600 : List.replicate 600 Toast.Event.tick =
        List.replicate 599 Toast.Event.tick ++ [Toast.Event.tick] :=
      List.replicate_succ' 599 Toast.Event.tick
    rw [h600, Toast.run_append, Toast.run_single, Toast.step_tick]
  obtain ⟨a1, a2⟩ := Toast.closing_ticks _ _ _ 599 (Toast.dismiss s) hc (by omega) (by omega)
  obtain ⟨b1, b2, b3, b4⟩ := Toast.closing_last_tick _ _ _ _ a1 (by omega)
  refine ⟨?_, ?_, ?_, ?_, ?_, ?_, ?_⟩
  · rw [hstep, Toast.dismiss_eq s hm]
  · intro k hk
    rw [Toast.run_cons, hstep]
    obtain ⟨c1, _⟩ := Toast.closing_ticks _ _ _ k (Toast.dismiss s) hc (by omega) (by omega)
    exact ⟨c1.timer, Toast.render_some E _ c1.animating, c1.count⟩
  · rw [hlast]; exact b4
  · rw [hlast]; exact b1
  · rw [hlast]; exact b2
  · rw [hlast]; exact Toast.render_none E _ b1 b2
  · rw [hlast]; exact b3

/-- Witness for C5: a Toast right after mounting, with its auto-hide timer
waiting.  300 ms after `dismiss` the body is still rendered; after 600 ms
`render` returns `null` and `props.onClose` has been called once. -/
theorem toast_dismiss_then_600ms_witness :
    Toast.Reachable (Toast.step Toast.Event.mount (Toast.init Toast.sampleProps)) ∧
      (Toast.step Toast.Event.mount (Toast.init Toast.sampleProps)).phase = Phase.mounted ∧
      (∀ u ∈ (Toast.step Toast.Event.mount (Toast.init Toast.sampleProps)).timers,
        u.cb = ToastTimerFn.dismiss) ∧
      (Toast.render Toast.sampleEnv
        (Toast.run (Toast.Event.dismiss :: List.replicate 300 Toast.Event.tick)
          (Toast.step Toast.Event.mount (Toast.init Toast.sampleProps)))).isSome = true ∧
      Toast.render Toast.sampleEnv
        (Toast.run (Toast.Event.dismiss :: List.replicate 600 Toast.Event.tick)
          (Toast.step Toast.Event.mount (Toast.init Toast.sampleProps))) = none ∧
      Toast.onCloseCount
        (Toast.run (Toast.Event.dismiss :: List.replicate 600 Toast.Event.tick)
          (Toast.step Toast.Event.mount (Toast.init Toast.sampleProps))) = 1 :=
  ⟨⟨Toast.sampleProps, [Toast.Event.mount], rfl⟩, rfl, by decide,
    ((toast_dismiss_then_600ms Toast.sampleEnv
      (Toast.step Toast.Event.mount (Toast.init Toast.sampleProps))
      ⟨Toast.sampleProps, [Toast.Event.mount], rfl⟩ rfl (by decide)).2.1 300
        (by decide)).2.1,
    (toast_dismiss_then_600ms Toast.sampleEnv
      (Toast.step Toast.Event.mount (Toast.init Toast.sampleProps))
      ⟨Toast.sampleProps, [Toast.Event.mount], rfl⟩ rfl (by decide)).2.2.2.2.2.1,
    (toast_dismiss_then_600ms Toast.sampleEnv
      (Toast.step Toast.Event.mount (Toast.init Toast.sampleProps))
      ⟨Toast.sampleProps, [Toast.Event.mount], rfl⟩ rfl (by decide)).2.2.2.2.2.2⟩

theorem Toast.dismissedOnce_dismiss :
    Toast.step Toast.Event.dismiss Toast.dismissedOnce = Toast.dismissedTwice 1 := rfl

theorem Toast.dismissedTwice_ticks (j : Nat) :
    Toast.run (Toast.Event.dismiss :: List.replicate (598 + j) Toast.Event.tick)
        Toast.dismissedOnce =
      Toast.run (List.replicate j Toast.Event.tick) (Toast.dismissedTwice 599) := by
  rw [Toast.run_cons, Toast.dismissedOnce_dismiss, List.replicate_add, Toast.run_append,
    Toast.ticks_idle 598 (Toast.dismissedTwice 1)]
  · rfl
  · intro u hu
    simp only [Toast.dismissedTwice, Toast.closeTimer, List.mem_cons, List.mem_singleton,
      List.not_mem_nil, or_false] at hu
    rcases hu with hu | hu <;> subst hu <;> simp [Toast.dismissedTwice]

/-- Counterexample to C5 as stated: a mounted Toast that was dismissed 1 ms ago
is dismissed again.  The second call sets timer 2, due 600 ms later.  599 ms
after the second call timer 2 still waits, yet `props.onClose` has been called
once; when timer 2 has fired, 600 ms after the second call, `props.onClose` has
been called twice since that call. -/
theorem toast_dismissed_again_onClose_early :
    Toast.Reachable Toast.dismissedOnce ∧
      Toast.dismissedOnce.phase = Phase.mounted ∧
      Toast.onCloseCount Toast.dismissedOnce = 0 ∧
      (Toast.step Toast.Event.dismiss Toast.dismissedOnce).animateOutCompleteTimer = some 2 ∧
      Toast.closeTimer 2 601 ∈
        (Toast.run (Toast.Event.dismiss :: List.replicate 599 Toast.Event.tick)
          Toast.dismissedOnce).timers ∧
      Toast.onCloseCount
        (Toast.run (Toast.Event.dismiss :: List.replicate 599 Toast.Event.tick)
          Toast.dismissedOnce) = 1 ∧
      (∀ u ∈ (Toast.run (Toast.Event.dismiss :: List.replicate 600 Toast.Event.tick)
          Toast.dismissedOnce).timers, u.id ≠ 2) ∧
      Toast.onCloseCount
        (Toast.run (Toast.Event.dismiss :: List.replicate 600 Toast.Event.tick)
          Toast.dismissedOnce) = 2 := by
  have h1 := Toast.dismissedTwice_ticks 1
  have h2 := Toast.dismissedTwice_ticks 2
  refine ⟨⟨Toast.plainProps, _, rfl⟩, rfl, rfl, rfl, ?_, ?_, ?_, ?_⟩
  · rw [h1]; decide
  · rw [h1]; rfl
  · rw [h2]; decide
  · rw [h2]; rfl

/-! ## Toast: automatic dismissal -/

theorem Toast.mount_eq_undisturbed (p : ToastProps) :
    Toast.step Toast.Event.mount (Toast.init p) =
      Toast.undisturbed p.autoHideDuration p 0 := by
  by_cases h : p.autoHideDuration = 0
  · simp [Toast.step, Toast.init, Toast.componentDidMount, Toast.animateIn, Toast.setState,
      Toast.startTimeout, Toast.undisturbed, h]
  · have h0 : 0 < p.autoHideDuration := Nat.pos_of_ne_zero h
    simp [Toast.step, Toast.init, Toast.componentDidMount, Toast.animateIn, Toast.setState,
      Toast.startTimeout, Toast.undisturbed, Toast.setTimeout, h, h0]

theorem Toast.tick_undisturbed (N : Nat) (q : ToastProps) (k : Nat) :
    Toast.tick (Toast.undisturbed N q k) = Toast.undisturbed N q (k + 1) := by
  by_cases h : N = 0
  · simp [Toast.tick, Toast.undisturbed, h]
  · by_cases h1 : k + 1 < N
    · have h2 : k < N := by omega
      have h3 : ¬ N ≤ k + 1 := by omega
      simp [Toast.tick, Toast.undisturbed, h, h1, h2, h3]
    · by_cases h2 : k < N
      · have h3 : N ≤ k + 1 := by omega
        have h4 : k + 1 < N + 600 := by omega
        simp [Toast.tick, Toast.undisturbed, h, h1, h2, h3, h4, Toast.runTimer,
          Toast.runTimerFn, Toast.dismiss, Toast.animateOut, Toast.setState, Toast.emit,
          Toast.setTimeout]
        omega
      · by_cases h3 : k + 1 < N + 600
        · have h4 : k < N + 600 := by omega
          have h5 : ¬ N + 600 ≤ k + 1 := by omega
          simp [Toast.tick, Toast.undisturbed, h, h1, h2, h3, h4, h5]
        · by_cases h4 : k < N + 600
          · have h5 : N + 600 ≤ k + 1 := by omega
            simp [Toast.tick, Toast.undisturbed, h, h1, h2, h3, h4, h5, Toast.runTimer,
              Toast.runTimerFn, Toast.animateOutComplete, Toast.runCallback, Toast.setState,
              Toast.emit]
          · simp [Toast.tick, Toast.undisturbed, h, h1, h2, h3, h4]

theorem Toast.update_undisturbed (N : Nat) (q q' : ToastProps) (k : Nat) :
    Toast.step (Toast.Event.update q') (Toast.undisturbed N q k) =
      Toast.undisturbed N q' k := by
  unfold Toast.undisturbed
  by_cases h : N = 0
  · simp [Toast.step, h]
  · by_cases h1 : k < N
    · simp [Toast.step, h, h1]
    · by_cases h2 : k < N + 600 <;> simp [Toast.step, h, h1, h2]

theorem Toast.run_passive_undisturbed (N : Nat) (es : List Toast.Event)
    (h : ∀ e ∈ es, Toast.Event.isPassive e = true) (q : ToastProps) (k : Nat) :
    ∃ q', Toast.run es (Toast.undisturbed N q k) =
      Toast.undisturbed N q' (k + Toast.elapsed es) := by
  induction es generalizing q k with
  | nil => exact ⟨q, rfl⟩
  | cons e rest ih =>
    have hrest : ∀ e ∈ rest, Toast.Event.isPassive e = true :=
      fun e he => h e (List.mem_cons_of_mem _ he)
    have he := h e (List.mem_cons_self _ _)
    cases e with
    | tick =>
      obtain ⟨q', hq'⟩ := ih hrest q (k + 1)
      refine ⟨q', ?_⟩
      have e1 : Toast.run (Toast.Event.tick :: rest) (Toast.undisturbed N q k) =
          Toast.run rest (Toast.tick (Toast.undisturbed N q k)) := rfl
      rw [e1, Toast.tick_undisturbed, hq']
      simp only [Toast.elapsed]
      congr 1
      omega
    | update p' =>
      obtain ⟨q', hq'⟩ := ih hrest p' k
      refine ⟨q', ?_⟩
      have e1 : Toast.run (Toast.Event.update p' :: rest) (Toast.undisturbed N q k) =
          Toast.run rest (Toast.step (Toast.Event.update p') (Toast.undisturbed N q k)) := rfl
      rw [e1, Toast.update_undisturbed, hq']
      simp only [Toast.elapsed]
    | mount => simp [Toast.Event.isPassive] at he
    | unmount => simp [Toast.Event.isPassive] at he
    | dismiss => simp [Toast.Event.isPassive] at he
    | focus x => simp [Toast.Event.isPassive] at he
    | blur x => simp [Toast.Event.isPassive] at he
    | mouseEnter x => simp [Toast.Event.isPassive] at he
    | mouseLeave x => simp [Toast.Event.isPassive] at he

/-- C6: take a Toast mounted with `autoHideDuration` N on which, from then on,
nothing acts but time and new props from its parent: no focus, blur, mouse-enter
or mouse-leave event reaches it, `dismiss` is not called from the close icon or
the children, and it is not unmounted.  If N > 0, `dismiss` has not been entered while
fewer than N ms have passed since mount and has been entered exactly once from
then on, by the timer that `startTimeout` set at mount to be due after N ms.  If
N is 0, which is the default, `startTimeout` schedules no timer and `dismiss` is
never entered. -/
theorem toast_auto_dismiss_once (p : ToastProps) (es : List Toast.Event) (s : Toast)
    (KIND_info : String) (children : ToastChildren)
    (hes : ∀ e ∈ es, Toast.Event.isPassive e = true) :
    (Toast.step Toast.Event.mount (Toast.init p)).timers =
        (if p.autoHideDuration = 0 then []
         else [{ id := 1, due := p.autoHideDuration, cb := ToastTimerFn.dismiss }]) ∧
      Toast.dismissCount (Toast.run es (Toast.step Toast.Event.mount (Toast.init p))) =
        (if p.autoHideDuration = 0 ∨ Toast.elapsed es < p.autoHideDuration then 0 else 1) ∧
      (Toast.defaultProps KIND_info children).autoHideDuration = 0 ∧
      Toast.startTimeout { s with props := { s.props with autoHideDuration := 0 } } =
        { s with props := { s.props with autoHideDuration := 0 } } := by
  refine ⟨?_, ?_, rfl, ?_⟩
  · rw [Toast.mount_eq_undisturbed]
    by_cases h : p.autoHideDuration = 0
    · simp [Toast.undisturbed, h]
    · have h0 : 0 < p.autoHideDuration := Nat.pos_of_ne_zero h
      simp [Toast.undisturbed, h, h0]
  · rw [Toast.mount_eq_undisturbed]
    obtain ⟨q', hq'⟩ := Toast.run_passive_undisturbed p.autoHideDuration es hes p 0
    rw [hq']
    unfold Toast.undisturbed Toast.dismissCount
    simp only [Nat.zero_add]
    by_cases h : p.autoHideDuration = 0
    · simp [h]
    · by_cases h1 : Toast.elapsed es < p.autoHideDuration
      · simp [h, h1]
      · by_cases h2 : Toast.elapsed es < p.autoHideDuration + 600 <;> simp [h, h1, h2]
  · simp [Toast.startTimeout]

/-- Witness for C6: a Toast with `autoHideDuration` 2 whose parent passes new
props after 1 ms; 3 ms after mount `dismiss` has been entered once. -/
theorem toast_auto_dismiss_once_witness :
    (∀ e ∈ [Toast.Event.tick, Toast.Event.update Toast.sampleProps, Toast.Event.tick,
          Toast.Event.tick], Toast.Event.isPassive e = true) ∧
      Toast.dismissCount (Toast.run
          [Toast.Event.tick, Toast.Event.update Toast.sampleProps, Toast.Event.tick,
            Toast.Event.tick]
          (Toast.step Toast.Event.mount
            (Toast.init { Toast.sampleProps with autoHideDuration := 2 }))) = 1 :=
  ⟨by decide,
    (toast_auto_dismiss_once { Toast.sampleProps with autoHideDuration := 2 }
      [Toast.Event.tick, Toast.Event.update Toast.sampleProps, Toast.Event.tick,
        Toast.Event.tick]
      (Toast.init Toast.sampleProps) "info" (ToastChildren.node Child.null)
      (by decide)).2.1⟩

/-- Counterexample to C6 as stated: a Toast mounted with `autoHideDuration` 2 that
receives no focus and no mouse-enter event.  When a blur event, a mouse-leave
event or a call of `dismiss` follows the mounting, `dismiss` has been entered
twice once the 2 ms have passed; when the Toast is unmounted before they have
passed, `dismiss` is never entered. -/
theorem toast_auto_dismiss_not_once :
    (∀ e ∈ [Toast.Event.blur 0, Toast.Event.tick, Toast.Event.tick],
        Toast.Event.pausesTimer e = false) ∧
      Toast.dismissCount (Toast.run [Toast.Event.blur 0, Toast.Event.tick, Toast.Event.tick]
        (Toast.step Toast.Event.mount (Toast.init Toast.quickProps))) = 2 ∧
      (∀ e ∈ [Toast.Event.mouseLeave 0, Toast.Event.tick, Toast.Event.tick],
        Toast.Event.pausesTimer e = false) ∧
      Toast.dismissCount (Toast.run
        [Toast.Event.mouseLeave 0, Toast.Event.tick, Toast.Event.tick]
        (Toast.step Toast.Event.mount (Toast.init Toast.quickProps))) = 2 ∧
      (∀ e ∈ [Toast.Event.dismiss, Toast.Event.tick, Toast.Event.tick],
        Toast.Event.pausesTimer e = false) ∧
      Toast.dismissCount (Toast.run [Toast.Event.dismiss, Toast.Event.tick, Toast.Event.tick]
        (Toast.step Toast.Event.mount (Toast.init Toast.quickProps))) = 2 ∧
      (∀ e ∈ [Toast.Event.tick, Toast.Event.unmount, Toast.Event.tick, Toast.Event.tick],
        Toast.Event.pausesTimer e = false) ∧
      Toast.dismissCount (Toast.run
        [Toast.Event.tick, Toast.Event.unmount, Toast.Event.tick, Toast.Event.tick]
        (Toast.step Toast.Event.mount (Toast.init Toast.quickProps))) = 0 ∧
      Toast.quickProps.autoHideDuration = 2 := by
  refine ⟨by decide, by decide, by decide, by decide, by decide, by decide, by decide,
    by decide, rfl⟩

/-! ## Popover: what every method does to the timer queue -/

namespace Popover

theorem holds_congr {P : List (Timer TimerFn) → Nat → Prop} (s s' : Popover)
    (ht : s'.timers = s.timers) (hn : s'.nextTimerId = s.nextTimerId) (h : Holds P s) :
    Holds P s' := by
  unfold Holds at *
  rw [ht, hn]
  exact h

theorem holds_setTimeout {P : List (Timer TimerFn) → Nat → Prop} (hP : QueueInvariant P)
    (cb : TimerFn) (d : Nat) (s : Popover) (h : Holds P s) : Holds P (setTimeout cb d s).2 :=
  hP.push s.timers s.nextTimerId (s.now + d) cb h

theorem holds_clearTimeout {P : List (Timer TimerFn) → Nat → Prop} (hP : QueueInvariant P)
    (id : Nat) (s : Popover) (h : Holds P s) : Holds P (clearTimeout id s) :=
  hP.filter s.timers s.nextTimerId _ h

theorem holds_clearIfSet {P : List (Timer TimerFn) → Nat → Prop} (hP : QueueInvariant P)
    (o : Option Nat) (s : Popover) (h : Holds P s) : Holds P (clearIfSet o s) := by
  unfold clearIfSet
  cases o with
  | none => exact h
  | some id =>
    simp only
    split
    · exact holds_clearTimeout hP id s h
    · exact h

theorem holds_clearTimers {P : List (Timer TimerFn) → Nat → Prop} (hP : QueueInvariant P)
    (s : Popover) (h : Holds P s) : Holds P (clearTimers s) := by
  unfold clearTimers
  simp only [List.foldl_cons, List.foldl_nil]
  exact holds_clearIfSet hP _ _ (holds_clearIfSet hP _ _ (holds_clearIfSet hP _ _
    (holds_clearIfSet hP _ _ (holds_clearIfSet hP _ _ h))))

@[simp] theorem emit_timers (c : Call) (s : Popover) : (emit c s).timers = s.timers := rfl

@[simp] theorem emit_nextTimerId (c : Call) (s : Popover) :
    (emit c s).nextTimerId = s.nextTimerId := rfl

@[simp] theorem addDomEvents_timers (E : Env) (s : Popover) :
    (addDomEvents E s).timers = s.timers := by
  unfold addDomEvents; split <;> rfl

@[simp] theorem addDomEvents_nextTimerId (E : Env) (s : Popover) :
    (addDomEvents E s).nextTimerId = s.nextTimerId := by
  unfold addDomEvents; split <;> rfl

@[simp] theorem removeDomEvents_timers (E : Env) (s : Popover) :
    (removeDomEvents E s).timers = s.timers := by
  unfold removeDomEvents; split <;> rfl

@[simp] theorem removeDomEvents_nextTimerId (E : Env) (s : Popover) :
    (removeDomEvents E s).nextTimerId = s.nextTimerId := by
  unfold removeDomEvents; split <;> rfl

@[simp] theorem destroyPopover_timers (E : Env) (s : Popover) :
    (destroyPopover E s).timers = s.timers := by
  unfold destroyPopover
  cases s.popper <;> simp only <;> split <;> simp

@[simp] theorem destroyPopover_nextTimerId (E : Env) (s : Popover) :
    (destroyPopover E s).nextTimerId = s.nextTimerId := by
  unfold destroyPopover
  cases s.popper <;> simp only <;> split <;> simp

@[simp] theorem initializePopper_timers (E : Env) (s : Popover) :
    (initializePopper E s).timers = s.timers := rfl

@[simp] theorem initializePopper_nextTimerId (E : Env) (s : Popover) :
    (initializePopper E s).nextTimerId = s.nextTimerId := rfl

/-- Apart from `popperHeight` and the trace, `syncPopperHeight` changes nothing. -/
theorem syncPopperHeight_eq (s : Popover) :
    ∃ h tr, syncPopperHeight s = { s with popperHeight := h, trace := tr } := by
  cases s
  simp only [syncPopperHeight, emit]
  split
  · split
    · split <;> exact ⟨_, _, rfl⟩
    · exact ⟨_, _, rfl⟩
  · exact ⟨_, _, rfl⟩

theorem holds_componentDidUpdate {P : List (Timer TimerFn) → Nat → Prop}
    (hP : QueueInvariant P) (E : Env) (pp : PopoverProps) (ps : PopoverState) (s : Popover)
    (h : Holds P s) : Holds P (componentDidUpdate E pp ps s) := by
  unfold componentDidUpdate
  obtain ⟨ht, tr, he⟩ := syncPopperHeight_eq s
  have h1 : Holds P (syncPopperHeight s) := by rw [he]; exact h
  simp only
  split
  · split
    · exact holds_congr _ _ (by simp) (by simp) (holds_clearTimers hP _ h1)
    · split
      · refine holds_congr _ _ rfl rfl (holds_setTimeout hP _ _ _ ?_)
        exact holds_congr _ _ (by simp) (by simp) h1
      · exact h1
  · exact h1

theorem holds_setState {P : List (Timer TimerFn) → Nat → Prop} (hP : QueueInvariant P)
    (E : Env) (f : PopoverState → PopoverState) (s : Popover) (h : Holds P s) :
    Holds P (setState E f s) := by
  unfold setState
  split
  · exact h
  · exact holds_componentDidUpdate hP E _ _ _ h

theorem holds_triggerOnMouseLeaveWithDelay {P : List (Timer TimerFn) → Nat → Prop}
    (hP : QueueInvariant P) (s : Popover) (h : Holds P s) :
    Holds P (triggerOnMouseLeaveWithDelay s) := by
  unfold triggerOnMouseLeaveWithDelay triggerOnMouseLeave
  split
  · exact holds_congr _ _ rfl rfl (holds_setTimeout hP _ _ _ h)
  · split
    · exact h
    · exact h

theorem holds_triggerOnMouseEnterWithDelay {P : List (Timer TimerFn) → Nat → Prop}
    (hP : QueueInvariant P) (s : Popover) (h : Holds P s) :
    Holds P (triggerOnMouseEnterWithDelay s) := by
  unfold triggerOnMouseEnterWithDelay triggerOnMouseEnter
  split
  · exact holds_congr _ _ rfl rfl (holds_setTimeout hP _ _ _ h)
  · split
    · exact h
    · exact h

theorem holds_runTimerFn {P : List (Timer TimerFn) → Nat → Prop} (hP : QueueInvariant P)
    (E : Env) (f : TimerFn) (s : Popover) (h : Holds P s) : Holds P (runTimerFn E f s) := by
  cases f with
  | animateIn =>
    simp only [runTimerFn, animateIn]
    split
    · exact holds_setState hP E _ s h
    · exact h
  | animateOut =>
    simp only [runTimerFn, animateOut]
    split
    · exact holds_congr _ _ rfl rfl (holds_setTimeout hP _ _ _ (holds_setState hP E _ s h))
    · exact h
  | animateOutComplete =>
    simp only [runTimerFn, animateOutComplete]
    exact holds_setState hP E _ s h
  | triggerOnMouseEnter =>
    simp only [runTimerFn, triggerOnMouseEnter]
    split
    · exact h
    · exact h
  | triggerOnMouseLeave =>
    simp only [runTimerFn, triggerOnMouseLeave]
    split
    · exact h
    · exact h

theorem holds_runTimer {P : List (Timer TimerFn) → Nat → Prop} (hP : QueueInvariant P)
    (E : Env) (id : Nat) (s : Popover) (h : Holds P s) : Holds P (runTimer E id s) := by
  unfold runTimer
  split
  · exact holds_runTimerFn hP E _ _ (hP.filter s.timers s.nextTimerId _ h)
  · exact h

theorem holds_foldl_runTimer {P : List (Timer TimerFn) → Nat → Prop} (hP : QueueInvariant P)
    (E : Env) (ids : List Nat) (s : Popover) (h : Holds P s) :
    Holds P (ids.foldl (fun acc id => runTimer E id acc) s) := by
  induction ids generalizing s with
  | nil => exact h
  | cons id rest ih => exact ih _ (holds_runTimer hP E id s h)

theorem holds_tick {P : List (Timer TimerFn) → Nat → Prop} (hP : QueueInvariant P)
    (E : Env) (s : Popover) (h : Holds P s) : Holds P (tick E s) := by
  unfold tick
  exact holds_foldl_runTimer hP E _ _ h

theorem fireTimer_eq (E : Env) (id : Nat) (s : Popover) :
    fireTimer E id s =
      match s.timers.find? (fun t => t.id == id) with
      | some t =>
        runTimerFn E t.cb
          { s with timers := s.timers.filter (fun t => t.id != id), now := max s.now t.due }
      | none => s := by
  unfold fireTimer runTimer
  cases h : s.timers.find? (fun t => t.id == id) with
  | none => rfl
  | some t => simp [h]

theorem onDocumentClick_calls_onClickOutside_aux (evt : MouseEvent) (s : Popover) :
    onDocumentClick evt s = emit (Call.propsOnClickOutside evt) s ∨
      onDocumentClick evt s = s := by
  unfold onDocumentClick
  cases s.popperRef with
  | none => simp
  | some popper =>
    simp only
    split
    · exact Or.inr rfl
    · cases s.anchorRef with
      | none => exact Or.inr rfl
      | some anchor =>
        simp only
        split
        · exact Or.inr rfl
        · split
          · exact Or.inl rfl
          · exact Or.inr rfl

theorem holds_step {P : List (Timer TimerFn) → Nat → Prop} (hP : QueueInvariant P)
    (E : Env) (e : Event) (s : Popover) (h : Holds P s) : Holds P (step E e s) := by
  cases e with
  | mount buiId =>
    simp only [step, componentDidMount]; split
    · exact holds_setState hP E _ _ h
    · exact h
  | update props =>
    simp only [step]; split
    · exact holds_componentDidUpdate hP E _ _ _ h
    · exact h
  | unmount =>
    simp only [step, componentWillUnmount]; split
    · refine holds_congr _ _ rfl rfl (holds_clearTimers hP _ ?_)
      exact holds_congr _ _ (by simp) (by simp) h
    · exact h
  | commit a b c d f =>
    simp only [step]; split
    · exact h
    · exact h
  | popperUpdate data =>
    simp only [step, onPopperUpdate]; split
    · exact holds_congr _ _ rfl rfl (holds_setTimeout hP _ _ _ (holds_setState hP E _ s h))
    · exact h
  | anchorClick e =>
    simp only [step, onAnchorClick]; split
    · split
      · exact h
      · exact h
    · exact h
  | anchorMouseEnter =>
    simp only [step, onAnchorMouseEnter]; split
    · exact holds_triggerOnMouseEnterWithDelay hP _ (holds_clearIfSet hP _ _ h)
    · exact h
  | anchorMouseLeave =>
    simp only [step, onAnchorMouseLeave]; split
    · exact holds_triggerOnMouseLeaveWithDelay hP _ (holds_clearIfSet hP _ _ h)
    · exact h
  | popoverMouseEnter =>
    simp only [step, onPopoverMouseEnter]; split
    · exact holds_clearIfSet hP _ _ h
    · exact h
  | popoverMouseLeave =>
    simp only [step, onPopoverMouseLeave]; split
    · exact holds_triggerOnMouseLeaveWithDelay hP _ h
    · exact h
  | documentClick evt =>
    simp only [step]; split
    · rcases (onDocumentClick_calls_onClickOutside_aux evt s) with h1 | h1 <;> rw [h1]
      · exact h
      · exact h
    · exact h
  | documentKeyup key =>
    simp only [step, onKeyPress]; split
    · split
      · exact h
      · exact h
    · exact h
  | tick => exact holds_tick hP E s h

theorem holds_run {P : List (Timer TimerFn) → Nat → Prop} (hP : QueueInvariant P)
    (E : Env) (es : List Event) (s : Popover) (h : Holds P s) : Holds P (run E es s) := by
  unfold run
  induction es generalizing s with
  | nil => exact h
  | cons e rest ih => exact ih _ (holds_step hP E e s h)

end Popover

/-! ## Popover: two invariants of the timer queue -/

theorem Popover.queueOk_invariant : QueueInvariant Popover.QueueOk where
  push := by
    intro ts n d cb h
    obtain ⟨h1, h2, h3⟩ := h
    refine ⟨by omega, ?_, ?_⟩
    · intro t ht
      rcases List.mem_append.mp ht with ht | ht
      · have := h2 t ht; omega
      · simp only [List.mem_singleton] at ht; subst ht; simp
    · rw [List.pairwise_append]
      refine ⟨h3, List.pairwise_singleton _ _, ?_⟩
      intro a ha b hb
      simp only [List.mem_singleton] at hb
      subst hb
      exact h2 a ha
  filter := by
    intro ts n f h
    obtain ⟨h1, h2, h3⟩ := h
    exact ⟨h1, fun t ht => h2 t (List.mem_filter.mp ht).1, h3.filter f⟩

theorem Popover.retired_invariant (L : Nat) : QueueInvariant (Popover.Retired L) where
  push := by
    intro ts n d cb h
    obtain ⟨h1, h2⟩ := h
    refine ⟨by omega, ?_⟩
    intro t ht
    rcases List.mem_append.mp ht with ht | ht
    · exact h2 t ht
    · simp only [List.mem_singleton] at ht; subst ht; simp; omega
  filter := by
    intro ts n f h
    exact ⟨h.1, fun t ht => h.2 t (List.mem_filter.mp ht).1⟩

theorem Popover.queueOk_of_reachable (E : Env) (s : Popover) (h : Popover.Reachable E s) :
    Popover.QueueOk s.timers s.nextTimerId := by
  obtain ⟨p, es, rfl⟩ := h
  apply Popover.holds_run Popover.queueOk_invariant
  exact ⟨by simp [Popover.init], by simp [Popover.init], by simp [Popover.init]⟩

/-! ## Popover: timers at unmount -/

/-- C3, at a failing input: an open Popover is mounted, Popper reports an update
and 16 ms later a second one, and 2 ms after that the component is unmounted.
The second update overwrote `animateInTimer` while timer 1 was waiting, so
`clearTimers` clears timer 2 only: timer 1 is still waiting after
`componentWillUnmount`, and 2 ms later it runs `animateIn`, whose `setState`
reaches the unmounted component. -/
theorem unmount_leaves_animateIn_timer :
    (Popover.run Popover.sampleEnv
        ([Popover.Event.mount "bui-1", Popover.Event.popperUpdate Popover.sampleData] ++
          List.replicate 16 Popover.Event.tick ++
          [Popover.Event.popperUpdate Popover.sampleData] ++
          List.replicate 2 Popover.Event.tick ++ [Popover.Event.unmount])
        (Popover.init Popover.sampleProps)).timers =
        [{ id := 1, due := 20, cb := TimerFn.animateIn }] ∧
      (Popover.run Popover.sampleEnv
        ([Popover.Event.mount "bui-1", Popover.Event.popperUpdate Popover.sampleData] ++
          List.replicate 16 Popover.Event.tick ++
          [Popover.Event.popperUpdate Popover.sampleData] ++
          List.replicate 2 Popover.Event.tick ++ [Popover.Event.unmount])
        (Popover.init Popover.sampleProps)).phase = Phase.unmounted ∧
      (Popover.run Popover.sampleEnv
        ([Popover.Event.mount "bui-1", Popover.Event.popperUpdate Popover.sampleData] ++
          List.replicate 16 Popover.Event.tick ++
          [Popover.Event.popperUpdate Popover.sampleData] ++
          List.replicate 2 Popover.Event.tick ++ [Popover.Event.unmount] ++
          List.replicate 2 Popover.Event.tick)
        (Popover.init Popover.sampleProps)).trace =
        [Call.popperDestroy, Call.setStateOnUnmounted] := by
  refine ⟨?_, ?_, ?_⟩ <;> decide

/-! ## Popover: methods up to the fields nothing else reads -/

namespace Popover

theorem withAux_withAux (s : Popover) (a b : Aux) : withAux (withAux s a) b = withAux s b :=
  rfl

theorem emit_aux (c : Call) (s : Popover) : ∃ a, emit c s = withAux s a :=
  ⟨⟨s.popper, s.popperHeight, s.clickListener, s.keyupListener, s.trace ++ [c]⟩, rfl⟩

theorem self_aux (s : Popover) : ∃ a, s = withAux s a :=
  ⟨⟨s.popper, s.popperHeight, s.clickListener, s.keyupListener, s.trace⟩, rfl⟩

theorem syncPopperHeight_aux (s : Popover) : ∃ a, syncPopperHeight s = withAux s a := by
  obtain ⟨h, tr, he⟩ := syncPopperHeight_eq s
  exact ⟨⟨s.popper, h, s.clickListener, s.keyupListener, tr⟩, he⟩

theorem addDomEvents_aux (E : Env) (s : Popover) : ∃ a, addDomEvents E s = withAux s a := by
  unfold addDomEvents
  split
  · exact ⟨⟨s.popper, s.popperHeight, true, true, s.trace⟩, rfl⟩
  · exact self_aux s

theorem removeDomEvents_aux (E : Env) (s : Popover) :
    ∃ a, removeDomEvents E s = withAux s a := by
  unfold removeDomEvents
  split
  · exact ⟨⟨s.popper, s.popperHeight, false, false, s.trace⟩, rfl⟩
  · exact self_aux s

theorem destroyPopover_aux (E : Env) (s : Popover) : ∃ a, destroyPopover E s = withAux s a := by
  unfold destroyPopover
  have h1 : ∃ a, (match s.popper with
      | some _ => { emit Call.popperDestroy s with popper := none }
      | none => s) = withAux s a := by
    cases s.popper with
    | none => exact self_aux s
    | some q =>
      exact ⟨⟨none, s.popperHeight, s.clickListener, s.keyupListener,
        s.trace ++ [Call.popperDestroy]⟩, rfl⟩
  obtain ⟨a, ha⟩ := h1
  simp only [ha]
  split
  · obtain ⟨b, hb⟩ := removeDomEvents_aux E (withAux s a)
    exact ⟨b, by rw [hb, withAux_withAux]⟩
  · exact ⟨a, rfl⟩

theorem initializePopper_aux (E : Env) (s : Popover) :
    ∃ a, initializePopper E s = withAux s a :=
  ⟨⟨_, s.popperHeight, s.clickListener, s.keyupListener, s.trace⟩, rfl⟩

theorem clearIfSet_withAux (o : Option Nat) (s : Popover) (a : Aux) :
    clearIfSet o (withAux s a) = withAux (clearIfSet o s) a := by
  unfold clearIfSet
  cases o with
  | none => rfl
  | some id => simp only; split <;> rfl

theorem clearTimers_withAux (s : Popover) (a : Aux) :
    clearTimers (withAux s a) = withAux (clearTimers s) a := by
  unfold clearTimers
  simp only [List.foldl_cons, List.foldl_nil]
  show clearIfSet s.onMouseLeaveTimer (clearIfSet s.onMouseEnterTimer
    (clearIfSet s.animateOutCompleteTimer (clearIfSet s.animateOutTimer
      (clearIfSet s.animateInTimer (withAux s a))))) = _
  simp only [clearIfSet_withAux]

/-- What `componentDidUpdate` does when neither `isOpen` nor `isMounted` changed. -/
theorem componentDidUpdate_same (E : Env) (pp : PopoverProps) (ps : PopoverState)
    (s : Popover) (h1 : s.props.isOpen = pp.isOpen) (h2 : s.state.isMounted = ps.isMounted) :
    ∃ a, componentDidUpdate E pp ps s = withAux s a := by
  unfold componentDidUpdate
  obtain ⟨a, ha⟩ := syncPopperHeight_aux s
  refine ⟨a, ?_⟩
  simp only [ha]
  have e1 : (withAux s a).props.isOpen = pp.isOpen := h1
  have e2 : (withAux s a).state.isMounted = ps.isMounted := h2
  simp [e1, e2]

/-- What `componentDidUpdate` does when the Popover is open and `isOpen` or
`isMounted` changed. -/
theorem componentDidUpdate_open (E : Env) (pp : PopoverProps) (ps : PopoverState)
    (s : Popover) (h1 : s.props.isOpen = true)
    (h2 : pp.isOpen = false ∨ s.state.isMounted ≠ ps.isMounted) :
    ∃ a, componentDidUpdate E pp ps s = withAux (clearTimers s) a := by
  unfold componentDidUpdate
  obtain ⟨a, ha⟩ := syncPopperHeight_aux s
  simp only [ha]
  have e1 : (withAux s a).props.isOpen = true := h1
  have e2 : (withAux s a).state.isMounted = s.state.isMounted := rfl
  have hc : ((withAux s a).props.isOpen != pp.isOpen ||
      (withAux s a).state.isMounted != ps.isMounted) = true := by
    rw [e1, e2]
    rcases h2 with h2 | h2
    · simp [h2]
    · simp [h2]
  rw [if_pos hc, if_pos e1]
  obtain ⟨b, hb⟩ := initializePopper_aux E (clearTimers (withAux s a))
  obtain ⟨c, hc'⟩ := addDomEvents_aux E (withAux (clearTimers (withAux s a)) b)
  refine ⟨c, ?_⟩
  rw [hb, hc', clearTimers_withAux, withAux_withAux, withAux_withAux]

/-- What `componentDidUpdate` does when `isOpen` went from true to false. -/
theorem componentDidUpdate_close (E : Env) (pp : PopoverProps) (ps : PopoverState)
    (s : Popover) (h1 : s.props.isOpen = false) (h2 : pp.isOpen = true) :
    ∃ a, componentDidUpdate E pp ps s =
      { withAux s a with
        timers := s.timers ++ [{ id := s.nextTimerId, due := s.now + 20, cb := TimerFn.animateOut }]
        nextTimerId := s.nextTimerId + 1
        animateOutTimer := some s.nextTimerId } := by
  unfold componentDidUpdate
  obtain ⟨a, ha⟩ := syncPopperHeight_aux s
  simp only [ha]
  have e1 : (withAux s a).props.isOpen = false := h1
  simp only [e1, h2]
  obtain ⟨b, hb⟩ := destroyPopover_aux E (withAux s a)
  obtain ⟨c, hc⟩ := removeDomEvents_aux E (withAux (withAux s a) b)
  refine ⟨c, ?_⟩
  rw [hb, hc]
  simp [setTimeout, withAux]

/-- What `componentDidUpdate` does when the Popover is closed, was closed before,
and `isMounted` changed. -/
theorem componentDidUpdate_closed (E : Env) (pp : PopoverProps) (ps : PopoverState)
    (s : Popover) (h1 : s.props.isOpen = false) (h2 : pp.isOpen = false) :
    ∃ a, componentDidUpdate E pp ps s = withAux s a := by
  unfold componentDidUpdate
  obtain ⟨a, ha⟩ := syncPopperHeight_aux s
  refine ⟨a, ?_⟩
  simp only [ha]
  have e1 : (withAux s a).props.isOpen = false := h1
  simp [e1, h2]

end Popover

/-! ## Popover: closing -/

namespace Popover

/-- What `setState` does on a component that is not unmounted when the update
leaves `isMounted` alone. -/
theorem setState_aux (E : Env) (f : PopoverState → PopoverState) (s : Popover)
    (hp : s.phase ≠ Phase.unmounted) (hf : (f s.state).isMounted = s.state.isMounted) :
    ∃ a, setState E f s = withAux { s with state := f s.state } a := by
  unfold setState
  rw [if_neg hp]
  exact componentDidUpdate_same E _ _ _ rfl hf

theorem renderAnchor_ne_portal (E : Env) (s : Popover) (b : BodyElement) (m : Nat) :
    (renderAnchor E s).1 ≠ Rendered.portal b m := by
  unfold renderAnchor
  simp only
  split
  · simp
  · split
    · simp
    · split <;> simp

theorem renderAnchor_not_portal (E : Env) (s : Popover) :
    (match (renderAnchor E s).1 with
      | Rendered.portal _ _ => true
      | _ => false) = false := by
  have h := renderAnchor_ne_portal E s
  cases hr : (renderAnchor E s).1 with
  | portal b m => exact absurd hr (h b m)
  | null => rfl
  | cloneElement a q => rfl
  | span q c => rfl

/-- The popover body is rendered exactly under the condition tested in `render`. -/
theorem rendersBody_eq (E : Env) (s : Popover) :
    rendersBody E s =
      (E.BROWSER && (s.state.isMounted && (s.props.isOpen || s.state.isAnimating))) := by
  unfold rendersBody render
  have h := renderAnchor_not_portal E s
  cases hB : E.BROWSER
  · simp [h]
  · cases hc : (s.state.isMounted && (s.props.isOpen || s.state.isAnimating))
    · simp [hc, h]
    · simp [hc, h]

end Popover

theorem Popover.update_closing (E : Env) (s : Popover) (p : PopoverProps)
    (hm : s.phase = Phase.mounted) (ho : s.props.isOpen = true) (hp : p.isOpen = false) :
    ∃ a, Popover.step E (Popover.Event.update p) s = Popover.closing s p a := by
  obtain ⟨a, ha⟩ := Popover.componentDidUpdate_close E s.props s.state { s with props := p } hp ho
  refine ⟨a, ?_⟩
  have e : Popover.step E (Popover.Event.update p) s =
      if s.phase = Phase.mounted then
        Popover.componentDidUpdate E s.props s.state { s with props := p }
      else s := rfl
  rw [e, if_pos hm]
  exact ha

theorem Popover.fire_closing (E : Env) (s : Popover) (p : PopoverProps) (a : Popover.Aux)
    (hq : Popover.QueueOk s.timers s.nextTimerId) (hm : s.phase = Phase.mounted)
    (hp : p.isOpen = false) :
    ∃ b, Popover.fireTimer E s.nextTimerId (Popover.closing s p a) =
      Popover.animatingOut s p b := by
  obtain ⟨hq1, hq2, hq3⟩ := hq
  have hfind := find_new_timer s.timers s.nextTimerId
    { id := s.nextTimerId, due := s.now + 20, cb := TimerFn.animateOut } hq2 rfl
  have hfilt := filter_new_timer s.timers s.nextTimerId
    { id := s.nextTimerId, due := s.now + 20, cb := TimerFn.animateOut } hq2 rfl
  have hmax : max s.now (s.now + 20) = s.now + 20 := by omega
  obtain ⟨b, hb⟩ := Popover.setState_aux E (fun st => { st with isAnimating := true })
    { Popover.closing s p a with timers := s.timers, now := s.now + 20 }
    (by show s.phase ≠ Phase.unmounted; rw [hm]; decide) rfl
  refine ⟨b, ?_⟩
  rw [Popover.fireTimer_eq]
  have e1 : (Popover.closing s p a).timers = s.timers ++
      [{ id := s.nextTimerId, due := s.now + 20, cb := TimerFn.animateOut }] := rfl
  have e2 : (Popover.closing s p a).now = s.now := rfl
  simp only [e1, e2, hfind, hfilt, hmax]
  simp only [Popover.runTimerFn, Popover.animateOut]
  have hp' : (!p.isOpen) = true := by simp [hp]
  have e3 : ({ Popover.closing s p a with timers := s.timers, now := s.now + 20 } :
    Popover).props.isOpen = p.isOpen := rfl
  rw [e3, if_pos hp', hb]
  rfl

theorem Popover.fire_animatingOut (E : Env) (s : Popover) (p : PopoverProps)
    (a : Popover.Aux) (hq : Popover.QueueOk s.timers s.nextTimerId)
    (hm : s.phase = Phase.mounted) :
    ∃ c, Popover.fireTimer E (s.nextTimerId + 1) (Popover.animatingOut s p a) =
      Popover.closed s p c := by
  obtain ⟨hq1, hq2, hq3⟩ := hq
  have hq2' : ∀ u ∈ s.timers, u.id < s.nextTimerId + 1 := fun u hu => by
    have := hq2 u hu; omega
  have hfind := find_new_timer s.timers (s.nextTimerId + 1)
    { id := s.nextTimerId + 1, due := s.now + 520, cb := TimerFn.animateOutComplete } hq2' rfl
  have hfilt := filter_new_timer s.timers (s.nextTimerId + 1)
    { id := s.nextTimerId + 1, due := s.now + 520, cb := TimerFn.animateOutComplete } hq2' rfl
  have hmax : max (s.now + 20) (s.now + 520) = s.now + 520 := by omega
  obtain ⟨c, hc⟩ := Popover.setState_aux E
    (fun st => { st with isAnimating := false, placement := p.placement })
    { Popover.animatingOut s p a with timers := s.timers, now := s.now + 520 }
    (by show s.phase ≠ Phase.unmounted; rw [hm]; decide) rfl
  refine ⟨c, ?_⟩
  rw [Popover.fireTimer_eq]
  have e1 : (Popover.animatingOut s p a).timers = s.timers ++
      [{ id := s.nextTimerId + 1, due := s.now + 520, cb := TimerFn.animateOutComplete }] := rfl
  have e2 : (Popover.animatingOut s p a).now = s.now + 20 := rfl
  simp only [e1, e2, hfind, hfilt, hmax]
  simp only [Popover.runTimerFn, Popover.animateOutComplete]
  exact hc

/-- C7: take a mounted Popover whose `isOpen` prop goes from true to false.  The
update schedules the animate-out timer 20 ms ahead; when it fires, the
completion timer is scheduled 500 ms further; when that one fires,
`state.isAnimating` is false and `state.placement` equals `props.placement`, and
with `isOpen` still false `render` no longer includes the popover body. -/
theorem close_then_timers_hide_body (E : Env) (s : Popover) (p : PopoverProps)
    (hr : Popover.Reachable E s) (hm : s.phase = Phase.mounted)
    (ho : s.props.isOpen = true) (hp : p.isOpen = false) :
    (Popover.step E (Popover.Event.update p) s).animateOutTimer = some s.nextTimerId ∧
      (Popover.step E (Popover.Event.update p) s).timers.find?
          (fun t => t.id == s.nextTimerId) =
        some { id := s.nextTimerId, due := s.now + 20, cb := TimerFn.animateOut } ∧
      (Popover.fireTimer E s.nextTimerId
          (Popover.step E (Popover.Event.update p) s)).animateOutCompleteTimer =
        some (s.nextTimerId + 1) ∧
      (Popover.fireTimer E s.nextTimerId
          (Popover.step E (Popover.Event.update p) s)).timers.find?
          (fun t => t.id == s.nextTimerId + 1) =
        some { id := s.nextTimerId + 1, due := s.now + 20 + 500,
               cb := TimerFn.animateOutComplete } ∧
      (Popover.fireTimer E (s.nextTimerId + 1) (Popover.fireTimer E s.nextTimerId
          (Popover.step E (Popover.Event.update p) s))).state.isAnimating = false ∧
      (Popover.fireTimer E (s.nextTimerId + 1) (Popover.fireTimer E s.nextTimerId
          (Popover.step E (Popover.Event.update p) s))).state.placement =
        (Popover.fireTimer E (s.nextTimerId + 1) (Popover.fireTimer E s.nextTimerId
          (Popover.step E (Popover.Event.update p) s))).props.placement ∧
      (Popover.fireTimer E (s.nextTimerId + 1) (Popover.fireTimer E s.nextTimerId
          (Popover.step E (Popover.Event.update p) s))).props.isOpen = false ∧
      Popover.rendersBody E (Popover.fireTimer E (s.nextTimerId + 1)
        (Popover.fireTimer E s.nextTimerId
          (Popover.step E (Popover.Event.update p) s))) = false := by
  have hq := Popover.queueOk_of_reachable E s hr
  obtain ⟨a, h1⟩ := Popover.update_closing E s p hm ho hp
  obtain ⟨b, h2⟩ := Popover.fire_closing E s p a hq hm hp
  obtain ⟨c, h3⟩ := Popover.fire_animatingOut E s p b hq hm
  have hq2' : ∀ u ∈ s.timers, u.id < s.nextTimerId + 1 := fun u hu => by
    have := hq.2.1 u hu; omega
  rw [h1, h2, h3]
  refine ⟨rfl, ?_, rfl, ?_, rfl, rfl, hp, ?_⟩
  · exact find_new_timer s.timers s.nextTimerId _ hq.2.1 rfl
  · exact find_new_timer s.timers (s.nextTimerId + 1) _ hq2' rfl
  · rw [Popover.rendersBody_eq]
    show (E.BROWSER && (s.state.isMounted && (p.isOpen || false))) = false
    simp [hp]

/-- Witness for C7: an open Popover after its first Popper update is closed. -/
theorem close_then_timers_hide_body_witness :
    Popover.Reachable Popover.sampleEnv
        (Popover.run Popover.sampleEnv
          [Popover.Event.mount "bui-1", Popover.Event.popperUpdate Popover.sampleData]
          (Popover.init Popover.sampleProps)) ∧
      (Popover.run Popover.sampleEnv
          [Popover.Event.mount "bui-1", Popover.Event.popperUpdate Popover.sampleData]
          (Popover.init Popover.sampleProps)).phase = Phase.mounted ∧
      (Popover.run Popover.sampleEnv
          [Popover.Event.mount "bui-1", Popover.Event.popperUpdate Popover.sampleData]
          (Popover.init Popover.sampleProps)).props.isOpen = true ∧
      Popover.rendersBody Popover.sampleEnv (Popover.fireTimer Popover.sampleEnv 3
        (Popover.fireTimer Popover.sampleEnv 2
          (Popover.step Popover.sampleEnv
            (Popover.Event.update { Popover.sampleProps with isOpen := false })
            (Popover.run Popover.sampleEnv
              [Popover.Event.mount "bui-1", Popover.Event.popperUpdate Popover.sampleData]
              (Popover.init Popover.sampleProps))))) = false :=
  ⟨⟨Popover.sampleProps, _, rfl⟩, by decide, by decide,
    (close_then_timers_hide_body Popover.sampleEnv
      (Popover.run Popover.sampleEnv
        [Popover.Event.mount "bui-1", Popover.Event.popperUpdate Popover.sampleData]
        (Popover.init Popover.sampleProps))
      { Popover.sampleProps with isOpen := false }
      ⟨Popover.sampleProps, _, rfl⟩ (by decide) (by decide) rfl).2.2.2.2.2.2.2⟩

/-! ## Popover: what a timer function leaves alone -/

namespace Popover

theorem quiet_refl (s : Popover) : Quiet s s :=
  ⟨rfl, rfl, rfl, rfl, rfl, fun _ h => h⟩

theorem quiet_trans (s s' s'' : Popover) (h1 : Quiet s s') (h2 : Quiet s' s'') :
    Quiet s s'' := by
  obtain ⟨a1, a2, a3, a4, a5, a6⟩ := h1
  obtain ⟨b1, b2, b3, b4, b5, b6⟩ := h2
  exact ⟨b1.trans a1, b2.trans a2, b3.trans a3, b4.trans a4, b5.trans a5,
    fun t ht => b6 t (a6 t ht)⟩

theorem quiet_withAux (s : Popover) (a : Aux) : Quiet s (withAux s a) :=
  ⟨rfl, rfl, rfl, rfl, rfl, fun _ h => h⟩

theorem quiet_setState (E : Env) (f : PopoverState → PopoverState) (s : Popover)
    (hf : (f s.state).isMounted = s.state.isMounted) : Quiet s (setState E f s) := by
  unfold setState
  split
  · obtain ⟨a, ha⟩ := emit_aux Call.setStateOnUnmounted s
    rw [ha]; exact quiet_withAux s a
  · obtain ⟨a, ha⟩ := componentDidUpdate_same E s.props s.state
      { s with state := f s.state } rfl hf
    rw [ha]
    exact ⟨rfl, rfl, rfl, rfl, rfl, fun _ h => h⟩

theorem quiet_runTimerFn (E : Env) (cb : TimerFn) (s : Popover) :
    Quiet s (runTimerFn E cb s) := by
  cases cb with
  | animateIn =>
    simp only [runTimerFn, animateIn]
    split
    · exact quiet_setState E _ s rfl
    · exact quiet_refl s
  | animateOut =>
    simp only [runTimerFn, animateOut]
    split
    · have h := quiet_setState E (fun st => { st with isAnimating := true }) s rfl
      refine quiet_trans _ _ _ h ?_
      exact ⟨rfl, rfl, rfl, rfl, rfl, fun t ht => List.mem_append_left _ ht⟩
    · exact quiet_refl s
  | animateOutComplete =>
    simp only [runTimerFn, animateOutComplete]
    exact quiet_setState E _ s rfl
  | triggerOnMouseEnter =>
    simp only [runTimerFn, triggerOnMouseEnter]
    split
    · exact ⟨rfl, rfl, rfl, rfl, rfl, fun _ h => h⟩
    · exact quiet_refl s
  | triggerOnMouseLeave =>
    simp only [runTimerFn, triggerOnMouseLeave]
    split
    · exact ⟨rfl, rfl, rfl, rfl, rfl, fun _ h => h⟩
    · exact quiet_refl s

/-- Running a timer keeps the props, the phase, the clock and the mouse timer
fields, and keeps every timer with another id in the queue. -/
theorem runTimer_keeps (E : Env) (i : Nat) (s : Popover) :
    (runTimer E i s).props = s.props ∧ (runTimer E i s).phase = s.phase ∧
      (runTimer E i s).now = s.now ∧
      (runTimer E i s).onMouseEnterTimer = s.onMouseEnterTimer ∧
      (runTimer E i s).onMouseLeaveTimer = s.onMouseLeaveTimer ∧
      ∀ t ∈ s.timers, t.id ≠ i → t ∈ (runTimer E i s).timers := by
  unfold runTimer
  cases s.timers.find? (fun t => t.id == i) with
  | none => exact ⟨rfl, rfl, rfl, rfl, rfl, fun t ht _ => ht⟩
  | some u =>
    simp only
    obtain ⟨a1, a2, a3, a4, a5, a6⟩ := quiet_runTimerFn E u.cb
      { s with timers := s.timers.filter (fun t => t.id != i) }
    refine ⟨a1, a2, a3, a4, a5, ?_⟩
    intro t ht hne
    apply a6
    exact List.mem_filter.mpr ⟨ht, by simpa using hne⟩

theorem foldl_runTimer_keeps (E : Env) (ids : List Nat) (s : Popover) :
    (ids.foldl (fun acc id => runTimer E id acc) s).props = s.props ∧
      (ids.foldl (fun acc id => runTimer E id acc) s).phase = s.phase ∧
      (ids.foldl (fun acc id => runTimer E id acc) s).now = s.now ∧
      (ids.foldl (fun acc id => runTimer E id acc) s).onMouseEnterTimer =
        s.onMouseEnterTimer ∧
      (ids.foldl (fun acc id => runTimer E id acc) s).onMouseLeaveTimer =
        s.onMouseLeaveTimer ∧
      ∀ t ∈ s.timers, t.id ∉ ids →
        t ∈ (ids.foldl (fun acc id => runTimer E id acc) s).timers := by
  induction ids generalizing s with
  | nil => exact ⟨rfl, rfl, rfl, rfl, rfl, fun t ht _ => ht⟩
  | cons i rest ih =>
    obtain ⟨a1, a2, a3, a4, a5, a6⟩ := runTimer_keeps E i s
    obtain ⟨b1, b2, b3, b4, b5, b6⟩ := ih (runTimer E i s)
    simp only [List.foldl_cons]
    refine ⟨b1.trans a1, b2.trans a2, b3.trans a3, b4.trans a4, b5.trans a5, ?_⟩
    intro t ht hn
    simp only [List.mem_cons, not_or] at hn
    exact b6 t (a6 t ht hn.1) hn.2

/-- In a queue ordered by id, two timers with the same id are the same timer. -/
theorem timer_unique (ts : List (Timer TimerFn))
    (h : ts.Pairwise (fun a b => a.id < b.id)) (a b : Timer TimerFn) (ha : a ∈ ts)
    (hb : b ∈ ts) (hid : a.id = b.id) : a = b := by
  by_contra hne
  have h' : ts.Pairwise (fun a b => a.id ≠ b.id) := h.imp (fun hlt => Nat.ne_of_lt hlt)
  have hs : Symmetric (fun a b : Timer TimerFn => a.id ≠ b.id) := fun _ _ hxy => Ne.symm hxy
  exact (h'.forall hs ha hb hne) hid

/-- A millisecond that ends before the timer `t` is due keeps `t` in the queue
and keeps the props, the phase and the mouse timer fields. -/
theorem tick_keeps (E : Env) (s : Popover) (t : Timer TimerFn)
    (hq : QueueOk s.timers s.nextTimerId) (ht : t ∈ s.timers) (hd : s.now + 1 < t.due) :
    (tick E s).props = s.props ∧ (tick E s).phase = s.phase ∧ (tick E s).now = s.now + 1 ∧
      (tick E s).onMouseEnterTimer = s.onMouseEnterTimer ∧
      (tick E s).onMouseLeaveTimer = s.onMouseLeaveTimer ∧
      t ∈ (tick E s).timers := by
  unfold tick
  obtain ⟨b1, b2, b3, b4, b5, b6⟩ := foldl_runTimer_keeps E
    ((({ s with now := s.now + 1 } : Popover).timers.filter
      (fun t => t.due ≤ ({ s with now := s.now + 1 } : Popover).now)).map (fun t => t.id))
    { s with now := s.now + 1 }
  refine ⟨b1, b2, b3, b4, b5, b6 t ht ?_⟩
  intro hmem
  obtain ⟨u, hu, hid⟩ := List.mem_map.mp hmem
  obtain ⟨hu1, hu2⟩ := List.mem_filter.mp hu
  have heq : u = t := timer_unique s.timers hq.2.2 u t hu1 ht hid
  subst heq
  have : u.due ≤ s.now + 1 := by simpa using hu2
  omega

end Popover

/-! ## Popover: a delayed mouse callback that is cancelled -/

namespace Popover

theorem ticks_keep (E : Env) (k : Nat) (s : Popover) (t : Timer TimerFn)
    (hq : QueueOk s.timers s.nextTimerId) (ht : t ∈ s.timers) (hd : s.now + k < t.due) :
    (run E (List.replicate k Event.tick) s).props = s.props ∧
      (run E (List.replicate k Event.tick) s).phase = s.phase ∧
      (run E (List.replicate k Event.tick) s).onMouseEnterTimer = s.onMouseEnterTimer ∧
      (run E (List.replicate k Event.tick) s).onMouseLeaveTimer = s.onMouseLeaveTimer ∧
      t ∈ (run E (List.replicate k Event.tick) s).timers ∧
      QueueOk (run E (List.replicate k Event.tick) s).timers
        (run E (List.replicate k Event.tick) s).nextTimerId := by
  induction k generalizing s with
  | zero => exact ⟨rfl, rfl, rfl, rfl, ht, hq⟩
  | succ k ih =>
    have e : run E (List.replicate (k + 1) Event.tick) s =
        run E (List.replicate k Event.tick) (tick E s) := rfl
    rw [e]
    obtain ⟨a1, a2, a3, a4, a5, a6⟩ := tick_keeps E s t hq ht (by omega)
    have hq' : QueueOk (tick E s).timers (tick E s).nextTimerId :=
      holds_tick queueOk_invariant E s hq
    obtain ⟨b1, b2, b3, b4, b5, b6⟩ := ih (tick E s) hq' a6 (by omega)
    exact ⟨b1.trans a1, b2.trans a2, b3.trans a4, b4.trans a5, b5, b6⟩

/-- Clearing the id of a waiting timer retires that id. -/
theorem retired_clearIfSet (s : Popover) (L : Nat) (hL : 1 ≤ L) (hn : L < s.nextTimerId) :
    Holds (Retired L) (clearIfSet (some L) s) := by
  unfold clearIfSet
  have h0 : (L != 0) = true := by simp; omega
  simp only [h0, if_true]
  refine ⟨hn, ?_⟩
  intro t ht
  have := (List.mem_filter.mp ht).2
  simpa using this

end Popover

/-! ## Popover: calls of a mouse callback made or waiting -/

theorem countP_filter_removed {α : Type} (p q : α → Bool) (l : List α) (a : α) (ha : a ∈ l)
    (hp : p a = true) (hq : q a = false) :
    (l.filter q).countP p + 1 ≤ l.countP p := by
  induction l with
  | nil => simp at ha
  | cons b rest ih =>
    rcases List.mem_cons.mp ha with h | h
    · subst h
      have hle : (rest.filter q).countP p ≤ rest.countP p :=
        List.Sublist.countP_le _ (List.filter_sublist rest)
      simp only [List.filter_cons, hq, List.countP_cons, hp]
      simp
      omega
    · have := ih h
      by_cases hqb : q b = true <;> by_cases hpb : p b = true <;>
        simp [List.filter_cons, List.countP_cons, hqb, hpb] <;> omega

theorem countP_filter_le {α : Type} (p q : α → Bool) (l : List α) :
    (l.filter q).countP p ≤ l.countP p :=
  List.Sublist.countP_le _ (List.filter_sublist l)

namespace Popover

theorem owed_congr (d : Side) (s s' : Popover) (ht : s'.trace = s.trace)
    (hq : s'.timers = s.timers) : owed d s' = owed d s := by
  unfold owed calls waiting
  rw [ht, hq]

theorem owed_le_of_congr (d : Side) (n : Nat) (s' u : Popover) (ht : s'.trace = u.trace)
    (hq : s'.timers = u.timers) (h : owed d u ≤ n) : owed d s' ≤ n := by
  rw [owed_congr d u s' ht hq]
  exact h

theorem owed_emit (d : Side) (c : Call) (s : Popover) (hc : c ≠ d.call) :
    owed d (emit c s) = owed d s := by
  unfold owed calls waiting emit
  simp [List.count_append, List.count_singleton, hc]

theorem owed_emit_le (d : Side) (c : Call) (s : Popover) :
    owed d (emit c s) ≤ owed d s + 1 := by
  unfold owed calls waiting emit
  simp only [List.count_append, List.count_singleton]
  split <;> omega

theorem owed_setTimeout (d : Side) (cb : TimerFn) (dl : Nat) (s : Popover)
    (hc : cb ≠ d.fn) : owed d (setTimeout cb dl s).2 = owed d s := by
  unfold owed calls waiting setTimeout
  simp [List.countP_append, List.countP_cons, hc]

theorem owed_setTimeout_le (d : Side) (cb : TimerFn) (dl : Nat) (s : Popover) :
    owed d (setTimeout cb dl s).2 ≤ owed d s + 1 := by
  unfold owed calls waiting setTimeout
  simp only [List.countP_append, List.countP_cons, List.countP_nil]
  split <;> omega

theorem owed_clearTimeout (d : Side) (i : Nat) (s : Popover) :
    owed d (clearTimeout i s) ≤ owed d s := by
  unfold owed calls waiting clearTimeout
  have := countP_filter_le (fun t : Timer TimerFn => t.cb == d.fn) (fun t => t.id != i) s.timers
  simp only
  omega

theorem owed_clearIfSet (d : Side) (o : Option Nat) (s : Popover) :
    owed d (clearIfSet o s) ≤ owed d s := by
  unfold clearIfSet
  cases o with
  | none => exact Nat.le_refl _
  | some id =>
    simp only
    split
    · exact owed_clearTimeout d id s
    · exact Nat.le_refl _

theorem owed_clearTimers (d : Side) (s : Popover) : owed d (clearTimers s) ≤ owed d s := by
  unfold clearTimers
  simp only [List.foldl_cons, List.foldl_nil]
  exact Nat.le_trans (owed_clearIfSet d _ _) (Nat.le_trans (owed_clearIfSet d _ _)
    (Nat.le_trans (owed_clearIfSet d _ _) (Nat.le_trans (owed_clearIfSet d _ _)
      (owed_clearIfSet d _ _))))

theorem owed_addDomEvents (d : Side) (E : Env) (s : Popover) :
    owed d (addDomEvents E s) = owed d s := by
  unfold addDomEvents; split <;> rfl

theorem owed_removeDomEvents (d : Side) (E : Env) (s : Popover) :
    owed d (removeDomEvents E s) = owed d s := by
  unfold removeDomEvents; split <;> rfl

theorem owed_destroyPopover (d : Side) (E : Env) (s : Popover) :
    owed d (destroyPopover E s) = owed d s := by
  have h : ∀ u : Popover, owed d (if isClickTrigger E u then removeDomEvents E u else u) =
      owed d u := by
    intro u
    split
    · exact owed_removeDomEvents d E u
    · rfl
  unfold destroyPopover
  cases s.popper with
  | none => exact h _
  | some p =>
    simp only
    rw [h]
    exact (owed_congr d _ _ rfl rfl).trans
      (owed_emit d Call.popperDestroy s (by cases d <;> simp [Side.call]))

theorem owed_initializePopper (d : Side) (E : Env) (s : Popover) :
    owed d (initializePopper E s) = owed d s := rfl

theorem owed_syncPopperHeight (d : Side) (s : Popover) :
    owed d (syncPopperHeight s) = owed d s := by
  unfold syncPopperHeight
  split
  · simp only
    split
    · split
      · exact (owed_emit d Call.popperScheduleUpdate _ (by cases d <;> simp [Side.call])).trans
          (owed_congr d _ _ rfl rfl)
      · rfl
    · rfl
  · rfl

theorem owed_componentDidUpdate (d : Side) (E : Env) (pp : PopoverProps) (ps : PopoverState)
    (s : Popover) : owed d (componentDidUpdate E pp ps s) ≤ owed d s := by
  have h1 := owed_syncPopperHeight d s
  unfold componentDidUpdate
  simp only
  split
  · split
    · rw [owed_addDomEvents, owed_initializePopper]
      have := owed_clearTimers d (syncPopperHeight s)
      omega
    · split
      · have h2 : owed d ({ (setTimeout TimerFn.animateOut 20
            (removeDomEvents E (destroyPopover E (syncPopperHeight s)))).2 with
            animateOutTimer := some (setTimeout TimerFn.animateOut 20
              (removeDomEvents E (destroyPopover E (syncPopperHeight s)))).1 }) =
            owed d (setTimeout TimerFn.animateOut 20
              (removeDomEvents E (destroyPopover E (syncPopperHeight s)))).2 := rfl
        rw [h2, owed_setTimeout d _ _ _ (by cases d <;> simp [Side.fn]), owed_removeDomEvents,
          owed_destroyPopover, h1]
      · omega
  · omega

theorem owed_setState (d : Side) (E : Env) (f : PopoverState → PopoverState) (s : Popover) :
    owed d (setState E f s) ≤ owed d s := by
  unfold setState
  split
  · exact Nat.le_of_eq (owed_emit d _ s (by cases d <;> simp [Side.call]))
  · exact Nat.le_trans (owed_componentDidUpdate d E _ _ _) (Nat.le_of_eq rfl)

/-- The function that makes the call of a side. -/
theorem owed_triggerOnMouseEnter (d : Side) (s : Popover) :
    owed d (triggerOnMouseEnter s) ≤
      owed d s + (if d.fn = TimerFn.triggerOnMouseEnter then 1 else 0) := by
  unfold triggerOnMouseEnter
  split
  · cases d
    · simpa [Side.fn] using owed_emit_le Side.enter Call.propsOnMouseEnter s
    · simpa [Side.fn] using
        Nat.le_of_eq (owed_emit Side.leave Call.propsOnMouseEnter s (by simp [Side.call]))
  · omega

theorem owed_triggerOnMouseLeave (d : Side) (s : Popover) :
    owed d (triggerOnMouseLeave s) ≤
      owed d s + (if d.fn = TimerFn.triggerOnMouseLeave then 1 else 0) := by
  unfold triggerOnMouseLeave
  split
  · cases d
    · simpa [Side.fn] using
        Nat.le_of_eq (owed_emit Side.enter Call.propsOnMouseLeave s (by simp [Side.call]))
    · simpa [Side.fn] using owed_emit_le Side.leave Call.propsOnMouseLeave s
  · omega

theorem owed_triggerOnMouseEnterWithDelay (d : Side) (s : Popover) :
    owed d (triggerOnMouseEnterWithDelay s) ≤
      owed d s + (if d.fn = TimerFn.triggerOnMouseEnter then 1 else 0) := by
  unfold triggerOnMouseEnterWithDelay
  split
  · have h2 : owed d ({ (setTimeout TimerFn.triggerOnMouseEnter s.props.onMouseEnterDelay s).2
        with onMouseEnterTimer :=
          some (setTimeout TimerFn.triggerOnMouseEnter s.props.onMouseEnterDelay s).1 }) =
        owed d (setTimeout TimerFn.triggerOnMouseEnter s.props.onMouseEnterDelay s).2 := rfl
    rw [h2]
    cases d
    · simpa [Side.fn] using owed_setTimeout_le Side.enter TimerFn.triggerOnMouseEnter _ s
    · simpa [Side.fn] using Nat.le_of_eq
        (owed_setTimeout Side.leave TimerFn.triggerOnMouseEnter s.props.onMouseEnterDelay s
          (by simp [Side.fn]))
  · exact owed_triggerOnMouseEnter d s

theorem owed_triggerOnMouseLeaveWithDelay (d : Side) (s : Popover) :
    owed d (triggerOnMouseLeaveWithDelay s) ≤
      owed d s + (if d.fn = TimerFn.triggerOnMouseLeave then 1 else 0) := by
  unfold triggerOnMouseLeaveWithDelay
  split
  · have h2 : owed d ({ (setTimeout TimerFn.triggerOnMouseLeave s.props.onMouseLeaveDelay s).2
        with onMouseLeaveTimer :=
          some (setTimeout TimerFn.triggerOnMouseLeave s.props.onMouseLeaveDelay s).1 }) =
        owed d (setTimeout TimerFn.triggerOnMouseLeave s.props.onMouseLeaveDelay s).2 := rfl
    rw [h2]
    cases d
    · simpa [Side.fn] using Nat.le_of_eq
        (owed_setTimeout Side.enter TimerFn.triggerOnMouseLeave s.props.onMouseLeaveDelay s
          (by simp [Side.fn]))
    · simpa [Side.fn] using owed_setTimeout_le Side.leave TimerFn.triggerOnMouseLeave _ s
  · exact owed_triggerOnMouseLeave d s

/-- A timer function run on the queue without its timer: what the timer owed
is paid at most once. -/
theorem owed_runTimerFn (d : Side) (E : Env) (f : TimerFn) (s : Popover) :
    owed d (runTimerFn E f s) ≤ owed d s + (if d.fn = f then 1 else 0) := by
  cases f with
  | animateIn =>
    simp only [runTimerFn, animateIn]
    split
    · have := owed_setState d E (fun st => { st with isAnimating := true }) s
      omega
    · omega
  | animateOut =>
    simp only [runTimerFn, animateOut]
    split
    · have h2 : ∀ u : Popover, owed d ({ (setTimeout TimerFn.animateOutComplete 500 u).2 with
          animateOutCompleteTimer := some (setTimeout TimerFn.animateOutComplete 500 u).1 }) =
          owed d (setTimeout TimerFn.animateOutComplete 500 u).2 := fun _ => rfl
      rw [h2, owed_setTimeout d _ _ _ (by cases d <;> simp [Side.fn])]
      have := owed_setState d E (fun st => { st with isAnimating := true }) s
      omega
    · omega
  | animateOutComplete =>
    simp only [runTimerFn, animateOutComplete]
    have := owed_setState d E
      (fun st => { st with isAnimating := false, placement := s.props.placement }) s
    omega
  | triggerOnMouseEnter =>
    simp only [runTimerFn]
    exact owed_triggerOnMouseEnter d s
  | triggerOnMouseLeave =>
    simp only [runTimerFn]
    exact owed_triggerOnMouseLeave d s

theorem owed_runTimer (d : Side) (E : Env) (i : Nat) (s : Popover) :
    owed d (runTimer E i s) ≤ owed d s := by
  unfold runTimer
  cases hfind : s.timers.find? (fun t => t.id == i) with
  | none => exact Nat.le_refl _
  | some u =>
    have hu : u ∈ s.timers := List.mem_of_find?_eq_some hfind
    have hid : (u.id != i) = false := by
      have := List.find?_some hfind
      simpa using this
    have h1 := owed_runTimerFn d E u.cb { s with timers := s.timers.filter (fun t => t.id != i) }
    simp only
    by_cases hc : d.fn = u.cb
    · have h2 := countP_filter_removed (fun t : Timer TimerFn => t.cb == d.fn)
        (fun t => t.id != i) s.timers u hu (by simp [hc]) hid
      rw [if_pos hc] at h1
      have h3 : owed d { s with timers := s.timers.filter (fun t => t.id != i) } + 1 ≤
          owed d s := by
        unfold owed calls waiting
        simp only
        omega
      omega
    · have h2 := countP_filter_le (fun t : Timer TimerFn => t.cb == d.fn)
        (fun t => t.id != i) s.timers
      rw [if_neg hc] at h1
      have h3 : owed d { s with timers := s.timers.filter (fun t => t.id != i) } ≤
          owed d s := by
        unfold owed calls waiting
        simp only
        omega
      omega

theorem owed_foldl_runTimer (d : Side) (E : Env) (ids : List Nat) (s : Popover) :
    owed d (ids.foldl (fun acc id => runTimer E id acc) s) ≤ owed d s := by
  induction ids generalizing s with
  | nil => exact Nat.le_refl _
  | cons i rest ih => exact Nat.le_trans (ih _) (owed_runTimer d E i s)

theorem owed_tick (d : Side) (E : Env) (s : Popover) : owed d (tick E s) ≤ owed d s := by
  unfold tick
  exact Nat.le_trans (owed_foldl_runTimer d E _ _) (Nat.le_of_eq rfl)

theorem owed_ticks (d : Side) (E : Env) (k : Nat) (s : Popover) :
    owed d (run E (List.replicate k Event.tick) s) ≤ owed d s := by
  induction k generalizing s with
  | zero => exact Nat.le_refl _
  | succ k ih =>
    have e : run E (List.replicate (k + 1) Event.tick) s =
        run E (List.replicate k Event.tick) (tick E s) := rfl
    rw [e]
    exact Nat.le_trans (ih _) (owed_tick d E s)

/-- One event adds at most one call made or waiting, and only an event that
starts one. -/
theorem owed_step (d : Side) (E : Env) (e : Event) (s : Popover) :
    owed d (step E e s) ≤ owed d s + (if Event.starts d e = true then 1 else 0) := by
  cases e with
  | mount buiId =>
    simp only [step, componentDidMount]
    split
    · exact Nat.le_trans (owed_setState d E _ _)
        (owed_le_of_congr d _ _ s rfl rfl (Nat.le_add_right _ _))
    · omega
  | update props =>
    simp only [step]
    split
    · exact Nat.le_trans (owed_componentDidUpdate d E _ _ _)
        (owed_le_of_congr d _ _ s rfl rfl (Nat.le_add_right _ _))
    · omega
  | unmount =>
    simp only [step, componentWillUnmount]
    split
    · have h1 := owed_clearTimers d (removeDomEvents E (destroyPopover E s))
      have h2 := owed_removeDomEvents d E (destroyPopover E s)
      have h3 := owed_destroyPopover d E s
      exact owed_le_of_congr d _ _ (clearTimers (removeDomEvents E (destroyPopover E s)))
        rfl rfl (by omega)
    · omega
  | commit anchor popper arrow height contains =>
    simp only [step]
    split
    · omega
    · exact owed_le_of_congr d _ _ s rfl rfl (Nat.le_add_right _ _)
  | popperUpdate data =>
    simp only [step, onPopperUpdate]
    split
    · have h2 : ∀ u : Popover, owed d ({ (setTimeout TimerFn.animateIn 20 u).2 with
          animateInTimer := some (setTimeout TimerFn.animateIn 20 u).1 }) =
          owed d (setTimeout TimerFn.animateIn 20 u).2 := fun _ => rfl
      rw [h2, owed_setTimeout d _ _ _ (by cases d <;> simp [Side.fn])]
      exact Nat.le_trans (owed_setState d E _ s) (Nat.le_add_right _ _)
    · omega
  | anchorClick e =>
    simp only [step, onAnchorClick]
    split
    · split
      · rw [owed_emit d _ s (by cases d <;> simp [Side.call])]
        omega
      · omega
    · omega
  | anchorMouseEnter =>
    simp only [step, onAnchorMouseEnter]
    split
    · have h1 := owed_triggerOnMouseEnterWithDelay d (clearIfSet s.onMouseLeaveTimer s)
      have h2 := owed_clearIfSet d s.onMouseLeaveTimer s
      cases d <;> simp [Side.fn, Event.starts] at h1 ⊢ <;> omega
    · omega
  | anchorMouseLeave =>
    simp only [step, onAnchorMouseLeave]
    split
    · have h1 := owed_triggerOnMouseLeaveWithDelay d (clearIfSet s.onMouseEnterTimer s)
      have h2 := owed_clearIfSet d s.onMouseEnterTimer s
      cases d <;> simp [Side.fn, Event.starts] at h1 ⊢ <;> omega
    · omega
  | popoverMouseEnter =>
    simp only [step, onPopoverMouseEnter]
    split
    · have h2 := owed_clearIfSet d s.onMouseLeaveTimer s
      omega
    · omega
  | popoverMouseLeave =>
    simp only [step, onPopoverMouseLeave]
    split
    · have h1 := owed_triggerOnMouseLeaveWithDelay d s
      cases d <;> simp [Side.fn, Event.starts] at h1 ⊢ <;> omega
    · omega
  | documentClick evt =>
    simp only [step, onDocumentClick]
    have h := owed_emit d (Call.propsOnClickOutside evt) s (by cases d <;> simp [Side.call])
    repeat' split
    all_goals omega
  | documentKeyup key =>
    simp only [step, onKeyPress]
    have h := owed_emit d Call.propsOnEsc s (by cases d <;> simp [Side.call])
    repeat' split
    all_goals omega
  | tick =>
    have := owed_tick d E s
    have e : step E Event.tick s = tick E s := rfl
    rw [e]
    omega

theorem owed_run (d : Side) (E : Env) (es : List Event) (s : Popover) :
    owed d (run E es s) ≤ owed d s + es.countP (Event.starts d) := by
  induction es generalizing s with
  | nil => exact Nat.le_refl _
  | cons e rest ih =>
    have e1 : run E (e :: rest) s = run E rest (step E e s) := rfl
    rw [e1, List.countP_cons]
    have h1 := ih (step E e s)
    have h2 := owed_step d E e s
    omega

/-- Clearing a waiting timer of a side takes one from what is owed. -/
theorem owed_clearIfSet_waiting (d : Side) (L : Nat) (s : Popover) (t : Timer TimerFn)
    (ht : t ∈ s.timers) (hid : t.id = L) (hcb : t.cb = d.fn) (hL : 1 ≤ L) :
    owed d (clearIfSet (some L) s) + 1 ≤ owed d s := by
  unfold clearIfSet
  have h0 : (L != 0) = true := by simp; omega
  simp only [h0, if_true]
  have h2 := countP_filter_removed (fun t : Timer TimerFn => t.cb == d.fn)
    (fun t => t.id != L) s.timers t ht (by simp [hcb]) (by simp [hid])
  unfold owed calls waiting clearTimeout
  simp only
  omega

end Popover

/-- C8: take a mounted Popover, a number `k` of milliseconds and any later events
`es`.  If `k` is less than `onMouseLeaveDelay`: the pointer leaving the popover
body calls nothing at once; the delayed call of `props.onMouseLeave` waits as a
timer and still waits `k` ms later; once the pointer then enters the anchor that
timer is gone for good, it is in no later queue; and whatever happens
afterwards, `props.onMouseLeave` has been called at most once for each of its
calls made before, each leave timer that was already waiting and each later
mouse-leave event, so never for this leave.  In the same way, if `k` is less
than `onMouseEnterDelay`: the pointer entering the anchor calls nothing at once,
its timer still waits `k` ms later and is gone for good once the pointer leaves
the anchor, and `props.onMouseEnter` has been called at most once for each of
its calls made before, each enter timer that was already waiting and each later
mouse-enter event on the anchor, so never for this enter. -/
theorem mouse_delay_cancelled (E : Env) (s : Popover) (k : Nat) (es : List Popover.Event)
    (hr : Popover.Reachable E s) (hm : s.phase = Phase.mounted) :
    (k < s.props.onMouseLeaveDelay →
        (Popover.step E Popover.Event.popoverMouseLeave s).trace = s.trace ∧
        ({ id := s.nextTimerId, due := s.now + s.props.onMouseLeaveDelay,
           cb := TimerFn.triggerOnMouseLeave } : Timer TimerFn) ∈
          (Popover.run E (List.replicate k Popover.Event.tick)
            (Popover.step E Popover.Event.popoverMouseLeave s)).timers ∧
        (∀ t ∈ (Popover.run E es (Popover.step E Popover.Event.anchorMouseEnter
            (Popover.run E (List.replicate k Popover.Event.tick)
              (Popover.step E Popover.Event.popoverMouseLeave s)))).timers,
          t.id ≠ s.nextTimerId) ∧
        Popover.calls Popover.Side.leave
            (Popover.run E es (Popover.step E Popover.Event.anchorMouseEnter
              (Popover.run E (List.replicate k Popover.Event.tick)
                (Popover.step E Popover.Event.popoverMouseLeave s)))) ≤
          Popover.calls Popover.Side.leave s + Popover.waiting Popover.Side.leave s +
            es.countP (Popover.Event.starts Popover.Side.leave)) ∧
      (k < s.props.onMouseEnterDelay →
        (Popover.step E Popover.Event.anchorMouseEnter s).trace = s.trace ∧
        ({ id := s.nextTimerId, due := s.now + s.props.onMouseEnterDelay,
           cb := TimerFn.triggerOnMouseEnter } : Timer TimerFn) ∈
          (Popover.run E (List.replicate k Popover.Event.tick)
            (Popover.step E Popover.Event.anchorMouseEnter s)).timers ∧
        (∀ t ∈ (Popover.run E es (Popover.step E Popover.Event.anchorMouseLeave
            (Popover.run E (List.replicate k Popover.Event.tick)
              (Popover.step E Popover.Event.anchorMouseEnter s)))).timers,
          t.id ≠ s.nextTimerId) ∧
        Popover.calls Popover.Side.enter
            (Popover.run E es (Popover.step E Popover.Event.anchorMouseLeave
              (Popover.run E (List.replicate k Popover.Event.tick)
                (Popover.step E Popover.Event.anchorMouseEnter s)))) ≤
          Popover.calls Popover.Side.enter s + Popover.waiting Popover.Side.enter s +
            es.countP (Popover.Event.starts Popover.Side.enter)) := by
  have hq := Popover.queueOk_of_reachable E s hr
  constructor
  · intro hk
    have hd : (s.props.onMouseLeaveDelay != 0) = true := by simp; omega
    -- the state after the pointer left the body
    have e1 : Popover.step E Popover.Event.popoverMouseLeave s =
        { (Popover.setTimeout TimerFn.triggerOnMouseLeave s.props.onMouseLeaveDelay s).2 with
          onMouseLeaveTimer := some s.nextTimerId } := by
      have e : Popover.step E Popover.Event.popoverMouseLeave s =
          if s.phase = Phase.mounted then Popover.onPopoverMouseLeave s else s := rfl
      rw [e, if_pos hm]
      unfold Popover.onPopoverMouseLeave Popover.triggerOnMouseLeaveWithDelay
      rw [if_pos hd]
      rfl
    have hq1 : Popover.QueueOk (Popover.step E Popover.Event.popoverMouseLeave s).timers
        (Popover.step E Popover.Event.popoverMouseLeave s).nextTimerId :=
      Popover.holds_step Popover.queueOk_invariant E _ s hq
    have hmem :
        ({ id := s.nextTimerId, due := s.now + s.props.onMouseLeaveDelay,
           cb := TimerFn.triggerOnMouseLeave } : Timer TimerFn) ∈
        (Popover.step E Popover.Event.popoverMouseLeave s).timers := by
      rw [e1]
      exact List.mem_append_right _ (List.mem_singleton.mpr rfl)
    have hnow : (Popover.step E Popover.Event.popoverMouseLeave s).now = s.now := by
      rw [e1]; rfl
    obtain ⟨a1, a2, a3, a4, a5, a6⟩ := Popover.ticks_keep E k _ _ hq1 hmem
      (by rw [hnow]; show s.now + k < s.now + s.props.onMouseLeaveDelay; omega)
    -- the pointer enters the anchor
    have hphase : (Popover.run E (List.replicate k Popover.Event.tick)
        (Popover.step E Popover.Event.popoverMouseLeave s)).phase = Phase.mounted := by
      rw [a2, e1]; exact hm
    have hfield : (Popover.run E (List.replicate k Popover.Event.tick)
        (Popover.step E Popover.Event.popoverMouseLeave s)).onMouseLeaveTimer =
        some s.nextTimerId := by
      rw [a4, e1]
    have hlt : s.nextTimerId < (Popover.run E (List.replicate k Popover.Event.tick)
        (Popover.step E Popover.Event.popoverMouseLeave s)).nextTimerId := a6.2.1 _ a5
    have e2 : Popover.step E Popover.Event.anchorMouseEnter
        (Popover.run E (List.replicate k Popover.Event.tick)
          (Popover.step E Popover.Event.popoverMouseLeave s)) =
        Popover.triggerOnMouseEnterWithDelay (Popover.clearIfSet (some s.nextTimerId)
          (Popover.run E (List.replicate k Popover.Event.tick)
            (Popover.step E Popover.Event.popoverMouseLeave s))) := by
      have e : ∀ u : Popover, Popover.step E Popover.Event.anchorMouseEnter u =
          if u.phase = Phase.mounted then Popover.onAnchorMouseEnter u else u := fun _ => rfl
      rw [e, if_pos hphase]
      unfold Popover.onAnchorMouseEnter
      rw [hfield]
    have hret : Popover.Holds (Popover.Retired s.nextTimerId)
        (Popover.step E Popover.Event.anchorMouseEnter
          (Popover.run E (List.replicate k Popover.Event.tick)
            (Popover.step E Popover.Event.popoverMouseLeave s))) := by
      rw [e2]
      exact Popover.holds_triggerOnMouseEnterWithDelay (Popover.retired_invariant _) _
        (Popover.retired_clearIfSet _ _ hq.1 hlt)
    refine ⟨by rw [e1]; rfl, a5,
      (Popover.holds_run (Popover.retired_invariant _) E es _ hret).2, ?_⟩
    -- what is owed: one more after the leave, one less after the enter
    have o1 := Popover.owed_step Popover.Side.leave E Popover.Event.popoverMouseLeave s
    have o2 := Popover.owed_ticks Popover.Side.leave E k
      (Popover.step E Popover.Event.popoverMouseLeave s)
    have o3 := Popover.owed_clearIfSet_waiting Popover.Side.leave s.nextTimerId _ _ a5 rfl rfl
      hq.1
    have o4 := Popover.owed_triggerOnMouseEnterWithDelay Popover.Side.leave
      (Popover.clearIfSet (some s.nextTimerId)
        (Popover.run E (List.replicate k Popover.Event.tick)
          (Popover.step E Popover.Event.popoverMouseLeave s)))
    have o5 := Popover.owed_run Popover.Side.leave E es
      (Popover.step E Popover.Event.anchorMouseEnter
        (Popover.run E (List.replicate k Popover.Event.tick)
          (Popover.step E Popover.Event.popoverMouseLeave s)))
    rw [e2] at o5 ⊢
    simp only [Popover.Event.starts, Popover.Side.fn, if_true, reduceCtorEq, if_false] at o1 o4
    unfold Popover.owed at o1 o2 o3 o4 o5
    omega
  · intro hk
    have hd : (s.props.onMouseEnterDelay != 0) = true := by simp; omega
    -- the state after the pointer entered the anchor
    have hq0 : Popover.QueueOk (Popover.clearIfSet s.onMouseLeaveTimer s).timers
        (Popover.clearIfSet s.onMouseLeaveTimer s).nextTimerId :=
      Popover.holds_clearIfSet Popover.queueOk_invariant _ s hq
    have hclr : ∀ o : Option Nat, (Popover.clearIfSet o s).nextTimerId = s.nextTimerId ∧
        (Popover.clearIfSet o s).now = s.now ∧ (Popover.clearIfSet o s).props = s.props ∧
        (Popover.clearIfSet o s).phase = s.phase ∧
        (Popover.clearIfSet o s).trace = s.trace := by
      intro o
      unfold Popover.clearIfSet
      cases o with
      | none => exact ⟨rfl, rfl, rfl, rfl, rfl⟩
      | some i => simp only; split <;> exact ⟨rfl, rfl, rfl, rfl, rfl⟩
    obtain ⟨c1, c2, c3, c4, c5⟩ := hclr s.onMouseLeaveTimer
    have e1 : Popover.step E Popover.Event.anchorMouseEnter s =
        { (Popover.setTimeout TimerFn.triggerOnMouseEnter s.props.onMouseEnterDelay
            (Popover.clearIfSet s.onMouseLeaveTimer s)).2 with
          onMouseEnterTimer := some s.nextTimerId } := by
      have e : Popover.step E Popover.Event.anchorMouseEnter s =
          if s.phase = Phase.mounted then Popover.onAnchorMouseEnter s else s := rfl
      rw [e, if_pos hm]
      unfold Popover.onAnchorMouseEnter Popover.triggerOnMouseEnterWithDelay
      rw [c3, if_pos hd, Popover.setTimeout, c1]
    have hq1 : Popover.QueueOk (Popover.step E Popover.Event.anchorMouseEnter s).timers
        (Popover.step E Popover.Event.anchorMouseEnter s).nextTimerId :=
      Popover.holds_step Popover.queueOk_invariant E _ s hq
    have hmem :
        ({ id := s.nextTimerId, due := s.now + s.props.onMouseEnterDelay,
           cb := TimerFn.triggerOnMouseEnter } : Timer TimerFn) ∈
        (Popover.step E Popover.Event.anchorMouseEnter s).timers := by
      rw [e1]
      refine List.mem_append_right _ (List.mem_singleton.mpr ?_)
      rw [c1, c2]
    have hnow : (Popover.step E Popover.Event.anchorMouseEnter s).now = s.now := by
      rw [e1]; exact c2
    obtain ⟨a1, a2, a3, a4, a5, a6⟩ := Popover.ticks_keep E k _ _ hq1 hmem
      (by rw [hnow]; show s.now + k < s.now + s.props.onMouseEnterDelay; omega)
    -- the pointer leaves the anchor
    have hphase : (Popover.run E (List.replicate k Popover.Event.tick)
        (Popover.step E Popover.Event.anchorMouseEnter s)).phase = Phase.mounted := by
      rw [a2, e1]; exact c4.trans hm
    have hfield : (Popover.run E (List.replicate k Popover.Event.tick)
        (Popover.step E Popover.Event.anchorMouseEnter s)).onMouseEnterTimer =
        some s.nextTimerId := by
      rw [a3, e1]
    have hlt : s.nextTimerId < (Popover.run E (List.replicate k Popover.Event.tick)
        (Popover.step E Popover.Event.anchorMouseEnter s)).nextTimerId := a6.2.1 _ a5
    have e2 : Popover.step E Popover.Event.anchorMouseLeave
        (Popover.run E (List.replicate k Popover.Event.tick)
          (Popover.step E Popover.Event.anchorMouseEnter s)) =
        Popover.triggerOnMouseLeaveWithDelay (Popover.clearIfSet (some s.nextTimerId)
          (Popover.run E (List.replicate k Popover.Event.tick)
            (Popover.step E Popover.Event.anchorMouseEnter s))) := by
      have e : ∀ u : Popover, Popover.step E Popover.Event.anchorMouseLeave u =
          if u.phase = Phase.mounted then Popover.onAnchorMouseLeave u else u := fun _ => rfl
      rw [e, if_pos hphase]
      unfold Popover.onAnchorMouseLeave
      rw [hfield]
    have hret : Popover.Holds (Popover.Retired s.nextTimerId)
        (Popover.step E Popover.Event.anchorMouseLeave
          (Popover.run E (List.replicate k Popover.Event.tick)
            (Popover.step E Popover.Event.anchorMouseEnter s))) := by
      rw [e2]
      exact Popover.holds_triggerOnMouseLeaveWithDelay (Popover.retired_invariant _) _
        (Popover.retired_clearIfSet _ _ hq.1 hlt)
    refine ⟨by rw [e1]; exact c5, a5,
      (Popover.holds_run (Popover.retired_invariant _) E es _ hret).2, ?_⟩
    have o1 := Popover.owed_step Popover.Side.enter E Popover.Event.anchorMouseEnter s
    have o2 := Popover.owed_ticks Popover.Side.enter E k
      (Popover.step E Popover.Event.anchorMouseEnter s)
    have o3 := Popover.owed_clearIfSet_waiting Popover.Side.enter s.nextTimerId _ _ a5 rfl rfl
      hq.1
    have o4 := Popover.owed_triggerOnMouseLeaveWithDelay Popover.Side.enter
      (Popover.clearIfSet (some s.nextTimerId)
        (Popover.run E (List.replicate k Popover.Event.tick)
          (Popover.step E Popover.Event.anchorMouseEnter s)))
    have o5 := Popover.owed_run Popover.Side.enter E es
      (Popover.step E Popover.Event.anchorMouseLeave
        (Popover.run E (List.replicate k Popover.Event.tick)
          (Popover.step E Popover.Event.anchorMouseEnter s)))
    rw [e2] at o5 ⊢
    simp only [Popover.Event.starts, Popover.Side.fn, if_true, reduceCtorEq, if_false] at o1 o4
    unfold Popover.owed at o1 o2 o3 o4 o5
    omega

/-- Witness for C8: a mounted hover Popover with both callbacks given and both
delays at 5 ms.  Left alone for 7 ms, either delayed callback is called once.
When instead the pointer moves on after 2 ms, 5 ms more pass, so that the time
at which the cancelled timer was due is over, and Popper reports an update,
which leaves a timer waiting, the callback has not been called. -/
theorem mouse_delay_cancelled_witness :
    Popover.Reachable Popover.sampleEnv
        (Popover.run Popover.sampleEnv [Popover.Event.mount "bui-1"]
          (Popover.init Popover.hoverProps)) ∧
      (Popover.run Popover.sampleEnv [Popover.Event.mount "bui-1"]
          (Popover.init Popover.hoverProps)).phase = Phase.mounted ∧
      Popover.hoverProps.onMouseLeave = true ∧ Popover.hoverProps.onMouseEnter = true ∧
      Popover.calls Popover.Side.leave
        (Popover.run Popover.sampleEnv (List.replicate 7 Popover.Event.tick)
          (Popover.step Popover.sampleEnv Popover.Event.popoverMouseLeave
            (Popover.run Popover.sampleEnv [Popover.Event.mount "bui-1"]
              (Popover.init Popover.hoverProps)))) = 1 ∧
      Popover.calls Popover.Side.enter
        (Popover.run Popover.sampleEnv (List.replicate 7 Popover.Event.tick)
          (Popover.step Popover.sampleEnv Popover.Event.anchorMouseEnter
            (Popover.run Popover.sampleEnv [Popover.Event.mount "bui-1"]
              (Popover.init Popover.hoverProps)))) = 1 ∧
      Popover.calls Popover.Side.leave
        (Popover.run Popover.sampleEnv
          (List.replicate 5 Popover.Event.tick ++
            [Popover.Event.popperUpdate Popover.sampleData])
          (Popover.step Popover.sampleEnv Popover.Event.anchorMouseEnter
            (Popover.run Popover.sampleEnv (List.replicate 2 Popover.Event.tick)
              (Popover.step Popover.sampleEnv Popover.Event.popoverMouseLeave
                (Popover.run Popover.sampleEnv [Popover.Event.mount "bui-1"]
                  (Popover.init Popover.hoverProps)))))) = 0 ∧
      (Popover.run Popover.sampleEnv
          (List.replicate 5 Popover.Event.tick ++
            [Popover.Event.popperUpdate Popover.sampleData])
          (Popover.step Popover.sampleEnv Popover.Event.anchorMouseEnter
            (Popover.run Popover.sampleEnv (List.replicate 2 Popover.Event.tick)
              (Popover.step Popover.sampleEnv Popover.Event.popoverMouseLeave
                (Popover.run Popover.sampleEnv [Popover.Event.mount "bui-1"]
                  (Popover.init Popover.hoverProps)))))).timers.map (fun t => t.id) = [3] ∧
      Popover.calls Popover.Side.enter
        (Popover.run Popover.sampleEnv
          (List.replicate 5 Popover.Event.tick ++
            [Popover.Event.popperUpdate Popover.sampleData])
          (Popover.step Popover.sampleEnv Popover.Event.anchorMouseLeave
            (Popover.run Popover.sampleEnv (List.replicate 2 Popover.Event.tick)
              (Popover.step Popover.sampleEnv Popover.Event.anchorMouseEnter
                (Popover.run Popover.sampleEnv [Popover.Event.mount "bui-1"]
                  (Popover.init Popover.hoverProps)))))) = 0 ∧
      (Popover.run Popover.sampleEnv
          (List.replicate 5 Popover.Event.tick ++
            [Popover.Event.popperUpdate Popover.sampleData])
          (Popover.step Popover.sampleEnv Popover.Event.anchorMouseLeave
            (Popover.run Popover.sampleEnv (List.replicate 2 Popover.Event.tick)
              (Popover.step Popover.sampleEnv Popover.Event.anchorMouseEnter
                (Popover.run Popover.sampleEnv [Popover.Event.mount "bui-1"]
                  (Popover.init Popover.hoverProps)))))).timers.map (fun t => t.id) = [3] :=
  ⟨⟨Popover.hoverProps, _, rfl⟩, by decide, rfl, rfl, by decide, by decide,
    Nat.le_zero.mp ((mouse_delay_cancelled Popover.sampleEnv
      (Popover.run Popover.sampleEnv [Popover.Event.mount "bui-1"]
        (Popover.init Popover.hoverProps))
      2 (List.replicate 5 Popover.Event.tick ++ [Popover.Event.popperUpdate Popover.sampleData])
      ⟨Popover.hoverProps, _, rfl⟩ (by decide)).1 (by decide)).2.2.2,
    by decide,
    Nat.le_zero.mp ((mouse_delay_cancelled Popover.sampleEnv
      (Popover.run Popover.sampleEnv [Popover.Event.mount "bui-1"]
        (Popover.init Popover.hoverProps))
      2 (List.replicate 5 Popover.Event.tick ++ [Popover.Event.popperUpdate Popover.sampleData])
      ⟨Popover.hoverProps, _, rfl⟩ (by decide)).2 (by decide)).2.2.2,
    by decide⟩

/-! ## Popover: the invariant behind C9 -/

namespace Popover

theorem inv_init (p : PopoverProps) : Inv (init p) where
  queue := ⟨by simp [init], by simp [init], by simp [init]⟩
  enterField := by intro i h; simp [init] at h
  leaveField := by intro i h; simp [init] at h
  enterKind := by intro t ht; simp [init] at ht
  leaveKind := by intro t ht; simp [init] at ht
  anim := by intro _ _ h; simp [init, getDefaultState] at h
  mounted := by intro h; simp [init] at h

/-- A step that takes timers out of the queue and adds none keeps the invariant,
provided it keeps the mouse timer fields and, where the new state needs an
animate-out or completion timer, the old state needed one too and the step kept
all of these. -/
theorem inv_general (s s' : Popover) (h : Inv s)
    (ht : s'.timers.Sublist s.timers) (hn : s'.nextTimerId = s.nextTimerId)
    (he : s'.onMouseEnterTimer = s.onMouseEnterTimer)
    (hl : s'.onMouseLeaveTimer = s.onMouseLeaveTimer)
    (hanim : NeedsOutTimer s' →
      NeedsOutTimer s ∧ ∀ w ∈ s.timers, isOutTimer w → w ∈ s'.timers)
    (hmount : s'.phase = Phase.mounted → s'.state.isMounted = true) : Inv s' where
  queue := by
    rw [hn]
    exact ⟨h.queue.1, fun t hmem => h.queue.2.1 t (ht.subset hmem), h.queue.2.2.sublist ht⟩
  enterField := by rw [he, hn]; exact h.enterField
  leaveField := by rw [hl, hn]; exact h.leaveField
  enterKind := by
    intro t hmem hf
    rw [he] at hf
    exact h.enterKind t (ht.subset hmem) hf
  leaveKind := by
    intro t hmem hf
    rw [hl] at hf
    exact h.leaveKind t (ht.subset hmem) hf
  anim := by
    intro h1 h2 h3
    obtain ⟨⟨a1, a2, a3⟩, hk⟩ := hanim ⟨h1, h2, h3⟩
    obtain ⟨w, hw, hcb⟩ := h.anim a1 a2 a3
    exact ⟨w, hk w hw hcb, hcb⟩
  mounted := hmount

/-- A step that takes timers out of the queue and then sets one timer keeps the
invariant, provided each mouse timer field is kept or is given the new id for a
timer of its kind, and, where the new state needs an animate-out or completion
timer, the new timer is one or the old state needed one and the step kept all of
these. -/
theorem inv_push (s s' : Popover) (h : Inv s) (ts : List (Timer TimerFn)) (d : Nat)
    (cb : TimerFn) (hs : ts.Sublist s.timers)
    (ht : s'.timers = ts ++ [{ id := s.nextTimerId, due := d, cb := cb }])
    (hn : s'.nextTimerId = s.nextTimerId + 1)
    (he : s'.onMouseEnterTimer = s.onMouseEnterTimer ∨
      (s'.onMouseEnterTimer = some s.nextTimerId ∧ cb = TimerFn.triggerOnMouseEnter))
    (hl : s'.onMouseLeaveTimer = s.onMouseLeaveTimer ∨
      (s'.onMouseLeaveTimer = some s.nextTimerId ∧ cb = TimerFn.triggerOnMouseLeave))
    (hanim : NeedsOutTimer s' →
      (cb = TimerFn.animateOut ∨ cb = TimerFn.animateOutComplete) ∨
        (NeedsOutTimer s ∧ ∀ w ∈ s.timers, isOutTimer w → w ∈ ts))
    (hmount : s'.phase = Phase.mounted → s'.state.isMounted = true) : Inv s' where
  queue := by
    rw [hn, ht]
    exact queueOk_invariant.push ts s.nextTimerId d cb
      ⟨h.queue.1, fun t hmem => h.queue.2.1 t (hs.subset hmem), h.queue.2.2.sublist hs⟩
  enterField := by
    intro i hi
    rw [hn]
    rcases he with he | ⟨he, _⟩
    · rw [he] at hi; have := h.enterField i hi; omega
    · rw [he] at hi; cases hi; omega
  leaveField := by
    intro i hi
    rw [hn]
    rcases hl with hl | ⟨hl, _⟩
    · rw [hl] at hi; have := h.leaveField i hi; omega
    · rw [hl] at hi; cases hi; omega
  enterKind := by
    intro t hmem hf
    rw [ht] at hmem
    rcases List.mem_append.mp hmem with hmem | hmem
    · have hlt := h.queue.2.1 t (hs.subset hmem)
      rcases he with he | ⟨he, _⟩
      · rw [he] at hf; exact h.enterKind t (hs.subset hmem) hf
      · rw [he] at hf; have := Option.some.inj hf; omega
    · simp only [List.mem_singleton] at hmem
      subst hmem
      rcases he with he | ⟨_, hc⟩
      · rw [he] at hf
        have := h.enterField _ hf
        simp at this
      · exact hc
  leaveKind := by
    intro t hmem hf
    rw [ht] at hmem
    rcases List.mem_append.mp hmem with hmem | hmem
    · have hlt := h.queue.2.1 t (hs.subset hmem)
      rcases hl with hl | ⟨hl, _⟩
      · rw [hl] at hf; exact h.leaveKind t (hs.subset hmem) hf
      · rw [hl] at hf; have := Option.some.inj hf; omega
    · simp only [List.mem_singleton] at hmem
      subst hmem
      rcases hl with hl | ⟨_, hc⟩
      · rw [hl] at hf
        have := h.leaveField _ hf
        simp at this
      · exact hc
  anim := by
    intro h1 h2 h3
    rw [ht]
    rcases hanim ⟨h1, h2, h3⟩ with hc | ⟨⟨a1, a2, a3⟩, hk⟩
    · exact ⟨_, List.mem_append_right _ (List.mem_singleton.mpr rfl), hc⟩
    · obtain ⟨w, hw, hcb⟩ := h.anim a1 a2 a3
      exact ⟨w, List.mem_append_left _ (hk w hw hcb), hcb⟩
  mounted := hmount

/-- On the fields the invariant reads, `setState` either does nothing (the
component is unmounted) or replaces the state. -/
theorem setState_shape (E : Env) (f : PopoverState → PopoverState) (s : Popover)
    (hf : (f s.state).isMounted = s.state.isMounted) :
    (s.phase = Phase.unmounted ∧ ∃ a, setState E f s = withAux s a) ∨
      (s.phase ≠ Phase.unmounted ∧
        ∃ a, setState E f s = withAux { s with state := f s.state } a) := by
  by_cases hp : s.phase = Phase.unmounted
  · left
    refine ⟨hp, ?_⟩
    unfold setState
    rw [if_pos hp]
    exact emit_aux _ s
  · right
    exact ⟨hp, setState_aux E f s hp hf⟩

/-- The three things `componentDidUpdate` can do to the fields the invariant
reads: nothing, clear the timers of an open Popover, or set the animate-out
timer of a Popover that was just closed. -/
theorem componentDidUpdate_cases (E : Env) (pp : PopoverProps) (ps : PopoverState)
    (s : Popover) :
    ∃ a,
      (componentDidUpdate E pp ps s = withAux s a ∧
        (s.props.isOpen = false → pp.isOpen = false)) ∨
      (componentDidUpdate E pp ps s = withAux (clearTimers s) a ∧ s.props.isOpen = true) ∨
      (componentDidUpdate E pp ps s =
          { withAux s a with
            timers := s.timers ++
              [{ id := s.nextTimerId, due := s.now + 20, cb := TimerFn.animateOut }]
            nextTimerId := s.nextTimerId + 1
            animateOutTimer := some s.nextTimerId } ∧
        s.props.isOpen = false ∧ pp.isOpen = true) := by
  cases ho : s.props.isOpen with
  | true =>
    by_cases h : pp.isOpen = false ∨ s.state.isMounted ≠ ps.isMounted
    · obtain ⟨a, ha⟩ := componentDidUpdate_open E pp ps s ho h
      exact ⟨a, Or.inr (Or.inl ⟨ha, rfl⟩)⟩
    · simp only [not_or, Bool.not_eq_false, ne_eq, not_not] at h
      obtain ⟨a, ha⟩ := componentDidUpdate_same E pp ps s (ho.trans h.1.symm) h.2
      exact ⟨a, Or.inl ⟨ha, fun hc => by cases hc⟩⟩
  | false =>
    cases hpp : pp.isOpen with
    | true =>
      obtain ⟨a, ha⟩ := componentDidUpdate_close E pp ps s ho hpp
      exact ⟨a, Or.inr (Or.inr ⟨ha, rfl, rfl⟩)⟩
    | false =>
      obtain ⟨a, ha⟩ := componentDidUpdate_closed E pp ps s ho hpp
      exact ⟨a, Or.inl ⟨ha, fun _ => rfl⟩⟩

theorem clearIfSet_shape (o : Option Nat) (s : Popover) :
    ∃ ts, ts.Sublist s.timers ∧ clearIfSet o s = { s with timers := ts } ∧
      ∀ t ∈ s.timers, o ≠ some t.id → t ∈ ts := by
  unfold clearIfSet
  cases o with
  | none => exact ⟨s.timers, List.Sublist.refl _, rfl, fun t ht _ => ht⟩
  | some i =>
    simp only
    split
    · refine ⟨s.timers.filter (fun t => t.id != i), List.filter_sublist _, rfl, ?_⟩
      intro t ht hne
      refine List.mem_filter.mpr ⟨ht, ?_⟩
      simp only [bne_iff_ne, ne_eq]
      intro hc
      exact hne (by rw [hc])
    · exact ⟨s.timers, List.Sublist.refl _, rfl, fun t ht _ => ht⟩

theorem clearTimers_shape (s : Popover) :
    ∃ ts, ts.Sublist s.timers ∧ clearTimers s = { s with timers := ts } := by
  unfold clearTimers
  simp only [List.foldl_cons, List.foldl_nil]
  obtain ⟨t1, h1, e1, _⟩ := clearIfSet_shape s.animateInTimer s
  rw [e1]
  obtain ⟨t2, h2, e2, _⟩ := clearIfSet_shape s.animateOutTimer { s with timers := t1 }
  rw [e2]
  obtain ⟨t3, h3, e3, _⟩ := clearIfSet_shape s.animateOutCompleteTimer
    { s with timers := t2 }
  rw [e3]
  obtain ⟨t4, h4, e4, _⟩ := clearIfSet_shape s.onMouseEnterTimer { s with timers := t3 }
  rw [e4]
  obtain ⟨t5, h5, e5, _⟩ := clearIfSet_shape s.onMouseLeaveTimer { s with timers := t4 }
  rw [e5]
  exact ⟨t5, ((((h5.trans h4).trans h3).trans h2).trans h1), rfl⟩

theorem inv_withAux (s : Popover) (a : Aux) (h : Inv s) : Inv (withAux s a) :=
  inv_general s _ h (List.Sublist.refl _) rfl rfl rfl (fun hn => ⟨hn, fun _ hw _ => hw⟩)
    h.mounted

theorem inv_componentDidUpdate (E : Env) (pp : PopoverProps) (ps : PopoverState)
    (r s : Popover) (h : Inv r) (ht : s.timers = r.timers)
    (hn : s.nextTimerId = r.nextTimerId) (he : s.onMouseEnterTimer = r.onMouseEnterTimer)
    (hl : s.onMouseLeaveTimer = r.onMouseLeaveTimer)
    (hanim : NeedsOutTimer s → pp.isOpen = true ∨ NeedsOutTimer r)
    (hmount : s.phase = Phase.mounted → s.state.isMounted = true) :
    Inv (componentDidUpdate E pp ps s) := by
  obtain ⟨a, ⟨e, h1⟩ | ⟨e, h1⟩ | ⟨e, h1, h2⟩⟩ := componentDidUpdate_cases E pp ps s
  · rw [e]
    refine inv_general r _ h (by show s.timers.Sublist r.timers; rw [ht]) hn he hl ?_ hmount
    intro hneed
    have hneed' : NeedsOutTimer s := hneed
    rcases hanim hneed' with hc | hc
    · rw [h1 hneed'.2.1] at hc; cases hc
    · exact ⟨hc, fun w hw _ => by show w ∈ s.timers; rw [ht]; exact hw⟩
  · obtain ⟨ts, hsub, e2⟩ := clearTimers_shape s
    rw [e, e2]
    refine inv_general r _ h (by show ts.Sublist r.timers; rw [← ht]; exact hsub) hn he hl ?_
      hmount
    intro hneed
    have : s.props.isOpen = false := hneed.2.1
    rw [h1] at this; cases this
  · rw [e]
    refine inv_push r _ h r.timers (s.now + 20) TimerFn.animateOut (List.Sublist.refl _)
      (by show s.timers ++ _ = _; rw [ht, hn]) (by show s.nextTimerId + 1 = _; rw [hn])
      (Or.inl he) (Or.inl hl) (fun _ => Or.inl (Or.inl rfl)) hmount

theorem inv_clearIfSet_enter (s : Popover) (h : Inv s) :
    Inv (clearIfSet s.onMouseEnterTimer s) := by
  obtain ⟨ts, hsub, e, hk⟩ := clearIfSet_shape s.onMouseEnterTimer s
  rw [e]
  refine inv_general s _ h hsub rfl rfl rfl ?_ h.mounted
  intro hneed
  refine ⟨hneed, fun w hw hout => hk w hw ?_⟩
  intro hc
  have := h.enterKind w hw hc
  rcases hout with ho | ho <;> rw [ho] at this <;> cases this

theorem inv_clearIfSet_leave (s : Popover) (h : Inv s) :
    Inv (clearIfSet s.onMouseLeaveTimer s) := by
  obtain ⟨ts, hsub, e, hk⟩ := clearIfSet_shape s.onMouseLeaveTimer s
  rw [e]
  refine inv_general s _ h hsub rfl rfl rfl ?_ h.mounted
  intro hneed
  refine ⟨hneed, fun w hw hout => hk w hw ?_⟩
  intro hc
  have := h.leaveKind w hw hc
  rcases hout with ho | ho <;> rw [ho] at this <;> cases this

theorem inv_triggerOnMouseEnterWithDelay (s : Popover) (h : Inv s) :
    Inv (triggerOnMouseEnterWithDelay s) := by
  unfold triggerOnMouseEnterWithDelay triggerOnMouseEnter
  split
  · exact inv_push s _ h s.timers (s.now + s.props.onMouseEnterDelay)
      TimerFn.triggerOnMouseEnter (List.Sublist.refl _) rfl rfl (Or.inr ⟨rfl, rfl⟩)
      (Or.inl rfl) (fun hn => Or.inr ⟨hn, fun _ hw _ => hw⟩) h.mounted
  · split
    · obtain ⟨a, e⟩ := emit_aux Call.propsOnMouseEnter s
      rw [e]; exact inv_withAux s a h
    · exact h

theorem inv_triggerOnMouseLeaveWithDelay (s : Popover) (h : Inv s) :
    Inv (triggerOnMouseLeaveWithDelay s) := by
  unfold triggerOnMouseLeaveWithDelay triggerOnMouseLeave
  split
  · exact inv_push s _ h s.timers (s.now + s.props.onMouseLeaveDelay)
      TimerFn.triggerOnMouseLeave (List.Sublist.refl _) rfl rfl (Or.inl rfl)
      (Or.inr ⟨rfl, rfl⟩) (fun hn => Or.inr ⟨hn, fun _ hw _ => hw⟩) h.mounted
  · split
    · obtain ⟨a, e⟩ := emit_aux Call.propsOnMouseLeave s
      rw [e]; exact inv_withAux s a h
    · exact h

/-- Taking the timer `t0` out of the queue and running its function keeps the
invariant. -/
theorem inv_runTimerFn_filter (E : Env) (s : Popover) (h : Inv s) (t0 : Timer TimerFn)
    (ht0 : t0 ∈ s.timers) :
    Inv (runTimerFn E t0.cb { s with timers := s.timers.filter (fun t => t.id != t0.id) }) := by
  have hsub : (s.timers.filter (fun t => t.id != t0.id)).Sublist s.timers :=
    List.filter_sublist _
  have hkeep : ∀ w ∈ s.timers, w.cb ≠ t0.cb →
      w ∈ s.timers.filter (fun t => t.id != t0.id) := by
    intro w hw hne
    refine List.mem_filter.mpr ⟨hw, ?_⟩
    simp only [bne_iff_ne, ne_eq]
    intro hid
    exact hne (by rw [timer_unique s.timers h.queue.2.2 w t0 hw ht0 hid])
  cases hcb : t0.cb with
  | animateIn =>
    simp only [runTimerFn, animateIn]
    split
    · rename_i hopen
      have hopen' : s.props.isOpen = true := hopen
      rcases setState_shape E (fun st => { st with isAnimating := true })
        { s with timers := s.timers.filter (fun t => t.id != t0.id) } rfl with
        ⟨_, a, e⟩ | ⟨_, a, e⟩
      · rw [e]
        refine inv_general s _ h hsub rfl rfl rfl ?_ h.mounted
        intro hneed
        have : s.props.isOpen = false := hneed.2.1
        rw [hopen'] at this; cases this
      · rw [e]
        refine inv_general s _ h hsub rfl rfl rfl ?_ h.mounted
        intro hneed
        have : s.props.isOpen = false := hneed.2.1
        rw [hopen'] at this; cases this
    · refine inv_general s _ h hsub rfl rfl rfl ?_ h.mounted
      intro hneed
      refine ⟨hneed, fun w hw hout => hkeep w hw ?_⟩
      rw [hcb]
      rcases hout with ho | ho <;> rw [ho] <;> decide
  | animateOut =>
    simp only [runTimerFn, animateOut]
    split
    · rcases setState_shape E (fun st => { st with isAnimating := true })
        { s with timers := s.timers.filter (fun t => t.id != t0.id) } rfl with
        ⟨_, a, e⟩ | ⟨_, a, e⟩
      · rw [e]
        exact inv_push s _ h _ (s.now + 500) TimerFn.animateOutComplete hsub rfl rfl
          (Or.inl rfl) (Or.inl rfl) (fun _ => Or.inl (Or.inr rfl)) h.mounted
      · rw [e]
        exact inv_push s _ h _ (s.now + 500) TimerFn.animateOutComplete hsub rfl rfl
          (Or.inl rfl) (Or.inl rfl) (fun _ => Or.inl (Or.inr rfl)) h.mounted
    · rename_i hopen
      refine inv_general s _ h hsub rfl rfl rfl ?_ h.mounted
      intro hneed
      have h1 : s.props.isOpen = false := hneed.2.1
      exfalso
      apply hopen
      show (!s.props.isOpen) = true
      rw [h1]; rfl
  | animateOutComplete =>
    simp only [runTimerFn, animateOutComplete]
    rcases setState_shape E
      (fun st => { st with isAnimating := false, placement := s.props.placement })
      { s with timers := s.timers.filter (fun t => t.id != t0.id) } rfl with
      ⟨hp, a, e⟩ | ⟨_, a, e⟩
    · rw [e]
      refine inv_general s _ h hsub rfl rfl rfl ?_ h.mounted
      intro hneed
      exact absurd hp hneed.1
    · rw [e]
      refine inv_general s _ h hsub rfl rfl rfl ?_ h.mounted
      intro hneed
      have : false = true := hneed.2.2
      cases this
  | triggerOnMouseEnter =>
    simp only [runTimerFn, triggerOnMouseEnter]
    have hbase : Inv { s with timers := s.timers.filter (fun t => t.id != t0.id) } := by
      refine inv_general s _ h hsub rfl rfl rfl ?_ h.mounted
      intro hneed
      refine ⟨hneed, fun w hw hout => hkeep w hw ?_⟩
      rw [hcb]
      rcases hout with ho | ho <;> rw [ho] <;> decide
    split
    · obtain ⟨a, e⟩ := emit_aux Call.propsOnMouseEnter
        { s with timers := s.timers.filter (fun t => t.id != t0.id) }
      rw [e]; exact inv_withAux _ a hbase
    · exact hbase
  | triggerOnMouseLeave =>
    simp only [runTimerFn, triggerOnMouseLeave]
    have hbase : Inv { s with timers := s.timers.filter (fun t => t.id != t0.id) } := by
      refine inv_general s _ h hsub rfl rfl rfl ?_ h.mounted
      intro hneed
      refine ⟨hneed, fun w hw hout => hkeep w hw ?_⟩
      rw [hcb]
      rcases hout with ho | ho <;> rw [ho] <;> decide
    split
    · obtain ⟨a, e⟩ := emit_aux Call.propsOnMouseLeave
        { s with timers := s.timers.filter (fun t => t.id != t0.id) }
      rw [e]; exact inv_withAux _ a hbase
    · exact hbase

theorem inv_runTimer (E : Env) (i : Nat) (s : Popover) (h : Inv s) :
    Inv (runTimer E i s) := by
  unfold runTimer
  cases hfind : s.timers.find? (fun t => t.id == i) with
  | none => exact h
  | some t0 =>
    have ht0 : t0 ∈ s.timers := List.mem_of_find?_eq_some hfind
    have hid : t0.id = i := by
      have := List.find?_some hfind
      simpa using this
    subst hid
    exact inv_runTimerFn_filter E s h t0 ht0

theorem inv_foldl_runTimer (E : Env) (ids : List Nat) (s : Popover) (h : Inv s) :
    Inv (ids.foldl (fun acc id => runTimer E id acc) s) := by
  induction ids generalizing s with
  | nil => exact h
  | cons i rest ih => exact ih _ (inv_runTimer E i s h)

theorem inv_tick (E : Env) (s : Popover) (h : Inv s) : Inv (tick E s) := by
  unfold tick
  apply inv_foldl_runTimer
  exact inv_general s _ h (List.Sublist.refl _) rfl rfl rfl (fun hn => ⟨hn, fun _ hw _ => hw⟩)
    h.mounted

theorem inv_step (E : Env) (e : Event) (s : Popover) (h : Inv s) : Inv (step E e s) := by
  cases e with
  | mount buiId =>
    simp only [step, componentDidMount]; split
    · rename_i hc
      unfold setState
      rw [if_neg (by simp)]
      refine inv_componentDidUpdate E _ _ s _ h rfl rfl rfl rfl ?_ (fun _ => rfl)
      intro hneed
      right
      exact ⟨by rw [hc]; decide, hneed.2.1, hneed.2.2⟩
    · exact h
  | update props =>
    simp only [step]; split
    · refine inv_componentDidUpdate E _ _ s _ h rfl rfl rfl rfl ?_ h.mounted
      intro hneed
      cases ho : s.props.isOpen with
      | true => exact Or.inl rfl
      | false => exact Or.inr ⟨hneed.1, ho, hneed.2.2⟩
    · exact h
  | unmount =>
    simp only [step, componentWillUnmount]; split
    · obtain ⟨a, ea⟩ := destroyPopover_aux E s
      obtain ⟨b, eb⟩ := removeDomEvents_aux E (withAux s a)
      obtain ⟨ts, hsub, ec⟩ := clearTimers_shape s
      rw [ea, eb, withAux_withAux, clearTimers_withAux, ec]
      refine inv_general s _ h hsub rfl rfl rfl ?_ (fun hc => by cases hc)
      intro hneed
      exact absurd rfl hneed.1
    · exact h
  | commit a b c d f =>
    simp only [step]; split
    · exact h
    · exact inv_general s _ h (List.Sublist.refl _) rfl rfl rfl
        (fun hn => ⟨hn, fun _ hw _ => hw⟩) h.mounted
  | popperUpdate data =>
    simp only [step, onPopperUpdate]; split
    · rcases setState_shape E (fun st =>
        { st with
          arrowOffset :=
            match data.arrowOffset with
            | some a => E.parsePopperOffset a
            | none => { top := 0, left := 0 }
          popoverOffset := E.parsePopperOffset data.popperOffset
          placement :=
            match E.fromPopperPlacement data.placement with
            | some p => p
            | none => E.PLACEMENT_top }) s rfl with ⟨_, a, e⟩ | ⟨_, a, e⟩
      · rw [e]
        exact inv_push s _ h s.timers (s.now + 20) TimerFn.animateIn (List.Sublist.refl _)
          rfl rfl (Or.inl rfl) (Or.inl rfl) (fun hn => Or.inr ⟨hn, fun _ hw _ => hw⟩)
          h.mounted
      · rw [e]
        exact inv_push s _ h s.timers (s.now + 20) TimerFn.animateIn (List.Sublist.refl _)
          rfl rfl (Or.inl rfl) (Or.inl rfl) (fun hn => Or.inr ⟨hn, fun _ hw _ => hw⟩)
          h.mounted
    · exact h
  | anchorClick e =>
    simp only [step, onAnchorClick]; split
    · split
      · obtain ⟨a, ea⟩ := emit_aux (Call.propsOnClick e) s
        rw [ea]; exact inv_withAux s a h
      · exact h
    · exact h
  | anchorMouseEnter =>
    simp only [step, onAnchorMouseEnter]; split
    · exact inv_triggerOnMouseEnterWithDelay _ (inv_clearIfSet_leave s h)
    · exact h
  | anchorMouseLeave =>
    simp only [step, onAnchorMouseLeave]; split
    · exact inv_triggerOnMouseLeaveWithDelay _ (inv_clearIfSet_enter s h)
    · exact h
  | popoverMouseEnter =>
    simp only [step, onPopoverMouseEnter]; split
    · exact inv_clearIfSet_leave s h
    · exact h
  | popoverMouseLeave =>
    simp only [step, onPopoverMouseLeave]; split
    · exact inv_triggerOnMouseLeaveWithDelay s h
    · exact h
  | documentClick evt =>
    simp only [step]; split
    · rcases (onDocumentClick_calls_onClickOutside_aux evt s) with h1 | h1 <;> rw [h1]
      · obtain ⟨a, ea⟩ := emit_aux (Call.propsOnClickOutside evt) s
        rw [ea]; exact inv_withAux s a h
      · exact h
    · exact h
  | documentKeyup key =>
    simp only [step, onKeyPress]; split
    · split
      · obtain ⟨a, ea⟩ := emit_aux Call.propsOnEsc s
        rw [ea]; exact inv_withAux s a h
      · exact h
    · exact h
  | tick => exact inv_tick E s h

theorem inv_run (E : Env) (es : List Event) (s : Popover) (h : Inv s) : Inv (run E es s) := by
  unfold run
  induction es generalizing s with
  | nil => exact h
  | cons e rest ih => exact ih _ (inv_step E e s h)

theorem inv_of_reachable (E : Env) (s : Popover) (h : Reachable E s) : Inv s := by
  obtain ⟨p, es, rfl⟩ := h
  exact inv_run E es _ (inv_init p)

end Popover

/-- C9: in the browser, in every reachable state of a mounted Popover in which
no animation timer (animate-in, animate-out, animate-out-complete) is waiting,
the popover body is rendered if and only if `props.isOpen` is true. -/
theorem settled_body_iff_isOpen (E : Env) (s : Popover) (hB : E.BROWSER = true)
    (hr : Popover.Reachable E s) (hm : s.phase = Phase.mounted)
    (hs : ∀ t ∈ s.timers, t.cb ≠ TimerFn.animateIn ∧ t.cb ≠ TimerFn.animateOut ∧
      t.cb ≠ TimerFn.animateOutComplete) :
    Popover.rendersBody E s = true ↔ s.props.isOpen = true := by
  have h := Popover.inv_of_reachable E s hr
  rw [Popover.rendersBody_eq, hB, h.mounted hm]
  cases ho : s.props.isOpen with
  | true => simp
  | false =>
    cases ha : s.state.isAnimating with
    | false => simp
    | true =>
      exfalso
      obtain ⟨t, ht, hcb⟩ := h.anim (by rw [hm]; decide) ho ha
      have := hs t ht
      rcases hcb with hcb | hcb
      · exact this.2.1 hcb
      · exact this.2.2 hcb

/-- Witness for C9: a Popover that was mounted open and positioned, 20 ms later,
when its animate-in timer has run. -/
theorem settled_body_iff_isOpen_witness :
    Popover.sampleEnv.BROWSER = true ∧
      Popover.Reachable Popover.sampleEnv
        (Popover.run Popover.sampleEnv
          ([Popover.Event.mount "bui-1", Popover.Event.popperUpdate Popover.sampleData] ++
            List.replicate 20 Popover.Event.tick)
          (Popover.init Popover.sampleProps)) ∧
      (Popover.run Popover.sampleEnv
          ([Popover.Event.mount "bui-1", Popover.Event.popperUpdate Popover.sampleData] ++
            List.replicate 20 Popover.Event.tick)
          (Popover.init Popover.sampleProps)).timers = [] ∧
      (Popover.rendersBody Popover.sampleEnv
          (Popover.run Popover.sampleEnv
            ([Popover.Event.mount "bui-1", Popover.Event.popperUpdate Popover.sampleData] ++
              List.replicate 20 Popover.Event.tick)
            (Popover.init Popover.sampleProps)) = true ↔
        (Popover.run Popover.sampleEnv
            ([Popover.Event.mount "bui-1", Popover.Event.popperUpdate Popover.sampleData] ++
              List.replicate 20 Popover.Event.tick)
            (Popover.init Popover.sampleProps)).props.isOpen = true) :=
  ⟨rfl, ⟨Popover.sampleProps, _, rfl⟩, by decide,
    settled_body_iff_isOpen Popover.sampleEnv _ rfl ⟨Popover.sampleProps, _, rfl⟩
      (by decide) (by decide)⟩

/-! ## Popover: accessibility attributes -/

theorem getKey_nil (k : String) : getKey [] k = Val.undefined := rfl

theorem getKey_cons (a : String) (b : Val) (o : Obj) (k : String) :
    getKey ((a, b) :: o) k = if a = k then b else getKey o k := by
  by_cases h : a = k <;> simp [getKey, h]

theorem getKey_setKey (o : Obj) (k : String) (v : Val) (k' : String) :
    getKey (setKey o k v) k' = if k = k' then v else getKey o k' := by
  induction o with
  | nil =>
    unfold setKey
    rw [getKey_cons, getKey_nil]
  | cons kv rest ih =>
    obtain ⟨a, b⟩ := kv
    unfold setKey
    by_cases h : a = k
    · subst h
      rw [if_pos rfl, getKey_cons, getKey_cons]
      by_cases h' : a = k' <;> simp [h']
    · rw [if_neg h, getKey_cons, getKey_cons, ih]
      by_cases h' : a = k'
      · subst h'
        have hk : ¬ k = a := fun hc => h hc.symm
        simp [hk]
      · simp [h']

theorem Popover.bodyId_eq_expected (s : Popover) :
    Popover.stringOrNull (Popover.getPopoverIdAttr s) = Popover.expectedBodyId s := by
  unfold Popover.getPopoverIdAttr Popover.expectedBodyId Popover.truthyString
    Popover.stringOrNull
  cases hid : s.props.id with
  | none =>
    by_cases hg : s.generatedId = "" <;> simp [hg]
  | some v =>
    by_cases hv : v = ""
    · by_cases hg : s.generatedId = "" <;> simp [hv, hg]
    · simp [hv]

/-- C11: take props whose `accessibilityType` is menu or tooltip (two different
constants).  The relation attribute of the anchor is `aria-controls` for a menu
with click trigger, `aria-owns` for a menu with any other trigger and
`aria-describedby` for a tooltip.  When `isOpen` is true it equals the `id` that
`getPopoverBodyProps` puts on the popover body, when `isOpen` is false it is
`null`.  That `id` is `props.id` if non-empty, else the generated id if
non-empty, else `null`.  For a menu `aria-expanded` is 'true' if and only if
`isOpen` is true. -/
theorem relation_attribute_is_body_id (E : Env) (refKey : Popover.RefKey) (s : Popover)
    (hd : E.ACCESSIBILITY_TYPE_menu ≠ E.ACCESSIBILITY_TYPE_tooltip)
    (ht : s.props.accessibilityType = E.ACCESSIBILITY_TYPE_menu ∨
      s.props.accessibilityType = E.ACCESSIBILITY_TYPE_tooltip) :
    getKey (Popover.getAnchorProps E refKey s)
        (if s.props.accessibilityType = E.ACCESSIBILITY_TYPE_menu then
          (if s.props.triggerType = E.TRIGGER_TYPE_click then "aria-controls"
           else "aria-owns")
         else "aria-describedby") =
        (if s.props.isOpen = true then getKey (Popover.getPopoverBodyProps E s) "id"
         else Val.null) ∧
      getKey (Popover.getPopoverBodyProps E s) "id" = Popover.expectedBodyId s ∧
      (s.props.accessibilityType = E.ACCESSIBILITY_TYPE_menu →
        (getKey (Popover.getAnchorProps E refKey s) "aria-expanded" = Val.str "true" ↔
          s.props.isOpen = true)) := by
  have hid := Popover.bodyId_eq_expected s
  rcases ht with hm | htt
  · have hM : Popover.isAccessibilityTypeMenu E s = true := by
      simp [Popover.isAccessibilityTypeMenu, hm]
    have hbody : getKey (Popover.getPopoverBodyProps E s) "id" = Popover.expectedBodyId s := by
      unfold Popover.getPopoverBodyProps
      rw [← hid]
      cases hh : Popover.isHoverTrigger E s <;>
        simp [hM, getKey_setKey, getKey_cons, getKey_nil]
    refine ⟨?_, hbody, ?_⟩
    · rw [hbody, ← hid, if_pos hm]
      unfold Popover.getAnchorProps
      cases refKey <;> cases hh : Popover.isHoverTrigger E s <;>
        cases ho : s.props.isOpen <;>
        by_cases hc : s.props.triggerType = E.TRIGGER_TYPE_click <;>
        simp [hM, hc, Popover.isClickTrigger, getKey_setKey, getKey_cons, getKey_nil,
          Popover.RefKey.name]
    · intro _
      unfold Popover.getAnchorProps
      cases refKey <;> cases hh : Popover.isHoverTrigger E s <;>
        cases ho : s.props.isOpen <;>
        by_cases hc : s.props.triggerType = E.TRIGGER_TYPE_click <;>
        simp [hM, hc, Popover.isClickTrigger, getKey_setKey, getKey_cons, getKey_nil,
          Popover.RefKey.name]
  · have hne : ¬ s.props.accessibilityType = E.ACCESSIBILITY_TYPE_menu := by
      rw [htt]; exact fun hc => hd hc.symm
    have hM : Popover.isAccessibilityTypeMenu E s = false := by
      simp [Popover.isAccessibilityTypeMenu, hne]
    have hT : Popover.isAccessibilityTypeTooltip E s = true := by
      simp [Popover.isAccessibilityTypeTooltip, htt]
    have hbody : getKey (Popover.getPopoverBodyProps E s) "id" = Popover.expectedBodyId s := by
      unfold Popover.getPopoverBodyProps
      rw [← hid]
      cases hh : Popover.isHoverTrigger E s <;>
        simp [hM, hT, getKey_setKey, getKey_cons, getKey_nil]
    refine ⟨?_, hbody, fun hc => absurd hc hne⟩
    rw [hbody, ← hid, if_neg hne]
    unfold Popover.getAnchorProps
    cases refKey <;> cases hh : Popover.isHoverTrigger E s <;>
      cases ho : s.props.isOpen <;>
      simp [hM, hT, getKey_setKey, getKey_cons, getKey_nil, Popover.RefKey.name]

/-- Witness for C11: an open tooltip Popover without `id` prop, mounted with the
generated id "bui-1". -/
theorem relation_attribute_is_body_id_witness :
    Popover.sampleEnv.ACCESSIBILITY_TYPE_menu ≠ Popover.sampleEnv.ACCESSIBILITY_TYPE_tooltip ∧
      (Popover.step Popover.sampleEnv (Popover.Event.mount "bui-1")
          (Popover.init Popover.sampleProps)).props.accessibilityType =
        Popover.sampleEnv.ACCESSIBILITY_TYPE_tooltip ∧
      getKey (Popover.getAnchorProps Popover.sampleEnv Popover.RefKey.ref
          (Popover.step Popover.sampleEnv (Popover.Event.mount "bui-1")
            (Popover.init Popover.sampleProps))) "aria-describedby" =
        getKey (Popover.getPopoverBodyProps Popover.sampleEnv
          (Popover.step Popover.sampleEnv (Popover.Event.mount "bui-1")
            (Popover.init Popover.sampleProps))) "id" ∧
      getKey (Popover.getPopoverBodyProps Popover.sampleEnv
          (Popover.step Popover.sampleEnv (Popover.Event.mount "bui-1")
            (Popover.init Popover.sampleProps))) "id" = Val.str "bui-1" :=
  ⟨by decide, rfl,
    (relation_attribute_is_body_id Popover.sampleEnv Popover.RefKey.ref
      (Popover.step Popover.sampleEnv (Popover.Event.mount "bui-1")
        (Popover.init Popover.sampleProps)) (by decide) (Or.inr rfl)).1,
    (relation_attribute_is_body_id Popover.sampleEnv Popover.RefKey.ref
      (Popover.step Popover.sampleEnv (Popover.Event.mount "bui-1")
        (Popover.init Popover.sampleProps)) (by decide) (Or.inr rfl)).2.1⟩

end Baseweb
